import Mathlib

/-!
# fuzzy: tile-map baking and the frame driver

A shallow embedding of `src/fuzzy/fuzzy.cpp`.

Conventions of the embedding:

* `f32` values are exact rationals: no rounding. A float division by zero has no
  rational value (the machine yields an infinity or a NaN), so it is a fault of the
  model, like an integer division by zero.
* `u32` values are naturals, `s32` values are integers; where the source subtracts
  unsigned values or converts to `s32` the reduction modulo `2^32` is explicit.
  Loop counters, running totals and array indices are bounded by the number of map
  cells and boxes held in the arena, far below `2^32`, and are kept as plain naturals.
* A `(count, pointer)` pair of the source is a list; the count is its length.
* Fallible steps (division by zero, a store outside an array, a missing tileset, a
  failed assertion) return `none`.
* The headers `fuzzy.h`, `fuzzy_types.h` and `tiled.cpp` are not part of the
  sources at hand: record fields are those the code reads and writes.
-/

namespace Fuzzy

/-! ## Machine arithmetic -/

/-- The `f32` type of the source, in exact arithmetic. -/
abbrev f32 := ℚ

/-- Unsigned 32-bit subtraction `a - b`: the difference modulo `2^32`. -/
def u32sub (a b : Nat) : Nat := (a % 2^32 + 2^32 - b % 2^32) % 2^32

/-- Unsigned 32-bit addition. -/
def u32add (a b : Nat) : Nat := (a + b) % 2^32

/-- Unsigned 32-bit multiplication. -/
def u32mul (a b : Nat) : Nat := (a * b) % 2^32

/-- Conversion of an integer value to `s32`: its residue modulo `2^32` in
`[-2^31, 2^31)`. -/
def toS32 (z : Int) : Int := (z + 2^31) % 2^32 - 2^31

/-- Conversion of an `s32` value to `u32`. -/
def toU32 (z : Int) : Nat := (z % 2^32).toNat

/-- Integer quotient `a / b`; division by zero is a fault. -/
def udiv (a b : Nat) : Option Nat := if b = 0 then none else some (a / b)

/-- Integer remainder `a % b`; a zero divisor is a fault. -/
def umod (a b : Nat) : Option Nat := if b = 0 then none else some (a % b)

/-- Float quotient `a / b`; a zero divisor has no value in exact arithmetic. -/
def fdiv (a b : f32) : Option f32 := if b = 0 then none else some (a / b)

/-! ## Vectors and matrices (glm) -/

structure vec2 where
  x : f32
  y : f32
deriving DecidableEq, Repr

structure vec3 where
  x : f32
  y : f32
  z : f32
deriving DecidableEq, Repr

structure vec4 where
  x : f32
  y : f32
  z : f32
  w : f32
deriving DecidableEq, Repr

/-- Componentwise sum of two `vec4`. -/
def vec4.add (a b : vec4) : vec4 := ⟨a.x + b.x, a.y + b.y, a.z + b.z, a.w + b.w⟩

/-- Product of a `vec4` by a scalar. -/
def vec4.smul (a : vec4) (k : f32) : vec4 := ⟨a.x * k, a.y * k, a.z * k, a.w * k⟩

/-- A glm `mat4`, stored by columns: `c0 = m[0]`, ..., `c3 = m[3]`. -/
structure mat4 where
  c0 : vec4
  c1 : vec4
  c2 : vec4
  c3 : vec4
deriving DecidableEq, Repr

/-- The constructor `mat4(1.f)`: the identity matrix. -/
def mat4.identity : mat4 := ⟨⟨1, 0, 0, 0⟩, ⟨0, 1, 0, 0⟩, ⟨0, 0, 1, 0⟩, ⟨0, 0, 0, 1⟩⟩

/-- Matrix times column vector: `m * v`. -/
def mat4.mulVec (m : mat4) (v : vec4) : vec4 :=
  (((m.c0.smul v.x).add (m.c1.smul v.y)).add (m.c2.smul v.z)).add (m.c3.smul v.w)

/-- Matrix product `a * b`: column `j` of the result is `a * b[j]`. -/
def mat4.mul (a b : mat4) : mat4 := ⟨a.mulVec b.c0, a.mulVec b.c1, a.mulVec b.c2, a.mulVec b.c3⟩

/-- The function `glm::translate(m, v)`:
`Result[3] = m[0] * v[0] + m[1] * v[1] + m[2] * v[2] + m[3]`, other columns kept. -/
def glm.translate (m : mat4) (v : vec3) : mat4 :=
  { m with c3 := (((m.c0.smul v.x).add (m.c1.smul v.y)).add (m.c2.smul v.z)).add m.c3 }

/-- The function `glm::scale(m, v)`: column `i < 3` is `m[i] * v[i]`, the last is kept. -/
def glm.scale (m : mat4) (v : vec3) : mat4 :=
  ⟨m.c0.smul v.x, m.c1.smul v.y, m.c2.smul v.z, m.c3⟩

/-- The matrix of the translation by `v`. -/
def translation (v : vec3) : mat4 :=
  ⟨⟨1, 0, 0, 0⟩, ⟨0, 1, 0, 0⟩, ⟨0, 0, 1, 0⟩, ⟨v.x, v.y, v.z, 1⟩⟩

/-- The matrix of the scaling by `v` along the axes. -/
def scaling (v : vec3) : mat4 :=
  ⟨⟨v.x, 0, 0, 0⟩, ⟨0, v.y, 0, 0⟩, ⟨0, 0, v.z, 0⟩, ⟨0, 0, 0, 1⟩⟩

/-! ## Data model -/

/-- An axis-aligned box: position and size. -/
structure aabb where
  Position : vec2
  Size : vec2
deriving DecidableEq, Repr

/-- Collision metadata of one tile: `Boxes` with `BoxCount` entries. -/
structure tile_meta_info where
  Boxes : List aabb
deriving DecidableEq, Repr

/-- The field `BoxCount`. -/
def tile_meta_info.BoxCount (i : tile_meta_info) : Nat := i.Boxes.length

/-- The decoded tileset image (its pixel memory is not needed here). -/
structure bitmap where
  Width : Nat
  Height : Nat

/-- A tileset. `Tiles` is the backing store of the per-tile metadata, a map from
local tile index to metadata. -/
structure tileset where
  Columns : Nat
  Margin : Nat
  Spacing : Nat
  TileWidthInPixels : Nat
  TileHeightInPixels : Nat
  TileWidthInMeters : f32
  TileHeightInMeters : f32
  Image : bitmap
  Tiles : Nat → Option tile_meta_info

/-- Modelled from the spec: `GetTileMetaInfo` is defined in `tiled.cpp`, which is
missing. It returns the metadata of a local tile index, or null when the index has
no custom collision data. -/
def GetTileMetaInfo (Tileset : tileset) (Index : Nat) : Option tile_meta_info :=
  Tileset.Tiles Index

/-- A chunk of a tile layer: grid origin, size in tiles and `GIDs` with `GIDCount`
entries. -/
structure map_chunk where
  X : Int
  Y : Int
  Width : Nat
  Height : Nat
  GIDs : List Nat
deriving DecidableEq, Repr

/-- The field `GIDCount`. -/
def map_chunk.GIDCount (c : map_chunk) : Nat := c.GIDs.length

/-- A tile layer: `Chunks` with `ChunkCount` entries. -/
structure tile_layer where
  Chunks : List map_chunk

/-- An entry of the tileset list of a map. -/
structure map_tileset where
  Source : tileset
  FirstGID : Nat

/-- A loaded map. -/
structure tiled_map where
  TileLayers : List tile_layer
  Tilesets : List map_tileset

/-! ## Geometry baker: first pass (lines 523-544) -/

/-- The two totals of the first pass. -/
structure bake_counts where
  TotalTileCount : Nat
  TotalTileBoxCount : Nat
deriving DecidableEq, Repr

/-- Body of the innermost loop of the first pass, for one cell. -/
def countCell (Tileset : tileset) (TilesetFirstGID : Nat) (s : bake_counts) (GID : Nat) :
    bake_counts :=
  if GID > 0 then
    let s1 := { s with TotalTileCount := s.TotalTileCount + 1 }
    match GetTileMetaInfo Tileset (u32sub GID TilesetFirstGID) with
    | some TileInfo => { s1 with TotalTileBoxCount := s1.TotalTileBoxCount + TileInfo.BoxCount }
    | none => s1
  else s

/-- The loop over the cells of a chunk. -/
def countChunk (Tileset : tileset) (TilesetFirstGID : Nat) (s : bake_counts) (Chunk : map_chunk) :
    bake_counts :=
  Chunk.GIDs.foldl (countCell Tileset TilesetFirstGID) s

/-- The loop over the chunks of a layer. -/
def countLayer (Tileset : tileset) (TilesetFirstGID : Nat) (s : bake_counts) (Layer : tile_layer) :
    bake_counts :=
  Layer.Chunks.foldl (countChunk Tileset TilesetFirstGID) s

/-- The first pass: both totals start at 0 and every layer is visited. -/
def firstPass (Map : tiled_map) (Tileset : tileset) (TilesetFirstGID : Nat) : bake_counts :=
  Map.TileLayers.foldl (countLayer Tileset TilesetFirstGID) ⟨0, 0⟩

/-! ## Geometry baker: second pass (lines 546-632) -/

/-- Arrays and running indices of the second pass. -/
structure bake_arrays where
  TileInstanceModels : List mat4
  TileInstanceUVOffsets01 : List vec2
  TileBoxes : List aabb
  TileBoxInstanceModels : List mat4
  TileInstanceIndex : Nat
  TileBoxIndex : Nat
deriving DecidableEq, Repr

/-- A write `a[i] = v`; an index outside the array is a fault. -/
def store {α : Type} (a : List α) (i : Nat) (v : α) : Option (List α) :=
  if i < a.length then some (a.set i v) else none

/-- The zero matrix, content of a fresh arena block. -/
def mat4.zero : mat4 := ⟨⟨0, 0, 0, 0⟩, ⟨0, 0, 0, 0⟩, ⟨0, 0, 0, 0⟩, ⟨0, 0, 0, 0⟩⟩

/-- The zero box, content of a fresh arena block. -/
def aabb.zero : aabb := ⟨⟨0, 0⟩, ⟨0, 0⟩⟩

/-- The call `PushArray<T>(Arena, Count)`: a zero-initialized block of `Count` entries.
The capacity of the arena is not modelled. -/
def PushArray {α : Type} (zero : α) (Count : Nat) : List α := List.replicate Count zero

/-- The value `vec2(TileWidthInPixels / Image.Width, TileHeightInPixels / Image.Height)`
of lines 425-426. -/
def TileSize01 (Tileset : tileset) : Option vec2 := do
  let w ← fdiv Tileset.TileWidthInPixels Tileset.Image.Width
  let h ← fdiv Tileset.TileHeightInPixels Tileset.Image.Height
  pure ⟨w, h⟩

/-- The value `vec2(ScreenWidthInMeters / 2.f, ScreenHeightInMeters / 2.f)` of
lines 552-555. -/
def ScreenCenterInMeters (ScreenWidthInMeters ScreenHeightInMeters : f32) : vec2 :=
  ⟨ScreenWidthInMeters / 2, ScreenHeightInMeters / 2⟩

/-- The local `s32 TileMapX = Chunk->X + (GIDIndex % Chunk->Width)`. -/
def TileMapX (Chunk : map_chunk) (GIDIndex : Nat) : Option Int := do
  let r ← umod GIDIndex Chunk.Width
  pure (toS32 (Chunk.X + r))

/-- The local `s32 TileMapY = Chunk->Y + (GIDIndex / Chunk->Height)`. -/
def TileMapY (Chunk : map_chunk) (GIDIndex : Nat) : Option Int := do
  let q ← udiv GIDIndex Chunk.Height
  pure (toS32 (Chunk.Y + q))

/-- The local `f32 TileXMeters`. -/
def TileXMeters (Tileset : tileset) (Center : vec2) (MapX : Int) : f32 :=
  Center.x + MapX * Tileset.TileWidthInMeters

/-- The local `f32 TileYMeters`. -/
def TileYMeters (Tileset : tileset) (Center : vec2) (MapY : Int) : f32 :=
  Center.y - MapY * Tileset.TileHeightInMeters

/-- The matrix written to `*TileInstanceModel`: identity, translated, then scaled. -/
def TileInstanceModel (Tileset : tileset) (XMeters YMeters : f32) : mat4 :=
  glm.scale (glm.translate mat4.identity ⟨XMeters, YMeters, 0⟩)
    ⟨Tileset.TileWidthInMeters, Tileset.TileHeightInMeters, 0⟩

/-- The local `s32 TileX = (GID - TilesetFirstGID) % Tileset->Columns`. -/
def TileX (Tileset : tileset) (TilesetFirstGID GID : Nat) : Option Int := do
  let r ← umod (u32sub GID TilesetFirstGID) Tileset.Columns
  pure (toS32 r)

/-- The local `s32 TileY = (GID - TilesetFirstGID) / Tileset->Columns`. -/
def TileY (Tileset : tileset) (TilesetFirstGID GID : Nat) : Option Int := do
  let q ← udiv (u32sub GID TilesetFirstGID) Tileset.Columns
  pure (toS32 q)

/-- The first value stored in `*TileInstanceUVOffset01` (lines 589-592), in integer
arithmetic: it takes the spacing and the margin into account. Its operands are read as
unsigned 32-bit values (their declarations are in the missing header); line 594
overwrites it at once, so only its two divisors matter. -/
def SpacedUVOffset (Tileset : tileset) (X Y : Int) : Option vec2 := do
  let u ← udiv (u32add (u32mul (toU32 X) (u32add Tileset.TileWidthInPixels Tileset.Spacing))
    Tileset.Margin) Tileset.Image.Width
  let v ← udiv (u32add (u32mul (toU32 Y) (u32add Tileset.TileHeightInPixels Tileset.Spacing))
    Tileset.Margin) Tileset.Image.Height
  pure ⟨u, v⟩

/-- The value `vec2(TileX * TileSize01.x, TileY * TileSize01.y)` of line 594, the one
that stays in `*TileInstanceUVOffset01`. -/
def TileInstanceUVOffset01 (Size01 : vec2) (X Y : Int) : vec2 :=
  ⟨X * Size01.x, Y * Size01.y⟩

/-- The local `f32 TilesetPixelsToMeters`. -/
def TilesetPixelsToMeters (Tileset : tileset) : Option f32 :=
  fdiv Tileset.TileWidthInMeters Tileset.TileWidthInPixels

/-- The box written to `*TileBox` (lines 606-614) for the metadata box `Box`. -/
def TileBox (Tileset : tileset) (XMeters YMeters PixelsToMeters : f32) (Box : aabb) : aabb :=
  { Position :=
      ⟨XMeters + Box.Position.x * PixelsToMeters,
       YMeters + ((Tileset.TileHeightInPixels - Box.Position.y - Box.Size.y) * PixelsToMeters)⟩
    Size := ⟨Box.Size.x * PixelsToMeters, Box.Size.y * PixelsToMeters⟩ }

/-- The matrix written to `*TileBoxInstanceModel` (lines 617-622). -/
def TileBoxInstanceModel (Box : aabb) : mat4 :=
  glm.scale (glm.translate mat4.identity ⟨Box.Position.x, Box.Position.y, 0⟩)
    ⟨Box.Size.x, Box.Size.y, 0⟩

/-- Body of the loop over the boxes of a tile (lines 602-624). -/
def fillBox (Tileset : tileset) (XMeters YMeters : f32) (s : bake_arrays) (Box : aabb) :
    Option bake_arrays := do
  let p ← TilesetPixelsToMeters Tileset
  let b := TileBox Tileset XMeters YMeters p Box
  let Boxes ← store s.TileBoxes s.TileBoxIndex b
  let Models0 ← store s.TileBoxInstanceModels s.TileBoxIndex mat4.identity
  let Models ← store Models0 s.TileBoxIndex (TileBoxInstanceModel b)
  pure { s with TileBoxes := Boxes, TileBoxInstanceModels := Models,
                TileBoxIndex := s.TileBoxIndex + 1 }

/-- The loop over the boxes of a tile. -/
def fillBoxes (Tileset : tileset) (XMeters YMeters : f32) :
    bake_arrays → List aabb → Option bake_arrays
  | s, [] => some s
  | s, Box :: rest => (fillBox Tileset XMeters YMeters s Box).bind
      (fun s1 => fillBoxes Tileset XMeters YMeters s1 rest)

/-- Body of the innermost loop of the second pass (lines 565-629), for the cell
`GIDIndex` of `Chunk`, holding `GID`. -/
def fillCell (Tileset : tileset) (TilesetFirstGID : Nat) (Center Size01 : vec2)
    (Chunk : map_chunk) (GIDIndex GID : Nat) (s : bake_arrays) : Option bake_arrays :=
  if GID > 0 then do
    let Models0 ← store s.TileInstanceModels s.TileInstanceIndex mat4.identity
    let MapX ← TileMapX Chunk GIDIndex
    let MapY ← TileMapY Chunk GIDIndex
    let XMeters := TileXMeters Tileset Center MapX
    let YMeters := TileYMeters Tileset Center MapY
    let Models ← store Models0 s.TileInstanceIndex (TileInstanceModel Tileset XMeters YMeters)
    let X ← TileX Tileset TilesetFirstGID GID
    let Y ← TileY Tileset TilesetFirstGID GID
    let Spaced ← SpacedUVOffset Tileset X Y
    let UVs0 ← store s.TileInstanceUVOffsets01 s.TileInstanceIndex Spaced
    let UVs ← store UVs0 s.TileInstanceIndex (TileInstanceUVOffset01 Size01 X Y)
    let s1 := { s with TileInstanceModels := Models, TileInstanceUVOffsets01 := UVs }
    let s2 ← match GetTileMetaInfo Tileset (u32sub GID TilesetFirstGID) with
      | some TileInfo => fillBoxes Tileset XMeters YMeters s1 TileInfo.Boxes
      | none => some s1
    pure { s2 with TileInstanceIndex := s2.TileInstanceIndex + 1 }
  else some s

/-- The loop over the cells of a chunk, from cell `GIDIndex` on; `GIDs` holds the
cells not visited yet. -/
def fillCells (Tileset : tileset) (TilesetFirstGID : Nat) (Center Size01 : vec2)
    (Chunk : map_chunk) : Nat → List Nat → bake_arrays → Option bake_arrays
  | _, [], s => some s
  | GIDIndex, GID :: rest, s =>
    (fillCell Tileset TilesetFirstGID Center Size01 Chunk GIDIndex GID s).bind
      (fun s1 => fillCells Tileset TilesetFirstGID Center Size01 Chunk (GIDIndex + 1) rest s1)

/-- The loop over the chunks of a layer. -/
def fillChunks (Tileset : tileset) (TilesetFirstGID : Nat) (Center Size01 : vec2) :
    List map_chunk → bake_arrays → Option bake_arrays
  | [], s => some s
  | Chunk :: rest, s =>
    (fillCells Tileset TilesetFirstGID Center Size01 Chunk 0 Chunk.GIDs s).bind
      (fun s1 => fillChunks Tileset TilesetFirstGID Center Size01 rest s1)

/-- The loop over the layers of the map. -/
def fillLayers (Tileset : tileset) (TilesetFirstGID : Nat) (Center Size01 : vec2) :
    List tile_layer → bake_arrays → Option bake_arrays
  | [], s => some s
  | Layer :: rest, s =>
    (fillChunks Tileset TilesetFirstGID Center Size01 Layer.Chunks s).bind
      (fun s1 => fillLayers Tileset TilesetFirstGID Center Size01 rest s1)

/-- The second pass: the four arrays are pushed with the sizes of the first pass,
both indices start at 0 and every layer is visited. -/
def secondPass (Map : tiled_map) (Tileset : tileset) (TilesetFirstGID : Nat)
    (Center Size01 : vec2) (Counts : bake_counts) : Option bake_arrays :=
  fillLayers Tileset TilesetFirstGID Center Size01 Map.TileLayers
    { TileInstanceModels := PushArray mat4.zero Counts.TotalTileCount
      TileInstanceUVOffsets01 := PushArray (⟨0, 0⟩ : vec2) Counts.TotalTileCount
      TileBoxes := PushArray aabb.zero Counts.TotalTileBoxCount
      TileBoxInstanceModels := PushArray mat4.zero Counts.TotalTileBoxCount
      TileInstanceIndex := 0
      TileBoxIndex := 0 }

/-- The geometry baker (lines 523-632): first pass, then second pass. -/
def bake (Map : tiled_map) (Tileset : tileset) (TilesetFirstGID : Nat)
    (Center Size01 : vec2) : Option (bake_counts × bake_arrays) :=
  let Counts := firstPass Map Tileset TilesetFirstGID
  (secondPass Map Tileset TilesetFirstGID Center Size01 Counts).map (fun a => (Counts, a))

/-! ## The cells of a map, in visiting order -/

/-- A cell of a chunk: the chunk, the index of the cell in the chunk and its GID. -/
structure map_cell where
  Chunk : map_chunk
  GIDIndex : Nat
  GID : Nat
deriving DecidableEq, Repr

/-- The cells of `Chunk` from index `i` on, `GIDs` being their contents. -/
def cellsFrom (Chunk : map_chunk) : Nat → List Nat → List map_cell
  | _, [] => []
  | i, GID :: rest => ⟨Chunk, i, GID⟩ :: cellsFrom Chunk (i + 1) rest

/-- The cells of a chunk by cell index. -/
def chunkCells (Chunk : map_chunk) : List map_cell := cellsFrom Chunk 0 Chunk.GIDs

/-- The cells of a layer: chunk by chunk. -/
def layerCells (Layer : tile_layer) : List map_cell := Layer.Chunks.flatMap chunkCells

/-- The cells of a map: layer by layer, chunk by chunk, cell by cell. -/
def mapCells (Map : tiled_map) : List map_cell := Map.TileLayers.flatMap layerCells

/-- The cells of a map whose GID is not 0, in visiting order. -/
def nonEmptyCells (Map : tiled_map) : List map_cell :=
  (mapCells Map).filter (fun c => decide (c.GID > 0))

/-- Number of boxes the metadata lists for the tile of a cell: `BoxCount` of the
lookup, 0 when the lookup is null. -/
def cellBoxCount (Tileset : tileset) (TilesetFirstGID : Nat) (c : map_cell) : Nat :=
  match GetTileMetaInfo Tileset (u32sub c.GID TilesetFirstGID) with
  | some TileInfo => TileInfo.BoxCount
  | none => 0

/-- The boxes the metadata lists for the tile of a cell, in metadata order; none when
the lookup is null. -/
def cellMetaBoxes (Tileset : tileset) (TilesetFirstGID : Nat) (c : map_cell) : List aabb :=
  match GetTileMetaInfo Tileset (u32sub c.GID TilesetFirstGID) with
  | some TileInfo => TileInfo.Boxes
  | none => []

/-- What the baker computes for one non-empty cell. -/
structure tile_instance where
  Model : mat4
  UVOffset01 : vec2
  Boxes : List aabb
deriving DecidableEq, Repr

/-- The metadata boxes of a tile converted to world space, in metadata order. -/
def bakeBoxes (Tileset : tileset) (XMeters YMeters : f32) : List aabb → Option (List aabb)
  | [] => some []
  | Box :: rest =>
    (TilesetPixelsToMeters Tileset).bind (fun p =>
      (bakeBoxes Tileset XMeters YMeters rest).map (fun r =>
        TileBox Tileset XMeters YMeters p Box :: r))

/-- The matrix, UV offset and boxes of one non-empty cell, from the formulas of the
second pass. -/
def bakeCell (Tileset : tileset) (TilesetFirstGID : Nat) (Center Size01 : vec2)
    (c : map_cell) : Option tile_instance := do
  let MapX ← TileMapX c.Chunk c.GIDIndex
  let MapY ← TileMapY c.Chunk c.GIDIndex
  let XMeters := TileXMeters Tileset Center MapX
  let YMeters := TileYMeters Tileset Center MapY
  let X ← TileX Tileset TilesetFirstGID c.GID
  let Y ← TileY Tileset TilesetFirstGID c.GID
  let _ ← SpacedUVOffset Tileset X Y
  let Boxes ← match GetTileMetaInfo Tileset (u32sub c.GID TilesetFirstGID) with
    | some TileInfo => bakeBoxes Tileset XMeters YMeters TileInfo.Boxes
    | none => some []
  pure ⟨TileInstanceModel Tileset XMeters YMeters, TileInstanceUVOffset01 Size01 X Y, Boxes⟩

/-- All results of `f` over a list, or `none` as soon as one is missing. -/
def mapOpt {α β : Type} (f : α → Option β) : List α → Option (List β)
  | [] => some []
  | a :: rest => (f a).bind (fun b => (mapOpt f rest).map (fun bs => b :: bs))

/-- The arrays after the tiles `T` have been written, with `n` tile slots and `k` box
slots still untouched. -/
def arraysOf (T : List tile_instance) (n k : Nat) : bake_arrays :=
  { TileInstanceModels := T.map (fun t => t.Model) ++ List.replicate n mat4.zero
    TileInstanceUVOffsets01 := T.map (fun t => t.UVOffset01) ++ List.replicate n (⟨0, 0⟩ : vec2)
    TileBoxes := T.flatMap (fun t => t.Boxes) ++ List.replicate k aabb.zero
    TileBoxInstanceModels :=
      (T.flatMap (fun t => t.Boxes)).map TileBoxInstanceModel ++ List.replicate k mat4.zero
    TileInstanceIndex := T.length
    TileBoxIndex := (T.flatMap (fun t => t.Boxes)).length }

/-! ## Bookkeeping of the loops -/

/-- The non-empty cells among `cells`. -/
def keepNonEmpty (cells : List map_cell) : List map_cell :=
  cells.filter (fun c => decide (c.GID > 0))

/-- Number of tile instances the cells `cells` call for. -/
def tilesNeeded (cells : List map_cell) : Nat := (keepNonEmpty cells).length

/-- Number of boxes the cells `cells` call for. -/
def boxesNeeded (Tileset : tileset) (TilesetFirstGID : Nat) (cells : List map_cell) : Nat :=
  ((keepNonEmpty cells).map (cellBoxCount Tileset TilesetFirstGID)).sum

/-- The run `run` of a part of the second pass writes, after what is already written
and provided enough slots are left, what `bakeCell` gives for the non-empty cells
among `cells`, in order. -/
def Fills (Tileset : tileset) (TilesetFirstGID : Nat) (Center Size01 : vec2)
    (run : bake_arrays → Option bake_arrays) (cells : List map_cell) : Prop :=
  ∀ (T : List tile_instance) (n k : Nat), tilesNeeded cells ≤ n →
    boxesNeeded Tileset TilesetFirstGID cells ≤ k →
    run (arraysOf T n k)
      = (mapOpt (bakeCell Tileset TilesetFirstGID Center Size01) (keepNonEmpty cells)).map
          (fun ts => arraysOf (T ++ ts) (n - tilesNeeded cells)
            (k - boxesNeeded Tileset TilesetFirstGID cells))

/-- The run `run` of a part of the first pass adds to both totals what the cells
`cells` call for. -/
def Counts (Tileset : tileset) (TilesetFirstGID : Nat)
    (run : bake_counts → bake_counts) (cells : List map_cell) : Prop :=
  ∀ s : bake_counts, run s =
    ⟨s.TotalTileCount + tilesNeeded cells,
     s.TotalTileBoxCount + boxesNeeded Tileset TilesetFirstGID cells⟩

/-- No divisor that the second pass uses for the cell `c` is zero: the chunk width and
height, the column count, the image size of the dead store and, when the tile has
boxes, the tile width in pixels. -/
def cellDivisorsOk (Tileset : tileset) (TilesetFirstGID : Nat) (c : map_cell) : Prop :=
  c.Chunk.Width ≠ 0 ∧ c.Chunk.Height ≠ 0 ∧ Tileset.Columns ≠ 0 ∧
  Tileset.Image.Width ≠ 0 ∧ Tileset.Image.Height ≠ 0 ∧
  (cellBoxCount Tileset TilesetFirstGID c ≠ 0 → Tileset.TileWidthInPixels ≠ 0)

instance (Tileset : tileset) (TilesetFirstGID : Nat) (c : map_cell) :
    Decidable (cellDivisorsOk Tileset TilesetFirstGID c) := by
  unfold cellDivisorsOk
  infer_instance

/-! ## The scenario of the specification -/

/-- A tileset of 16x16-pixel tiles, one meter wide and high, two columns in a 32x16
image; the tile of local index 1 carries the box at (2,2) of size (4,4). -/
def scenarioTileset : tileset :=
  { Columns := 2, Margin := 0, Spacing := 0, TileWidthInPixels := 16, TileHeightInPixels := 16,
    TileWidthInMeters := 1, TileHeightInMeters := 1, Image := ⟨32, 16⟩,
    Tiles := fun i => if i = 1 then some ⟨[⟨⟨2, 2⟩, ⟨4, 4⟩⟩]⟩ else none }

/-- The 2x2 chunk at origin (0,0) with GIDs `[1,0,2,0]`. -/
def scenarioChunk : map_chunk := { X := 0, Y := 0, Width := 2, Height := 2, GIDs := [1, 0, 2, 0] }

/-- The map with one layer made of `scenarioChunk` and first-GID 1. -/
def scenarioMap : tiled_map :=
  { TileLayers := [⟨[scenarioChunk]⟩], Tilesets := [⟨scenarioTileset, 1⟩] }

/-- The arrays the second pass returns on the scenario, with screen centre (0,0). -/
def scenarioArrays : bake_arrays :=
  { TileInstanceModels :=
      [⟨⟨1, 0, 0, 0⟩, ⟨0, 1, 0, 0⟩, ⟨0, 0, 0, 0⟩, ⟨0, 0, 0, 1⟩⟩,
       ⟨⟨1, 0, 0, 0⟩, ⟨0, 1, 0, 0⟩, ⟨0, 0, 0, 0⟩, ⟨0, -1, 0, 1⟩⟩]
    TileInstanceUVOffsets01 := [⟨0, 0⟩, ⟨1 / 2, 0⟩]
    TileBoxes := [⟨⟨1 / 8, -3 / 8⟩, ⟨1 / 4, 1 / 4⟩⟩]
    TileBoxInstanceModels :=
      [⟨⟨1 / 4, 0, 0, 0⟩, ⟨0, 1 / 4, 0, 0⟩, ⟨0, 0, 0, 0⟩, ⟨1 / 8, -3 / 8, 0, 1⟩⟩]
    TileInstanceIndex := 2
    TileBoxIndex := 1 }

/-- A tileset with a single column of 16x16-pixel tiles in a 16x16 image, without
metadata. -/
def singleColumnTileset : tileset :=
  { Columns := 1, Margin := 0, Spacing := 0, TileWidthInPixels := 16, TileHeightInPixels := 16,
    TileWidthInMeters := 1, TileHeightInMeters := 1, Image := ⟨16, 16⟩,
    Tiles := fun _ => none }

/-! ## Frame driver -/

/-- The function `glm::ortho(left, right, bottom, top)`. With a zero width or height
the matrix has no finite value. -/
def glm.ortho (left right bottom top : f32) : Option mat4 := do
  let sx ← fdiv 2 (right - left)
  let sy ← fdiv 2 (top - bottom)
  let tx ← fdiv (-(right + left)) (right - left)
  let ty ← fdiv (-(top + bottom)) (top - bottom)
  pure ⟨⟨sx, 0, 0, 0⟩, ⟨0, sy, 0, 0⟩, ⟨0, 0, -1, 0⟩, ⟨tx, ty, 0, 1⟩⟩

/-- A button of the input state. -/
structure game_button_state where
  isPressed : Bool
deriving DecidableEq, Repr

/-- The input state of a frame. -/
structure game_input where
  Left : game_button_state
  Right : game_button_state
deriving DecidableEq, Repr

/-- The per-frame parameters. -/
structure game_params where
  ScreenWidth : Int
  ScreenHeight : Int
  Input : game_input
deriving DecidableEq, Repr

/-- The persistent game state. `Projection` is `none` when the matrix is not finite. -/
structure game_state where
  IsInitialized : Bool
  ScreenWidthInMeters : f32
  ScreenHeightInMeters : f32
  Map : tiled_map
  TilesShaderProgram : Nat
  TileBoxesShaderProgram : Nat
  VPUniformLocation : Int
  VPUniformLocation2 : Int
  TotalTileCount : Nat
  TotalTileBoxCount : Nat
  TilesVAO : Nat
  TileBoxesVAO : Nat
  UpdateRate : f32
  Lag : f32
  CameraPosition : vec2
  Zoom : f32
  Projection : Option mat4

/-- The data of a buffer upload. -/
inductive buffer_data where
  | Floats (v : List f32)
  | Matrices (v : List mat4)
  | Vectors (v : List vec2)
deriving DecidableEq, Repr

/-- A call to the platform or to the renderer, with the arguments that matter. -/
inductive api_call where
  | ReadTextFile (Path : String)
  | PrintOutput (Text : String)
  | LoadMap (Json : String)
  | glGenTextures
  | glBindTexture (Texture : Nat)
  | glTexParameteri (Pname Param : String)
  | glTexImage2D (Width Height : Nat)
  | glCreateShader (Kind : String)
  | glShaderSource (Shader : Nat) (Source : String)
  | glCompileShader (Shader : Nat)
  | glGetShaderiv (Shader : Nat) (Pname : String)
  | glCreateProgram
  | glAttachShader (Program Shader : Nat)
  | glLinkProgram (Program : Nat)
  | glDeleteShader (Shader : Nat)
  | glGetProgramiv (Program : Nat) (Pname : String)
  | glUseProgram (Program : Nat)
  | glGetUniformLocation (Program : Nat) (Name : String)
  | glUniform2f (Location : Int) (x y : f32)
  | glUniformMatrix4fv (Location : Int) (Value : Option mat4)
  | glGenVertexArrays
  | glBindVertexArray (VAO : Nat)
  | glGenBuffers
  | glBindBuffer (Buffer : Nat)
  | glBufferData (Size : Nat)
  | glBufferSubData (Offset Size : Nat) (Data : buffer_data)
  | glVertexAttribPointer (Index Size Stride Offset : Nat)
  | glEnableVertexAttribArray (Index : Nat)
  | glVertexAttribDivisor (Index Divisor : Nat)
  | glClearColor (r g b a : f32)
  | glClear
  | glDrawArraysInstanced (First Count InstanceCount : Nat)
deriving DecidableEq, Repr

/-- What the platform answers. -/
structure platform_api where
  ReadTextFile : String → String

/-- What the renderer answers: the names it generates, by order of generation, the
compile and link status of a shader or program and the uniform locations. -/
structure renderer_api where
  glGenTextures : Nat
  glCreateShader : Nat → Nat
  CompileStatus : Nat → Bool
  glCreateProgram : Nat → Nat
  LinkStatus : Nat → Bool
  glGetUniformLocation : Nat → String → Int
  glGenVertexArrays : Nat → Nat
  glGenBuffers : Nat → Nat

/-- The memory block handed to the entry point, with its capability tables.
`SizeofGameState` stands for `sizeof(game_state)`. `LoadMap` is modelled from the
spec: it is defined in `tiled.cpp`, which is missing, and gives the map of a map
description, or fails on a malformed one. -/
structure game_memory where
  PermanentStorageSize : Nat
  SizeofGameState : Nat
  Platform : platform_api
  Renderer : renderer_api
  LoadMap : String → Option tiled_map

/-- Size in bytes of an `f32`. -/
def sizeofF32 : Nat := 4

/-- Size in bytes of a `vec2`. -/
def sizeofVec2 : Nat := 2 * sizeofF32

/-- Size in bytes of a `vec4`. -/
def sizeofVec4 : Nat := 4 * sizeofF32

/-- Size in bytes of a `mat4`. -/
def sizeofMat4 : Nat := 16 * sizeofF32

/-- The array `QuadVertices` (lines 496-502): position and UV of the four corners. -/
def QuadVertices : List f32 :=
  [0, 0, 0, 1,
   0, 1, 0, 0,
   1, 0, 1, 1,
   1, 1, 1, 0]

/-- Size in bytes of `QuadVertices`. -/
def sizeofQuadVertices : Nat := QuadVertices.length * sizeofF32

/-- The function `NormalizeRGB`. -/
def NormalizeRGB (Red Green Blue : Nat) : vec3 :=
  ⟨(Red : f32) / 255, (Green : f32) / 255, (Blue : f32) / 255⟩

/-- The global `BackgroundColor`. -/
def BackgroundColor : vec3 := NormalizeRGB 29 33 45

/-- The function `CreateShader`, for the `k`-th shader created: the handle and the
calls issued; a shader that does not compile fails the assertion. -/
def CreateShader (Memory : game_memory) (Kind Source : String) (k : Nat) :
    Option (Nat × List api_call) :=
  let Shader := Memory.Renderer.glCreateShader k
  if Memory.Renderer.CompileStatus Shader then
    some (Shader,
      [api_call.glCreateShader Kind, api_call.glShaderSource Shader Source,
       api_call.glCompileShader Shader, api_call.glGetShaderiv Shader "GL_COMPILE_STATUS"])
  else none

/-- The function `CreateProgram`, for the `k`-th program created: the handle and the
calls issued; a program that does not link fails the assertion. -/
def CreateProgram (Memory : game_memory) (VertexShader FragmentShader : Nat) (k : Nat) :
    Option (Nat × List api_call) :=
  let Program := Memory.Renderer.glCreateProgram k
  if Memory.Renderer.LinkStatus Program then
    some (Program,
      [api_call.glCreateProgram, api_call.glAttachShader Program VertexShader,
       api_call.glAttachShader Program FragmentShader, api_call.glLinkProgram Program,
       api_call.glDeleteShader VertexShader, api_call.glDeleteShader FragmentShader,
       api_call.glGetProgramiv Program "GL_LINK_STATUS"])
  else none

/-- The function `GetUniformLocation`. -/
def GetUniformLocation (Memory : game_memory) (ShaderProgram : Nat) (Name : String) :
    Int × List api_call :=
  (Memory.Renderer.glGetUniformLocation ShaderProgram Name,
   [api_call.glGetUniformLocation ShaderProgram Name])

/-- The function `ProcessInput`. -/
def ProcessInput (GameState : game_state) (Input : game_input) : game_state :=
  let Delta : f32 := 1 / 1000
  let s1 := if Input.Left.isPressed then { GameState with Zoom := GameState.Zoom - Delta }
    else GameState
  let s2 := if Input.Right.isPressed then { s1 with Zoom := s1.Zoom + Delta } else s1
  if s2.Zoom < 1 / 10 then { s2 with Zoom := 1 / 10 } else s2

/-- The attribute layout of the four columns of the per-instance matrix, attributes 1
to 4 (lines 663-681 and 706-724). -/
def matrixAttribCalls : List api_call :=
  [api_call.glEnableVertexAttribArray 1,
   api_call.glVertexAttribPointer 1 4 sizeofMat4 sizeofQuadVertices,
   api_call.glVertexAttribDivisor 1 1,
   api_call.glEnableVertexAttribArray 2,
   api_call.glVertexAttribPointer 2 4 sizeofMat4 (sizeofQuadVertices + sizeofVec4),
   api_call.glVertexAttribDivisor 2 1,
   api_call.glEnableVertexAttribArray 3,
   api_call.glVertexAttribPointer 3 4 sizeofMat4 (sizeofQuadVertices + 2 * sizeofVec4),
   api_call.glVertexAttribDivisor 3 1,
   api_call.glEnableVertexAttribArray 4,
   api_call.glVertexAttribPointer 4 4 sizeofMat4 (sizeofQuadVertices + 3 * sizeofVec4),
   api_call.glVertexAttribDivisor 4 1]

/-- The calls that build the tile vertex array and buffer (lines 645-686). -/
def tilesBufferCalls (Memory : game_memory) (TotalTileCount : Nat) (a : bake_arrays) :
    List api_call :=
  [api_call.glGenVertexArrays, api_call.glBindVertexArray (Memory.Renderer.glGenVertexArrays 0),
   api_call.glGenBuffers, api_call.glBindBuffer (Memory.Renderer.glGenBuffers 0),
   api_call.glBufferData (sizeofQuadVertices + TotalTileCount * (sizeofMat4 + sizeofVec2)),
   api_call.glBufferSubData 0 sizeofQuadVertices (buffer_data.Floats QuadVertices),
   api_call.glBufferSubData sizeofQuadVertices (TotalTileCount * sizeofMat4)
     (buffer_data.Matrices a.TileInstanceModels),
   api_call.glBufferSubData (sizeofQuadVertices + TotalTileCount * sizeofMat4)
     (TotalTileCount * sizeofVec2) (buffer_data.Vectors a.TileInstanceUVOffsets01),
   api_call.glVertexAttribPointer 0 4 sizeofVec4 0,
   api_call.glEnableVertexAttribArray 0] ++
  matrixAttribCalls ++
  [api_call.glVertexAttribPointer 5 2 sizeofVec2
     (sizeofQuadVertices + TotalTileCount * sizeofMat4),
   api_call.glEnableVertexAttribArray 5,
   api_call.glVertexAttribDivisor 5 1]

/-- The calls that build the box vertex array and buffer (lines 690-724). -/
def tileBoxesBufferCalls (Memory : game_memory) (TotalTileBoxCount : Nat) (a : bake_arrays) :
    List api_call :=
  [api_call.glGenVertexArrays, api_call.glBindVertexArray (Memory.Renderer.glGenVertexArrays 1),
   api_call.glGenBuffers, api_call.glBindBuffer (Memory.Renderer.glGenBuffers 1),
   api_call.glBufferData (sizeofQuadVertices + TotalTileBoxCount * sizeofMat4),
   api_call.glBufferSubData 0 sizeofQuadVertices (buffer_data.Floats QuadVertices),
   api_call.glBufferSubData sizeofQuadVertices (TotalTileBoxCount * sizeofMat4)
     (buffer_data.Matrices a.TileBoxInstanceModels),
   api_call.glVertexAttribPointer 0 4 sizeofVec4 0,
   api_call.glEnableVertexAttribArray 0] ++
  matrixAttribCalls

/-- The initialization block of `GameUpdateAndRender` (lines 386-869): the state at its
end and the calls issued, in order. -/
def Initialize (Memory : game_memory) (Params : game_params) (GameState : game_state) :
    Option (game_state × List api_call) := do
  let ScreenWidthInMeters : f32 := 20
  let MetersToPixels ← fdiv (Params.ScreenWidth : f32) ScreenWidthInMeters
  let PixelsToMeters ← fdiv 1 MetersToPixels
  let ScreenHeightInMeters : f32 := (Params.ScreenHeight : f32) * PixelsToMeters
  let MapJson := Memory.Platform.ReadTextFile "maps/map01.json"
  let Map ← Memory.LoadMap MapJson
  let First ← Map.Tilesets[0]?
  let Tileset := First.Source
  let TilesetFirstGID := First.FirstGID
  let texture := Memory.Renderer.glGenTextures
  let Size01 ← TileSize01 Tileset
  let TileVertexSource := Memory.Platform.ReadTextFile "shaders/tile.vert"
  let TileFragmentSource := Memory.Platform.ReadTextFile "shaders/tile.frag"
  let (TileVertexShader, c1) ← CreateShader Memory "GL_VERTEX_SHADER" TileVertexSource 0
  let (TileFragmentShader, c2) ← CreateShader Memory "GL_FRAGMENT_SHADER" TileFragmentSource 1
  let (TilesShaderProgram, c3) ← CreateProgram Memory TileVertexShader TileFragmentShader 0
  let (VPUniformLocation, c4) := GetUniformLocation Memory TilesShaderProgram "u_VP"
  let (TileSizeUniformLocation, c5) := GetUniformLocation Memory TilesShaderProgram "u_TileSize"
  let BoxVertexSource := Memory.Platform.ReadTextFile "shaders/box.vert"
  let BoxFragmentSource := Memory.Platform.ReadTextFile "shaders/box.frag"
  let (BoxVertexShader, c6) ← CreateShader Memory "GL_VERTEX_SHADER" BoxVertexSource 2
  let (BoxFragmentShader, c7) ← CreateShader Memory "GL_FRAGMENT_SHADER" BoxFragmentSource 3
  let (TileBoxesShaderProgram, c8) ← CreateProgram Memory BoxVertexShader BoxFragmentShader 1
  let (VPUniformLocation2, c9) := GetUniformLocation Memory TileBoxesShaderProgram "u_VP"
  let (Counts, Arrays) ← bake Map Tileset TilesetFirstGID
    (ScreenCenterInMeters ScreenWidthInMeters ScreenHeightInMeters) Size01
  let calls : List api_call :=
    [api_call.ReadTextFile "maps/map01.json", api_call.LoadMap MapJson,
     api_call.glGenTextures, api_call.glBindTexture texture,
     api_call.glTexParameteri "GL_TEXTURE_MIN_FILTER" "GL_NEAREST",
     api_call.glTexParameteri "GL_TEXTURE_MAG_FILTER" "GL_NEAREST",
     api_call.glTexImage2D Tileset.Image.Width Tileset.Image.Height,
     api_call.ReadTextFile "shaders/tile.vert", api_call.ReadTextFile "shaders/tile.frag"] ++
    c1 ++ c2 ++ c3 ++ [api_call.glUseProgram TilesShaderProgram] ++ c4 ++ c5 ++
    [api_call.glUniform2f TileSizeUniformLocation Size01.x Size01.y,
     api_call.ReadTextFile "shaders/box.vert", api_call.ReadTextFile "shaders/box.frag"] ++
    c6 ++ c7 ++ c8 ++ [api_call.glUseProgram TileBoxesShaderProgram] ++ c9 ++
    tilesBufferCalls Memory Counts.TotalTileCount Arrays ++
    tileBoxesBufferCalls Memory Counts.TotalTileBoxCount Arrays ++
    [api_call.glClearColor BackgroundColor.x BackgroundColor.y BackgroundColor.z 1]
  pure
    ({ GameState with
        ScreenWidthInMeters := ScreenWidthInMeters
        ScreenHeightInMeters := ScreenHeightInMeters
        Map := Map
        TilesShaderProgram := TilesShaderProgram
        VPUniformLocation := VPUniformLocation
        TileBoxesShaderProgram := TileBoxesShaderProgram
        VPUniformLocation2 := VPUniformLocation2
        TotalTileCount := Counts.TotalTileCount
        TotalTileBoxCount := Counts.TotalTileBoxCount
        TilesVAO := Memory.Renderer.glGenVertexArrays 0
        TileBoxesVAO := Memory.Renderer.glGenVertexArrays 1
        UpdateRate := 1 / 100
        Lag := 0
        IsInitialized := true
        CameraPosition := { GameState.CameraPosition with x := 1 }
        Zoom := 1 / 1 }, calls)

/-- The per-frame routine of `GameUpdateAndRender` (lines 878-904): the state at its
end and the calls issued, in order. -/
def Frame (Params : game_params) (GameState : game_state) : game_state × List api_call :=
  let s1 := ProcessInput GameState Params.Input
  let Projection := glm.ortho
    (-s1.ScreenWidthInMeters / 2 * s1.Zoom) (s1.ScreenWidthInMeters / 2 * s1.Zoom)
    (-s1.ScreenHeightInMeters / 2 * s1.Zoom) (s1.ScreenHeightInMeters / 2 * s1.Zoom)
  let s2 := { s1 with Projection := Projection }
  let View := glm.translate mat4.identity
    ⟨-s2.ScreenWidthInMeters / 2, -s2.ScreenHeightInMeters / 2, 0⟩
  let VP := s2.Projection.map (fun P => P.mul View)
  (s2,
   [api_call.glClear,
    api_call.glUseProgram s2.TilesShaderProgram,
    api_call.glBindVertexArray s2.TilesVAO,
    api_call.glUniformMatrix4fv s2.VPUniformLocation VP,
    api_call.glDrawArraysInstanced 0 4 s2.TotalTileCount,
    api_call.glUseProgram s2.TileBoxesShaderProgram,
    api_call.glBindVertexArray s2.TileBoxesVAO,
    api_call.glUniformMatrix4fv s2.VPUniformLocation2 VP,
    api_call.glDrawArraysInstanced 0 4 s2.TotalTileBoxCount])

/-- The entry point `GameUpdateAndRender`: the state it leaves in the permanent storage
and the calls it issues, in order. -/
def GameUpdateAndRender (Memory : game_memory) (Params : game_params)
    (GameState : game_state) : Option (game_state × List api_call) :=
  if Memory.SizeofGameState ≤ Memory.PermanentStorageSize then
    if GameState.IsInitialized then
      some (Frame Params GameState)
    else
      (Initialize Memory Params GameState).map (fun r =>
        ((Frame Params r.1).1, r.2 ++ (Frame Params r.1).2))
  else none

/-- A sequence of calls to `GameUpdateAndRender`, one per entry of `Frames`: the final
state. -/
def runFrames (Memory : game_memory) : List game_params → game_state → Option game_state
  | [], s => some s
  | Params :: rest, s =>
    (GameUpdateAndRender Memory Params s).bind (fun r => runFrames Memory rest r.1)

/-! ## A run on the scenario -/

/-- A memory block whose platform and renderer always succeed and whose map is the
scenario map. -/
def scenarioMemory : game_memory :=
  { PermanentStorageSize := 1024, SizeofGameState := 512,
    Platform := { ReadTextFile := fun _ => "" },
    Renderer :=
      { glGenTextures := 1, glCreateShader := fun k => k + 1, CompileStatus := fun _ => true,
        glCreateProgram := fun k => k + 1, LinkStatus := fun _ => true,
        glGetUniformLocation := fun _ _ => 0, glGenVertexArrays := fun k => k + 1,
        glGenBuffers := fun k => k + 1 },
    LoadMap := fun _ => some scenarioMap }

/-- The zero-filled permanent storage before the first call. -/
def freshState : game_state :=
  { IsInitialized := false, ScreenWidthInMeters := 0, ScreenHeightInMeters := 0,
    Map := ⟨[], []⟩, TilesShaderProgram := 0, TileBoxesShaderProgram := 0,
    VPUniformLocation := 0, VPUniformLocation2 := 0, TotalTileCount := 0,
    TotalTileBoxCount := 0, TilesVAO := 0, TileBoxesVAO := 0, UpdateRate := 0, Lag := 0,
    CameraPosition := ⟨0, 0⟩, Zoom := 0, Projection := none }

/-- Frame parameters for an 800x600 window with only the left button held. -/
def zoomOutParams : game_params :=
  { ScreenWidth := 800, ScreenHeight := 600, Input := ⟨⟨true⟩, ⟨false⟩⟩ }

/-! ## Observations on runs of the frame driver -/

/-- A sequence of calls to `GameUpdateAndRender`, one per entry of `Frames`: the final
state and, for each call of the sequence, the calls it issued. -/
def runFramesLog (Memory : game_memory) :
    List game_params → game_state → Option (game_state × List (List api_call))
  | [], s => some (s, [])
  | Params :: rest, s =>
    (GameUpdateAndRender Memory Params s).bind (fun r =>
      (runFramesLog Memory rest r.1).map (fun q => (q.1, r.2 :: q.2)))

/-- The path of a file read, for a call that reads a file. -/
def api_call.readPath : api_call → Option String
  | api_call.ReadTextFile Path => some Path
  | _ => none

/-- The paths of the files a sequence of calls reads, in order. -/
def fileReads (calls : List api_call) : List String := calls.filterMap api_call.readPath

/-- The call is a map load. -/
def api_call.isLoadMap : api_call → Bool
  | api_call.LoadMap _ => true
  | _ => false

/-- The call creates a GPU resource: a texture, a shader, a program, a vertex array or
a buffer. -/
def api_call.isCreate : api_call → Bool
  | api_call.glGenTextures => true
  | api_call.glCreateShader _ => true
  | api_call.glCreateProgram => true
  | api_call.glGenVertexArrays => true
  | api_call.glGenBuffers => true
  | _ => false

/-- The call creates a buffer, allocates its store or uploads data into it. -/
def api_call.isBufferCommand : api_call → Bool
  | api_call.glGenBuffers => true
  | api_call.glBufferData _ => true
  | api_call.glBufferSubData _ _ _ => true
  | _ => false

/-- The call clears the frame buffer or draws. -/
def api_call.isClearOrDraw : api_call → Bool
  | api_call.glClear => true
  | api_call.glDrawArraysInstanced _ _ _ => true
  | _ => false

/-- The value stored in `GameState->Projection` (lines 882-885), from the screen size in
meters and the zoom. -/
def FrameProjection (ScreenWidthInMeters ScreenHeightInMeters Zoom : f32) : Option mat4 :=
  glm.ortho (-ScreenWidthInMeters / 2 * Zoom) (ScreenWidthInMeters / 2 * Zoom)
    (-ScreenHeightInMeters / 2 * Zoom) (ScreenHeightInMeters / 2 * Zoom)

/-- The local `View` of lines 887-888. -/
def FrameView (ScreenWidthInMeters ScreenHeightInMeters : f32) : mat4 :=
  glm.translate mat4.identity ⟨-ScreenWidthInMeters / 2, -ScreenHeightInMeters / 2, 0⟩

/-- The local `VP = Projection * View` of line 890. -/
def FrameVP (ScreenWidthInMeters ScreenHeightInMeters Zoom : f32) : Option mat4 :=
  (FrameProjection ScreenWidthInMeters ScreenHeightInMeters Zoom).map
    (fun P => P.mul (FrameView ScreenWidthInMeters ScreenHeightInMeters))

/-- The nine calls of the per-frame routine for the state `s` it leaves. -/
def frameCalls (s : game_state) : List api_call :=
  let VP := FrameVP s.ScreenWidthInMeters s.ScreenHeightInMeters s.Zoom
  [api_call.glClear,
   api_call.glUseProgram s.TilesShaderProgram,
   api_call.glBindVertexArray s.TilesVAO,
   api_call.glUniformMatrix4fv s.VPUniformLocation VP,
   api_call.glDrawArraysInstanced 0 4 s.TotalTileCount,
   api_call.glUseProgram s.TileBoxesShaderProgram,
   api_call.glBindVertexArray s.TileBoxesVAO,
   api_call.glUniformMatrix4fv s.VPUniformLocation2 VP,
   api_call.glDrawArraysInstanced 0 4 s.TotalTileBoxCount]

/-- An initialized state with the default zoom 1 and a 20 x 15 meter screen. -/
def defaultZoomState : game_state :=
  { freshState with IsInitialized := true, ScreenWidthInMeters := 20,
                    ScreenHeightInMeters := 15, Zoom := 1 }

/-- The frame has Left pressed and Right not pressed. -/
def LeftOnly (Params : game_params) : Prop :=
  Params.Input.Left.isPressed = true ∧ Params.Input.Right.isPressed = false

instance (Params : game_params) : Decidable (LeftOnly Params) := by
  unfold LeftOnly
  infer_instance

/-- The paths the initialization block reads, in order. -/
def initFiles : List String :=
  ["maps/map01.json", "shaders/tile.vert", "shaders/tile.frag", "shaders/box.vert",
   "shaders/box.frag"]

/-- The calls are those of a call in which the initialization block ran: the five file
reads, one map load and the creation of one texture, four shaders, two programs, two
vertex arrays and two buffers. -/
def OneInit (calls : List api_call) : Prop :=
  fileReads calls = initFiles ∧ calls.countP api_call.isLoadMap = 1 ∧
  calls.countP api_call.isCreate = 11

instance (calls : List api_call) : Decidable (OneInit calls) := by
  unfold OneInit
  infer_instance

/-- The calls are those of a call in which the initialization block did not run: no
file read, no map load, no resource creation. -/
def NoInit (calls : List api_call) : Prop :=
  fileReads calls = [] ∧ calls.countP api_call.isLoadMap = 0 ∧
  calls.countP api_call.isCreate = 0

instance (calls : List api_call) : Decidable (NoInit calls) := by
  unfold NoInit
  infer_instance

/-- The scenario memory block with another map behind `LoadMap`. -/
def memoryOf (Map : tiled_map) : game_memory :=
  { scenarioMemory with LoadMap := fun _ => some Map }

/-- The scenario map with a second tileset entry, a single-column tileset with
first-GID 2, so that GID 2 falls in the range of the second tileset. -/
def twoTilesetMap : tiled_map :=
  { scenarioMap with Tilesets := scenarioMap.Tilesets ++ [⟨singleColumnTileset, 2⟩] }

/-- A map with a single cell of GID 1, below the first-GID 2 of its only tileset. -/
def lowGIDMap : tiled_map :=
  { TileLayers := [⟨[{ X := 0, Y := 0, Width := 1, Height := 1, GIDs := [1] }]⟩],
    Tilesets := [⟨scenarioTileset, 2⟩] }

/-- A map with a single cell whose GID is tile 1 of the scenario tileset (first-GID 1)
with the horizontal flip flag `0x80000000` set. -/
def flippedGIDMap : tiled_map :=
  { TileLayers := [⟨[{ X := 0, Y := 0, Width := 1, Height := 1, GIDs := [2147483649] }]⟩],
    Tilesets := [⟨scenarioTileset, 1⟩] }

/-- The scenario tileset with a tile width of 0 pixels. -/
def zeroPixelTileset : tileset := { scenarioTileset with TileWidthInPixels := 0 }

/-- The scenario tileset with a tile width of -1 meter. -/
def negativeMetersTileset : tileset := { scenarioTileset with TileWidthInMeters := -1 }

/-- The scenario tileset with a spacing of 2 pixels and a margin of 1 pixel. -/
def spacedTileset : tileset := { scenarioTileset with Spacing := 2, Margin := 1 }

/-! ## Collision helpers and particles (lines 143-239) -/

/-- The function `IntersectAABB`. -/
def IntersectAABB (Box1 Box2 : aabb) : Bool :=
  let XCollision := decide (Box1.Position.x + Box1.Size.x > Box2.Position.x) &&
    decide (Box1.Position.x < Box2.Position.x + Box2.Size.x)
  let YCollision := decide (Box1.Position.y + Box1.Size.y > Box2.Position.y) &&
    decide (Box1.Position.y < Box2.Position.y + Box2.Size.y)
  XCollision && YCollision

/-- Componentwise difference of two `vec2`. -/
def vec2.sub (a b : vec2) : vec2 := ⟨a.x - b.x, a.y - b.y⟩

/-- Componentwise sum of two `vec2`. -/
def vec2.add (a b : vec2) : vec2 := ⟨a.x + b.x, a.y + b.y⟩

/-- The function `SweptAABB`. The two components of `Time` are computed by two
independent blocks; each division is guarded by its `Delta` component. -/
def SweptAABB (Point Delta : vec2) (Box : aabb) (Padding : vec2) : vec2 :=
  let Position := Box.Position.sub Padding
  let Size := Box.Size.add Padding
  let TimeX : f32 :=
    if Delta.x ≠ 0 ∧ Position.y < Point.y ∧ Point.y < Position.y + Size.y then
      let LeftTime := (Position.x - Point.x) / Delta.x
      let t := if LeftTime < 1 then LeftTime else 1
      let RightTime := (Position.x + Size.x - Point.x) / Delta.x
      if RightTime < t then RightTime else t
    else 1
  let TimeY : f32 :=
    if Delta.y ≠ 0 ∧ Position.x < Point.x ∧ Point.x < Position.x + Size.x then
      let TopTime := (Position.y - Point.y) / Delta.y
      let t := if TopTime < 1 then TopTime else 1
      let BottomTime := (Position.y + Size.y - Point.y) / Delta.y
      if BottomTime < t then BottomTime else t
    else 1
  ⟨TimeX, TimeY⟩

/-- A particle; only the field the code at hand reads. -/
structure particle where
  Lifespan : f32
deriving DecidableEq, Repr

/-- A particle emitter: `Particles` with `ParticlesCount` entries. -/
structure particle_emitter where
  LastUsedParticle : Nat
  Particles : List particle
deriving DecidableEq, Repr

/-- The field `ParticlesCount`. -/
def particle_emitter.ParticlesCount (e : particle_emitter) : Nat := e.Particles.length

/-- A loop `for (i = Start; ...; ++i)` of `FindFirstUnusedParticle` with `n` iterations
left: `some (some i)` when it returns `i`, `some none` when it runs to its end, `none`
when it reads outside the array. -/
def scanParticles (Particles : List particle) : Nat → Nat → Option (Option Nat)
  | _, 0 => some none
  | i, n + 1 =>
    match Particles[i]? with
    | none => none
    | some p => if p.Lifespan ≤ 0 then some (some i) else scanParticles Particles (i + 1) n

/-- The function `FindFirstUnusedParticle`: the loop from `LastUsedParticle` to
`ParticlesCount`, then the loop from 0 to `LastUsedParticle`, then 0. -/
def FindFirstUnusedParticle (Emitter : particle_emitter) : Option Nat :=
  match scanParticles Emitter.Particles Emitter.LastUsedParticle
      (Emitter.ParticlesCount - Emitter.LastUsedParticle) with
  | none => none
  | some (some i) => some i
  | some none =>
    match scanParticles Emitter.Particles 0 Emitter.LastUsedParticle with
    | none => none
    | some (some i) => some i
    | some none => some 0

/-- The particle of index `j` exists and has `Lifespan <= 0`. -/
def particleUnused (Particles : List particle) (j : Nat) : Prop :=
  ∃ p, Particles[j]? = some p ∧ p.Lifespan ≤ 0

/-! ## Determinant -/

/-- The determinant of a `mat4`, by expansion along the first column over the 2x2
minors of the last two columns. -/
def mat4.det (m : mat4) : f32 :=
  let s00 := m.c2.z * m.c3.w - m.c3.z * m.c2.w
  let s01 := m.c2.y * m.c3.w - m.c3.y * m.c2.w
  let s02 := m.c2.y * m.c3.z - m.c3.y * m.c2.z
  let s03 := m.c2.x * m.c3.w - m.c3.x * m.c2.w
  let s04 := m.c2.x * m.c3.z - m.c3.x * m.c2.z
  let s05 := m.c2.x * m.c3.y - m.c3.x * m.c2.y
  m.c0.x * (m.c1.y * s00 - m.c1.z * s01 + m.c1.w * s02)
    - m.c0.y * (m.c1.x * s00 - m.c1.z * s03 + m.c1.w * s04)
    + m.c0.z * (m.c1.x * s01 - m.c1.y * s03 + m.c1.w * s05)
    - m.c0.w * (m.c1.x * s02 - m.c1.y * s04 + m.c1.z * s05)

/-- The zero `vec4`. -/
def vec4.zero : vec4 := ⟨0, 0, 0, 0⟩

/-- The matrix flattens the z axis: its third column is zero, its determinant is 0, it
has no inverse and it maps every point to z = 0. -/
def ZFlat (m : mat4) : Prop :=
  m.c2 = vec4.zero ∧ m.det = 0 ∧ (¬ ∃ N : mat4, N.mul m = mat4.identity) ∧
  ∀ v : vec4, (m.mulVec v).z = 0

/-- The scenario tileset with tiles half a meter high: the height ratio 1/32 differs
from the width ratio 1/16. -/
def halfHeightTileset : tileset := { scenarioTileset with TileHeightInMeters := 1 / 2 }

/-- A chunk 2 tiles wide and 4 tiles high at the origin, every cell holding tile 1. -/
def tallChunk : map_chunk :=
  { X := 0, Y := 0, Width := 2, Height := 4, GIDs := [1, 1, 1, 1, 1, 1, 1, 1] }

/-- The scenario tileset with an image 0 pixels wide. -/
def zeroImageTileset : tileset := { scenarioTileset with Image := ⟨0, 16⟩ }

/-! ## Reading the buffer set-up off the calls -/

/-- The sizes of the buffer stores the calls allocate, in order. -/
def bufferAllocations (calls : List api_call) : List Nat :=
  calls.filterMap (fun c => match c with
    | api_call.glBufferData Size => some Size
    | _ => none)

/-- The byte ranges `(Offset, Size)` the calls upload, in order. -/
def subUploads (calls : List api_call) : List (Nat × Nat) :=
  calls.filterMap (fun c => match c with
    | api_call.glBufferSubData Offset Size _ => some (Offset, Size)
    | _ => none)

/-- The layout `(Size, Stride, Offset)` the calls give to the vertex attribute `Index`:
the arguments of its last `glVertexAttribPointer`, if any. -/
def attribPointer (calls : List api_call) (Index : Nat) : Option (Nat × Nat × Nat) :=
  calls.foldl (fun r c => match c with
    | api_call.glVertexAttribPointer i Size Stride Offset =>
      if i = Index then some (Size, Stride, Offset) else r
    | _ => r) none

/-- The divisor the calls give to the vertex attribute `Index`: the argument of its last
`glVertexAttribDivisor`; `none` when the calls never set it (OpenGL then advances the
attribute per vertex). -/
def attribDivisor (calls : List api_call) (Index : Nat) : Option Nat :=
  calls.foldl (fun r c => match c with
    | api_call.glVertexAttribDivisor i Divisor => if i = Index then some Divisor else r
    | _ => r) none

/-- The OpenGL addressing rule: the byte at which an attribute of stride `Stride` and
offset `Offset` reads its element `i`. -/
def attribByte (Stride Offset i : Nat) : Nat := Offset + Stride * i

/-- The byte ranges `(Offset, Size)` follow one another without gap or overlap from
byte `Start` and end at byte `Total`. -/
def Covers : List (Nat × Nat) → Nat → Nat → Prop
  | [], Start, Total => Start = Total
  | r :: rest, Start, Total => r.1 = Start ∧ Covers rest (Start + r.2) Total

/-- The byte of column `c` of the `i`-th matrix of an array of `mat4` uploaded at byte
`Base`: glm stores a `mat4` as its four `vec4` columns, one after the other. -/
def matrixColumnByte (Base i c : Nat) : Nat := Base + sizeofMat4 * i + sizeofVec4 * c

/-- The byte of the `i`-th entry of an array of `vec2` uploaded at byte `Base`. -/
def vectorByte (Base i : Nat) : Nat := Base + sizeofVec2 * i

/-- The data the calls upload, in order. -/
def uploadedData (calls : List api_call) : List buffer_data :=
  calls.filterMap (fun c => match c with
    | api_call.glBufferSubData _ _ Data => some Data
    | _ => none)

/-! ## Lemmas on the two passes -/

theorem store_at_length {α : Type} (d : List α) (p v : α) (ps : List α) :
    store (d ++ p :: ps) d.length v = some (d ++ v :: ps) := by
  induction d with
  | nil => simp [store]
  | cons a d ih =>
    simp only [store, List.cons_append, List.length_cons, List.set_cons_succ] at ih ⊢
    split at ih
    · rename_i h
      simp only [Option.some.injEq] at ih
      simp [h, ih]
    · simp at ih

theorem mapOpt_length {α β : Type} (f : α → Option β) :
    ∀ (l : List α) (r : List β), mapOpt f l = some r → r.length = l.length
  | [], r, h => by
    simp only [mapOpt, Option.some.injEq] at h
    simp [← h]
  | a :: rest, r, h => by
    simp only [mapOpt] at h
    cases hfa : f a with
    | none => simp [hfa] at h
    | some b =>
      cases hr : mapOpt f rest with
      | none => simp [hfa, hr] at h
      | some bs =>
        simp only [hfa, hr, Option.some_bind, Option.map_some', Option.some.injEq] at h
        simp [← h, mapOpt_length f rest bs hr]

theorem bakeBoxes_length (Tileset : tileset) (xm ym : f32) :
    ∀ (Bs r : List aabb), bakeBoxes Tileset xm ym Bs = some r → r.length = Bs.length
  | [], r, h => by
    simp only [bakeBoxes, Option.some.injEq] at h
    simp [← h]
  | B :: rest, r, h => by
    simp only [bakeBoxes] at h
    cases hp : TilesetPixelsToMeters Tileset with
    | none => simp [hp] at h
    | some p =>
      cases hr : bakeBoxes Tileset xm ym rest with
      | none => simp [hp, hr] at h
      | some bs =>
        simp only [hp, hr, Option.some_bind, Option.map_some', Option.some.injEq] at h
        simp [← h, bakeBoxes_length Tileset xm ym rest bs hr]

theorem store_at {α : Type} (d : List α) (p v : α) (ps : List α) (i : Nat) (h : i = d.length) :
    store (d ++ p :: ps) i v = some (d ++ v :: ps) := by
  subst h
  exact store_at_length d p v ps

theorem fillBoxes_spec (Tileset : tileset) (xm ym : f32) (ms : List mat4) (uvs : List vec2)
    (ti : Nat) :
    ∀ (Bs bs : List aabb) (k : Nat), Bs.length ≤ k →
      fillBoxes Tileset xm ym
        ⟨ms, uvs, bs ++ List.replicate k aabb.zero,
          bs.map TileBoxInstanceModel ++ List.replicate k mat4.zero, ti, bs.length⟩ Bs
      = (bakeBoxes Tileset xm ym Bs).map (fun r =>
        ⟨ms, uvs, (bs ++ r) ++ List.replicate (k - Bs.length) aabb.zero,
          (bs ++ r).map TileBoxInstanceModel ++ List.replicate (k - Bs.length) mat4.zero,
          ti, (bs ++ r).length⟩)
  | [], bs, k, _ => by simp [fillBoxes, bakeBoxes]
  | B :: rest, bs, k, hk => by
    obtain ⟨k1, rfl⟩ : ∃ k1, k = k1 + 1 := ⟨k - 1, by simp at hk; omega⟩
    have hk1 : rest.length ≤ k1 := by simp at hk; omega
    simp only [fillBoxes, bakeBoxes, fillBox]
    cases hp : TilesetPixelsToMeters Tileset with
    | none => simp
    | some p =>
      have ih := fillBoxes_spec Tileset xm ym ms uvs ti rest
        (bs ++ [TileBox Tileset xm ym p B]) k1 hk1
      have h1 : store (bs ++ aabb.zero :: List.replicate k1 aabb.zero) bs.length
          (TileBox Tileset xm ym p B)
          = some (bs ++ TileBox Tileset xm ym p B :: List.replicate k1 aabb.zero) :=
        store_at _ _ _ _ _ rfl
      have h2 : store (bs.map TileBoxInstanceModel ++ mat4.zero :: List.replicate k1 mat4.zero)
          bs.length mat4.identity
          = some (bs.map TileBoxInstanceModel ++ mat4.identity :: List.replicate k1 mat4.zero) :=
        store_at _ _ _ _ _ (by simp)
      have h3 : store (bs.map TileBoxInstanceModel ++ mat4.identity :: List.replicate k1 mat4.zero)
          bs.length (TileBoxInstanceModel (TileBox Tileset xm ym p B))
          = some (bs.map TileBoxInstanceModel ++
              TileBoxInstanceModel (TileBox Tileset xm ym p B) :: List.replicate k1 mat4.zero) :=
        store_at _ _ _ _ _ (by simp)
      simp only [List.replicate_succ, h1, h2, h3, Option.bind_eq_bind, Option.some_bind,
        Option.pure_def]
      simp only [List.map_append, List.map_cons, List.map_nil,
        List.append_assoc, List.singleton_append, List.length_append, List.length_cons,
        List.length_nil, List.length_singleton] at ih ⊢
      rw [ih]
      simp only [Option.map_map, Nat.add_sub_add_right]
      rfl

theorem fillCell_empty (Tileset : tileset) (TilesetFirstGID : Nat) (Center Size01 : vec2)
    (Chunk : map_chunk) (GIDIndex : Nat) (s : bake_arrays) :
    fillCell Tileset TilesetFirstGID Center Size01 Chunk GIDIndex 0 s = some s := by
  simp [fillCell]

theorem fillCell_spec (Tileset : tileset) (TilesetFirstGID : Nat) (Center Size01 : vec2)
    (c : map_cell) (hc : c.GID > 0) (T : List tile_instance) (n k : Nat)
    (hk : cellBoxCount Tileset TilesetFirstGID c ≤ k) :
    fillCell Tileset TilesetFirstGID Center Size01 c.Chunk c.GIDIndex c.GID (arraysOf T (n + 1) k)
      = (bakeCell Tileset TilesetFirstGID Center Size01 c).map (fun t =>
          arraysOf (T ++ [t]) n (k - cellBoxCount Tileset TilesetFirstGID c)) := by
  have h1 : ∀ v : mat4, store (T.map (fun t => t.Model) ++ mat4.zero :: List.replicate n mat4.zero)
      T.length v = some (T.map (fun t => t.Model) ++ v :: List.replicate n mat4.zero) :=
    fun v => store_at _ _ _ _ _ (by simp)
  have h2 : ∀ v w : mat4, store (T.map (fun t => t.Model) ++ w :: List.replicate n mat4.zero)
      T.length v = some (T.map (fun t => t.Model) ++ v :: List.replicate n mat4.zero) :=
    fun v w => store_at _ _ _ _ _ (by simp)
  have h3 : ∀ v w : vec2,
      store (T.map (fun t => t.UVOffset01) ++ w :: List.replicate n (⟨0, 0⟩ : vec2))
      T.length v = some (T.map (fun t => t.UVOffset01) ++ v :: List.replicate n (⟨0, 0⟩ : vec2)) :=
    fun v w => store_at _ _ _ _ _ (by simp)
  simp only [fillCell, bakeCell, arraysOf, hc, if_true, List.replicate_succ, h1, h2, h3,
    Option.bind_eq_bind, Option.some_bind, Option.pure_def, cellBoxCount] at hk ⊢
  cases hx : TileMapX c.Chunk c.GIDIndex with
  | none => simp
  | some MapX =>
    simp only [Option.some_bind]
    cases hy : TileMapY c.Chunk c.GIDIndex with
    | none => simp
    | some MapY =>
      simp only [Option.some_bind, h2]
      cases htx : TileX Tileset TilesetFirstGID c.GID with
      | none => simp
      | some X =>
        simp only [Option.some_bind]
        cases hty : TileY Tileset TilesetFirstGID c.GID with
        | none => simp
        | some Y =>
          simp only [Option.some_bind]
          cases hs : SpacedUVOffset Tileset X Y with
          | none => simp
          | some Spaced =>
            simp only [Option.some_bind, h2, h3]
            cases hm : GetTileMetaInfo Tileset (u32sub c.GID TilesetFirstGID) with
            | none =>
              simp [List.flatMap_append]
            | some TileInfo =>
              simp only [hm, tile_meta_info.BoxCount] at hk
              have hb := fillBoxes_spec Tileset (TileXMeters Tileset Center MapX)
                (TileYMeters Tileset Center MapY)
                (T.map (fun t => t.Model) ++
                  TileInstanceModel Tileset (TileXMeters Tileset Center MapX)
                    (TileYMeters Tileset Center MapY) :: List.replicate n mat4.zero)
                (T.map (fun t => t.UVOffset01) ++
                  TileInstanceUVOffset01 Size01 X Y :: List.replicate n (⟨0, 0⟩ : vec2))
                T.length TileInfo.Boxes (T.flatMap (fun t => t.Boxes)) k hk
              simp only [hb, tile_meta_info.BoxCount]
              cases hbb : bakeBoxes Tileset (TileXMeters Tileset Center MapX)
                (TileYMeters Tileset Center MapY) TileInfo.Boxes with
              | none => simp
              | some r =>
                have hl := bakeBoxes_length _ _ _ _ _ hbb
                simp [List.flatMap_append, hl]

theorem mapOpt_append {α β : Type} (f : α → Option β) (l1 l2 : List α) :
    mapOpt f (l1 ++ l2)
      = (mapOpt f l1).bind (fun r1 => (mapOpt f l2).map (fun r2 => r1 ++ r2)) := by
  induction l1 with
  | nil => simp [mapOpt]
  | cons a rest ih =>
    have e : mapOpt f (a :: rest ++ l2)
        = (f a).bind (fun b => (mapOpt f (rest ++ l2)).map (fun bs => b :: bs)) := rfl
    rw [e, ih]
    simp only [mapOpt]
    cases f a <;> cases mapOpt f rest <;> cases mapOpt f l2 <;> simp

theorem bakeCell_boxes_length (Tileset : tileset) (TilesetFirstGID : Nat) (Center Size01 : vec2)
    (c : map_cell) (t : tile_instance)
    (h : bakeCell Tileset TilesetFirstGID Center Size01 c = some t) :
    t.Boxes.length = cellBoxCount Tileset TilesetFirstGID c := by
  simp only [bakeCell, Option.bind_eq_bind, Option.pure_def] at h
  cases hx : TileMapX c.Chunk c.GIDIndex with
  | none => simp [hx] at h
  | some MapX =>
    cases hy : TileMapY c.Chunk c.GIDIndex with
    | none => simp [hx, hy] at h
    | some MapY =>
      cases htx : TileX Tileset TilesetFirstGID c.GID with
      | none => simp [hx, hy, htx] at h
      | some X =>
        cases hty : TileY Tileset TilesetFirstGID c.GID with
        | none => simp [hx, hy, htx, hty] at h
        | some Y =>
          cases hs : SpacedUVOffset Tileset X Y with
          | none => simp [hx, hy, htx, hty, hs] at h
          | some Spaced =>
            simp only [hx, hy, htx, hty, hs, Option.some_bind] at h
            cases hm : GetTileMetaInfo Tileset (u32sub c.GID TilesetFirstGID) with
            | none =>
              simp only [hm, Option.some_bind, Option.some.injEq] at h
              simp [← h, cellBoxCount, hm]
            | some TileInfo =>
              simp only [hm] at h
              cases hb : bakeBoxes Tileset (TileXMeters Tileset Center MapX)
                (TileYMeters Tileset Center MapY) TileInfo.Boxes with
              | none => simp [hb] at h
              | some r =>
                simp only [hb, Option.some_bind, Option.some.injEq] at h
                simp [← h, cellBoxCount, hm, tile_meta_info.BoxCount,
                  bakeBoxes_length _ _ _ _ _ hb]

theorem mapOpt_boxes_length (Tileset : tileset) (TilesetFirstGID : Nat) (Center Size01 : vec2) :
    ∀ (cells : List map_cell) (ts : List tile_instance),
      mapOpt (bakeCell Tileset TilesetFirstGID Center Size01) cells = some ts →
      (ts.flatMap (fun t => t.Boxes)).length
        = (cells.map (cellBoxCount Tileset TilesetFirstGID)).sum
  | [], ts, h => by
    simp only [mapOpt, Option.some.injEq] at h
    simp [← h]
  | c :: rest, ts, h => by
    simp only [mapOpt] at h
    cases hc : bakeCell Tileset TilesetFirstGID Center Size01 c with
    | none => simp [hc] at h
    | some t =>
      cases hr : mapOpt (bakeCell Tileset TilesetFirstGID Center Size01) rest with
      | none => simp [hc, hr] at h
      | some r =>
        simp only [hc, hr, Option.some_bind, Option.map_some', Option.some.injEq] at h
        have h1 := bakeCell_boxes_length _ _ _ _ _ _ hc
        have h2 := mapOpt_boxes_length Tileset TilesetFirstGID Center Size01 rest r hr
        subst h
        simp only [List.flatMap_cons, List.length_append, List.map_cons, List.sum_cons, h1, h2]

theorem Fills_nil (Tileset : tileset) (TilesetFirstGID : Nat) (Center Size01 : vec2) :
    Fills Tileset TilesetFirstGID Center Size01 some [] := by
  intro T n k _ _
  simp [keepNonEmpty, mapOpt, tilesNeeded, boxesNeeded]

theorem Fills_seq (Tileset : tileset) (TilesetFirstGID : Nat) (Center Size01 : vec2)
    (r1 r2 : bake_arrays → Option bake_arrays) (c1 c2 : List map_cell)
    (h1 : Fills Tileset TilesetFirstGID Center Size01 r1 c1)
    (h2 : Fills Tileset TilesetFirstGID Center Size01 r2 c2) :
    Fills Tileset TilesetFirstGID Center Size01 (fun s => (r1 s).bind r2) (c1 ++ c2) := by
  intro T n k hn hk
  have e1 : tilesNeeded (c1 ++ c2) = tilesNeeded c1 + tilesNeeded c2 := by
    simp [tilesNeeded, keepNonEmpty]
  have e2 : boxesNeeded Tileset TilesetFirstGID (c1 ++ c2)
      = boxesNeeded Tileset TilesetFirstGID c1 + boxesNeeded Tileset TilesetFirstGID c2 := by
    simp [boxesNeeded, keepNonEmpty]
  have e3 : keepNonEmpty (c1 ++ c2) = keepNonEmpty c1 ++ keepNonEmpty c2 := by
    simp [keepNonEmpty]
  rw [e1] at hn
  rw [e2] at hk
  simp only [h1 T n k (by omega) (by omega), e1, e2, e3, mapOpt_append]
  cases mapOpt (bakeCell Tileset TilesetFirstGID Center Size01) (keepNonEmpty c1) with
  | none => simp
  | some ts1 =>
    simp only [Option.map_some', Option.some_bind]
    rw [h2 (T ++ ts1) _ _ (by omega) (by omega)]
    simp only [Option.map_map]
    congr 1
    funext ts2
    simp [Nat.sub_sub, List.append_assoc]

theorem Fills_cell (Tileset : tileset) (TilesetFirstGID : Nat) (Center Size01 : vec2)
    (c : map_cell) :
    Fills Tileset TilesetFirstGID Center Size01
      (fillCell Tileset TilesetFirstGID Center Size01 c.Chunk c.GIDIndex c.GID) [c] := by
  intro T n k hn hk
  by_cases hc : c.GID > 0
  · have e1 : keepNonEmpty [c] = [c] := by simp [keepNonEmpty, hc]
    simp only [tilesNeeded, boxesNeeded, e1, List.length_singleton, List.map_cons, List.map_nil,
      List.sum_cons, List.sum_nil, Nat.add_zero] at hn hk ⊢
    obtain ⟨n1, rfl⟩ : ∃ n1, n = n1 + 1 := ⟨n - 1, by omega⟩
    rw [fillCell_spec Tileset TilesetFirstGID Center Size01 c hc T n1 k hk]
    simp only [mapOpt]
    cases bakeCell Tileset TilesetFirstGID Center Size01 c with
    | none => simp
    | some t => simp
  · have h0 : c.GID = 0 := by omega
    have e1 : keepNonEmpty [c] = [] := by simp [keepNonEmpty, h0]
    simp [tilesNeeded, boxesNeeded, e1, h0, fillCell_empty, mapOpt]

theorem Fills_cells (Tileset : tileset) (TilesetFirstGID : Nat) (Center Size01 : vec2)
    (Chunk : map_chunk) :
    ∀ (GIDs : List Nat) (i : Nat),
      Fills Tileset TilesetFirstGID Center Size01
        (fillCells Tileset TilesetFirstGID Center Size01 Chunk i GIDs) (cellsFrom Chunk i GIDs)
  | [], i => by
    have : fillCells Tileset TilesetFirstGID Center Size01 Chunk i [] = some := by
      funext s; simp [fillCells]
    rw [this]
    exact Fills_nil _ _ _ _
  | GID :: rest, i => by
    have := Fills_seq Tileset TilesetFirstGID Center Size01 _ _ _ _
      (Fills_cell Tileset TilesetFirstGID Center Size01 ⟨Chunk, i, GID⟩)
      (Fills_cells Tileset TilesetFirstGID Center Size01 Chunk rest (i + 1))
    exact this

theorem Fills_chunks (Tileset : tileset) (TilesetFirstGID : Nat) (Center Size01 : vec2) :
    ∀ (Chunks : List map_chunk),
      Fills Tileset TilesetFirstGID Center Size01
        (fillChunks Tileset TilesetFirstGID Center Size01 Chunks) (Chunks.flatMap chunkCells)
  | [] => by
    have : fillChunks Tileset TilesetFirstGID Center Size01 [] = some := by
      funext s; simp [fillChunks]
    rw [this]
    exact Fills_nil _ _ _ _
  | Chunk :: rest => by
    have := Fills_seq Tileset TilesetFirstGID Center Size01 _ _ _ _
      (Fills_cells Tileset TilesetFirstGID Center Size01 Chunk Chunk.GIDs 0)
      (Fills_chunks Tileset TilesetFirstGID Center Size01 rest)
    exact this

theorem Fills_layers (Tileset : tileset) (TilesetFirstGID : Nat) (Center Size01 : vec2) :
    ∀ (Layers : List tile_layer),
      Fills Tileset TilesetFirstGID Center Size01
        (fillLayers Tileset TilesetFirstGID Center Size01 Layers) (Layers.flatMap layerCells)
  | [] => by
    have : fillLayers Tileset TilesetFirstGID Center Size01 [] = some := by
      funext s; simp [fillLayers]
    rw [this]
    exact Fills_nil _ _ _ _
  | Layer :: rest => by
    have := Fills_seq Tileset TilesetFirstGID Center Size01 _ _ _ _
      (Fills_chunks Tileset TilesetFirstGID Center Size01 Layer.Chunks)
      (Fills_layers Tileset TilesetFirstGID Center Size01 rest)
    exact this

theorem Counts_cells (Tileset : tileset) (TilesetFirstGID : Nat) (Chunk : map_chunk) :
    ∀ (GIDs : List Nat) (i : Nat),
      Counts Tileset TilesetFirstGID
        (fun s => GIDs.foldl (countCell Tileset TilesetFirstGID) s) (cellsFrom Chunk i GIDs)
  | [], i => by
    intro s
    simp [cellsFrom, tilesNeeded, boxesNeeded, keepNonEmpty]
  | GID :: rest, i => by
    intro s
    have ih := Counts_cells Tileset TilesetFirstGID Chunk rest (i + 1)
      (countCell Tileset TilesetFirstGID s GID)
    beta_reduce at ih
    simp only [List.foldl_cons, cellsFrom]
    rw [ih]
    by_cases hg : GID > 0
    · have e : keepNonEmpty (⟨Chunk, i, GID⟩ :: cellsFrom Chunk (i + 1) rest)
          = ⟨Chunk, i, GID⟩ :: keepNonEmpty (cellsFrom Chunk (i + 1) rest) := by
        simp [keepNonEmpty, hg]
      simp only [countCell, hg, if_true, tilesNeeded, boxesNeeded, e, List.length_cons,
        List.map_cons, List.sum_cons, cellBoxCount]
      cases GetTileMetaInfo Tileset (u32sub GID TilesetFirstGID) with
      | none => simp; omega
      | some TileInfo => simp; omega
    · have h0 : GID = 0 := by omega
      subst h0
      simp [countCell, tilesNeeded, boxesNeeded, keepNonEmpty]

theorem Counts_chunks (Tileset : tileset) (TilesetFirstGID : Nat) :
    ∀ (Chunks : List map_chunk),
      Counts Tileset TilesetFirstGID
        (fun s => Chunks.foldl (countChunk Tileset TilesetFirstGID) s)
        (Chunks.flatMap chunkCells)
  | [] => by
    intro s
    simp [tilesNeeded, boxesNeeded, keepNonEmpty]
  | Chunk :: rest => by
    intro s
    have ih := Counts_chunks Tileset TilesetFirstGID rest
      (countChunk Tileset TilesetFirstGID s Chunk)
    have hc := Counts_cells Tileset TilesetFirstGID Chunk Chunk.GIDs 0 s
    beta_reduce at ih hc
    simp only [List.foldl_cons, List.flatMap_cons]
    rw [ih]
    simp only [countChunk, hc, chunkCells]
    simp [tilesNeeded, boxesNeeded, keepNonEmpty, Nat.add_assoc]

theorem Counts_layers (Tileset : tileset) (TilesetFirstGID : Nat) :
    ∀ (Layers : List tile_layer),
      Counts Tileset TilesetFirstGID
        (fun s => Layers.foldl (countLayer Tileset TilesetFirstGID) s)
        (Layers.flatMap layerCells)
  | [] => by
    intro s
    simp [tilesNeeded, boxesNeeded, keepNonEmpty]
  | Layer :: rest => by
    intro s
    have ih := Counts_layers Tileset TilesetFirstGID rest
      (countLayer Tileset TilesetFirstGID s Layer)
    have hc := Counts_chunks Tileset TilesetFirstGID Layer.Chunks s
    beta_reduce at ih hc
    simp only [List.foldl_cons, List.flatMap_cons]
    rw [ih]
    simp only [countLayer, hc, layerCells]
    simp [tilesNeeded, boxesNeeded, keepNonEmpty, Nat.add_assoc]

/-- Both totals of the first pass, in closed form. -/
theorem firstPass_eq (Map : tiled_map) (Tileset : tileset) (TilesetFirstGID : Nat) :
    firstPass Map Tileset TilesetFirstGID
      = ⟨(nonEmptyCells Map).length,
         ((nonEmptyCells Map).map (cellBoxCount Tileset TilesetFirstGID)).sum⟩ := by
  have h := Counts_layers Tileset TilesetFirstGID Map.TileLayers ⟨0, 0⟩
  beta_reduce at h
  simp only [Nat.zero_add] at h
  exact h

/-- The arrays of the second pass, in closed form: what `bakeCell` gives for the
non-empty cells in visiting order, with no slot left over. -/
theorem secondPass_eq (Map : tiled_map) (Tileset : tileset) (TilesetFirstGID : Nat)
    (Center Size01 : vec2) :
    secondPass Map Tileset TilesetFirstGID Center Size01
        (firstPass Map Tileset TilesetFirstGID)
      = (mapOpt (bakeCell Tileset TilesetFirstGID Center Size01) (nonEmptyCells Map)).map
          (fun ts => arraysOf ts 0 0) := by
  have h := Fills_layers Tileset TilesetFirstGID Center Size01 Map.TileLayers []
    (tilesNeeded (mapCells Map)) (boxesNeeded Tileset TilesetFirstGID (mapCells Map))
    (Nat.le_refl _) (Nat.le_refl _)
  rw [firstPass_eq]
  simp only [secondPass, PushArray]
  have e : Map.TileLayers.flatMap layerCells = mapCells Map := rfl
  simp only [e, arraysOf, List.map_nil, List.nil_append, List.flatMap_nil, List.length_nil,
    Nat.sub_self, List.replicate_zero, List.append_nil] at h
  simp only [arraysOf, List.replicate_zero, List.append_nil]
  exact h

theorem mapOpt_isSome {α β : Type} (f : α → Option β) :
    ∀ (l : List α), (∀ a ∈ l, ∃ b, f a = some b) → ∃ r, mapOpt f l = some r
  | [], _ => ⟨[], rfl⟩
  | a :: rest, h => by
    obtain ⟨b, hb⟩ := h a (List.mem_cons_self a rest)
    obtain ⟨r, hr⟩ := mapOpt_isSome f rest (fun x hx => h x (List.mem_cons_of_mem a hx))
    exact ⟨b :: r, by simp [mapOpt, hb, hr]⟩

theorem mapOpt_getElem {α β : Type} (f : α → Option β) :
    ∀ (l : List α) (r : List β), mapOpt f l = some r →
      ∀ (k : Nat) (a : α), l[k]? = some a → ∃ b, f a = some b ∧ r[k]? = some b
  | [], r, _, k, a, hk => by simp at hk
  | x :: rest, r, h, k, a, hk => by
    simp only [mapOpt] at h
    cases hfx : f x with
    | none => simp [hfx] at h
    | some b =>
      cases hr : mapOpt f rest with
      | none => simp [hfx, hr] at h
      | some bs =>
        simp only [hfx, hr, Option.some_bind, Option.map_some', Option.some.injEq] at h
        subst h
        cases k with
        | zero =>
          simp only [List.getElem?_cons_zero, Option.some.injEq] at hk
          subst hk
          exact ⟨b, hfx, by simp⟩
        | succ k =>
          simp only [List.getElem?_cons_succ] at hk
          obtain ⟨b1, h1, h2⟩ := mapOpt_getElem f rest bs hr k a hk
          exact ⟨b1, h1, by simpa using h2⟩

theorem bakeBoxes_of_pixels (Tileset : tileset) (xm ym p : f32)
    (hp : TilesetPixelsToMeters Tileset = some p) :
    ∀ (Bs : List aabb), bakeBoxes Tileset xm ym Bs = some (Bs.map (TileBox Tileset xm ym p))
  | [] => rfl
  | B :: rest => by
    simp [bakeBoxes, hp, bakeBoxes_of_pixels Tileset xm ym p hp rest]

theorem TilesetPixelsToMeters_of_ne (Tileset : tileset) (h : Tileset.TileWidthInPixels ≠ 0) :
    TilesetPixelsToMeters Tileset
      = some (Tileset.TileWidthInMeters / Tileset.TileWidthInPixels) := by
  have : (Tileset.TileWidthInPixels : f32) ≠ 0 := by exact_mod_cast h
  simp [TilesetPixelsToMeters, fdiv, this]

theorem bakeCell_of_divisorsOk (Tileset : tileset) (TilesetFirstGID : Nat) (Center Size01 : vec2)
    (c : map_cell) (h : cellDivisorsOk Tileset TilesetFirstGID c) :
    ∃ t, bakeCell Tileset TilesetFirstGID Center Size01 c = some t := by
  obtain ⟨hw, hh, hcol, hiw, hih, hpx⟩ := h
  simp only [bakeCell, TileMapX, TileMapY, TileX, TileY, SpacedUVOffset, umod, udiv, hw, hh, hcol,
    hiw, hih, if_false, Option.bind_eq_bind, Option.some_bind, Option.pure_def]
  cases hm : GetTileMetaInfo Tileset (u32sub c.GID TilesetFirstGID) with
  | none => simp
  | some TileInfo =>
    cases hB : TileInfo.Boxes with
    | nil => simp [hB, bakeBoxes]
    | cons B rest =>
      have hne : cellBoxCount Tileset TilesetFirstGID c ≠ 0 := by
        simp [cellBoxCount, hm, tile_meta_info.BoxCount, hB]
      have hp := TilesetPixelsToMeters_of_ne Tileset (hpx hne)
      simp [← hB, bakeBoxes_of_pixels Tileset _ _ _ hp]

/-- The second pass returns its arrays as soon as no divisor is zero. -/
theorem secondPass_returns (Map : tiled_map) (Tileset : tileset) (TilesetFirstGID : Nat)
    (Center Size01 : vec2)
    (h : ∀ c ∈ nonEmptyCells Map, cellDivisorsOk Tileset TilesetFirstGID c) :
    ∃ a, secondPass Map Tileset TilesetFirstGID Center Size01
      (firstPass Map Tileset TilesetFirstGID) = some a := by
  obtain ⟨ts, hts⟩ := mapOpt_isSome (bakeCell Tileset TilesetFirstGID Center Size01)
    (nonEmptyCells Map) (fun c hc => bakeCell_of_divisorsOk _ _ _ _ c (h c hc))
  exact ⟨arraysOf ts 0 0, by simp [secondPass_eq, hts]⟩

/-- What the second pass returns, when it returns. -/
theorem secondPass_some (Map : tiled_map) (Tileset : tileset) (TilesetFirstGID : Nat)
    (Center Size01 : vec2) (a : bake_arrays)
    (h : secondPass Map Tileset TilesetFirstGID Center Size01
      (firstPass Map Tileset TilesetFirstGID) = some a) :
    ∃ ts, mapOpt (bakeCell Tileset TilesetFirstGID Center Size01) (nonEmptyCells Map) = some ts ∧
      a = arraysOf ts 0 0 := by
  rw [secondPass_eq] at h
  cases hts : mapOpt (bakeCell Tileset TilesetFirstGID Center Size01) (nonEmptyCells Map) with
  | none => simp [hts] at h
  | some ts =>
    simp only [hts, Option.map_some', Option.some.injEq] at h
    exact ⟨ts, rfl, h.symm⟩

theorem glm_scale_translate (t s : vec3) :
    glm.scale (glm.translate mat4.identity t) s = (translation t).mul (scaling s) := by
  simp [glm.scale, glm.translate, mat4.identity, translation, scaling, mat4.mul, mat4.mulVec,
    vec4.add, vec4.smul]

theorem tilesNeeded_cellsFrom (Chunk : map_chunk) :
    ∀ (GIDs : List Nat) (i : Nat),
      tilesNeeded (cellsFrom Chunk i GIDs) = GIDs.countP (fun g => decide (g > 0))
  | [], _ => rfl
  | g :: rest, i => by
    have ih := tilesNeeded_cellsFrom Chunk rest (i + 1)
    simp only [tilesNeeded, keepNonEmpty] at ih
    by_cases hg : g > 0
    · simp [tilesNeeded, keepNonEmpty, cellsFrom, hg, ih]
    · have h0 : g = 0 := by omega
      subst h0
      simp [tilesNeeded, keepNonEmpty, cellsFrom, ih]

theorem tilesNeeded_chunks :
    ∀ (Chunks : List map_chunk),
      tilesNeeded (Chunks.flatMap chunkCells)
        = (Chunks.map (fun c => c.GIDs.countP (fun g => decide (g > 0)))).sum
  | [] => rfl
  | c :: rest => by
    have ih := tilesNeeded_chunks rest
    have hc := tilesNeeded_cellsFrom c c.GIDs 0
    simp only [tilesNeeded, keepNonEmpty] at ih hc
    simp [tilesNeeded, keepNonEmpty, chunkCells, ih, hc]

theorem tilesNeeded_layers :
    ∀ (Layers : List tile_layer),
      tilesNeeded (Layers.flatMap layerCells)
        = (Layers.map (fun l =>
            (l.Chunks.map (fun c => c.GIDs.countP (fun g => decide (g > 0)))).sum)).sum
  | [] => rfl
  | l :: rest => by
    have ih := tilesNeeded_layers rest
    have hc := tilesNeeded_chunks l.Chunks
    simp only [tilesNeeded, keepNonEmpty] at ih hc
    simp [tilesNeeded, keepNonEmpty, layerCells, ih, hc]

/-- The values `bakeCell` returns, in terms of the locals of the second pass. -/
theorem bakeCell_values (Tileset : tileset) (TilesetFirstGID : Nat) (Center Size01 : vec2)
    (c : map_cell) (t : tile_instance)
    (h : bakeCell Tileset TilesetFirstGID Center Size01 c = some t) :
    ∃ MapX MapY X Y,
      TileMapX c.Chunk c.GIDIndex = some MapX ∧ TileMapY c.Chunk c.GIDIndex = some MapY ∧
      TileX Tileset TilesetFirstGID c.GID = some X ∧
      TileY Tileset TilesetFirstGID c.GID = some Y ∧
      t.Model = TileInstanceModel Tileset (TileXMeters Tileset Center MapX)
        (TileYMeters Tileset Center MapY) ∧
      t.UVOffset01 = TileInstanceUVOffset01 Size01 X Y ∧
      t.Boxes = (cellMetaBoxes Tileset TilesetFirstGID c).map
        (TileBox Tileset (TileXMeters Tileset Center MapX) (TileYMeters Tileset Center MapY)
          (Tileset.TileWidthInMeters / Tileset.TileWidthInPixels)) := by
  simp only [bakeCell, Option.bind_eq_bind, Option.pure_def] at h
  cases hx : TileMapX c.Chunk c.GIDIndex with
  | none => simp [hx] at h
  | some MapX =>
    cases hy : TileMapY c.Chunk c.GIDIndex with
    | none => simp [hx, hy] at h
    | some MapY =>
      cases htx : TileX Tileset TilesetFirstGID c.GID with
      | none => simp [hx, hy, htx] at h
      | some X =>
        cases hty : TileY Tileset TilesetFirstGID c.GID with
        | none => simp [hx, hy, htx, hty] at h
        | some Y =>
          cases hs : SpacedUVOffset Tileset X Y with
          | none => simp [hx, hy, htx, hty, hs] at h
          | some Spaced =>
            simp only [hx, hy, htx, hty, hs, Option.some_bind] at h
            refine ⟨MapX, MapY, X, Y, rfl, rfl, rfl, rfl, ?_⟩
            cases hm : GetTileMetaInfo Tileset (u32sub c.GID TilesetFirstGID) with
            | none =>
              simp only [hm, Option.some_bind, Option.some.injEq] at h
              subst h
              simp [cellMetaBoxes, hm]
            | some TileInfo =>
              simp only [hm] at h
              cases hb : bakeBoxes Tileset (TileXMeters Tileset Center MapX)
                (TileYMeters Tileset Center MapY) TileInfo.Boxes with
              | none => simp [hb] at h
              | some r =>
                simp only [hb, Option.some_bind, Option.some.injEq] at h
                subst h
                refine ⟨rfl, rfl, ?_⟩
                simp only [cellMetaBoxes, hm]
                cases hB : TileInfo.Boxes with
                | nil =>
                  rw [hB] at hb
                  simp only [bakeBoxes, Option.some.injEq] at hb
                  simp [← hb]
                | cons B rest =>
                  rw [hB] at hb
                  cases hp : TilesetPixelsToMeters Tileset with
                  | none => simp [bakeBoxes, hp] at hb
                  | some p =>
                    have hp1 : p = Tileset.TileWidthInMeters / Tileset.TileWidthInPixels := by
                      simp only [TilesetPixelsToMeters, fdiv] at hp
                      split at hp
                      · simp at hp
                      · simpa using hp.symm
                    rw [bakeBoxes_of_pixels Tileset _ _ p hp] at hb
                    simp only [Option.some.injEq] at hb
                    rw [← hb, hp1]

theorem secondPass_scenario :
    secondPass scenarioMap scenarioTileset 1 ⟨0, 0⟩ ⟨1 / 2, 1⟩
      (firstPass scenarioMap scenarioTileset 1) = some scenarioArrays := by
  decide!

theorem scenario_divisorsOk :
    ∀ c ∈ nonEmptyCells scenarioMap, cellDivisorsOk scenarioTileset 1 c := by
  decide

/-! ## Counts and order of the baked arrays (C1-C4) -/

/-- C1: the `TotalTileCount` of the first pass is the number of cells, over all chunks
of all tile layers, whose GID is > 0; whenever the second pass returns, its final
`TileInstanceIndex` equals that count and both tile arrays have that many entries; and
the second pass does return as soon as no divisor it uses is zero. -/
theorem C1_total_tile_count (Map : tiled_map) (Tileset : tileset) (TilesetFirstGID : Nat)
    (Center Size01 : vec2) :
    (firstPass Map Tileset TilesetFirstGID).TotalTileCount = (nonEmptyCells Map).length ∧
    (nonEmptyCells Map).length
      = (Map.TileLayers.map (fun l =>
          (l.Chunks.map (fun c => c.GIDs.countP (fun g => decide (g > 0)))).sum)).sum ∧
    (∀ a, secondPass Map Tileset TilesetFirstGID Center Size01
        (firstPass Map Tileset TilesetFirstGID) = some a →
      a.TileInstanceIndex = (firstPass Map Tileset TilesetFirstGID).TotalTileCount ∧
      a.TileInstanceModels.length = a.TileInstanceIndex ∧
      a.TileInstanceUVOffsets01.length = a.TileInstanceIndex) ∧
    ((∀ c ∈ nonEmptyCells Map, cellDivisorsOk Tileset TilesetFirstGID c) →
      ∃ a, secondPass Map Tileset TilesetFirstGID Center Size01
        (firstPass Map Tileset TilesetFirstGID) = some a) := by
  refine ⟨by rw [firstPass_eq], tilesNeeded_layers Map.TileLayers, ?_,
    secondPass_returns Map Tileset TilesetFirstGID Center Size01⟩
  intro a ha
  obtain ⟨ts, hts, rfl⟩ := secondPass_some _ _ _ _ _ _ ha
  have hl := mapOpt_length _ _ _ hts
  rw [firstPass_eq]
  simp [arraysOf, hl]

theorem C1_total_tile_count_witness :
    secondPass scenarioMap scenarioTileset 1 ⟨0, 0⟩ ⟨1 / 2, 1⟩
        (firstPass scenarioMap scenarioTileset 1) = some scenarioArrays ∧
      (firstPass scenarioMap scenarioTileset 1).TotalTileCount = 2 ∧
      scenarioArrays.TileInstanceIndex = (firstPass scenarioMap scenarioTileset 1).TotalTileCount :=
  ⟨secondPass_scenario,
   (C1_total_tile_count scenarioMap scenarioTileset 1 ⟨0, 0⟩ ⟨1 / 2, 1⟩).1.trans (by decide),
   ((C1_total_tile_count scenarioMap scenarioTileset 1 ⟨0, 0⟩ ⟨1 / 2, 1⟩).2.2.1
      scenarioArrays secondPass_scenario).1⟩

/-- C2: the `TotalTileBoxCount` of the first pass is the sum, over the cells with
GID > 0, of the `BoxCount` of `GetTileMetaInfo(Tileset, GID - TilesetFirstGID)`, 0
when the lookup is null; whenever the second pass returns, its final `TileBoxIndex`
equals that sum and both box arrays have that many entries; and a non-empty cell whose
lookup is null adds one tile and no box in the first pass, and in the second pass
advances `TileInstanceIndex` by one and leaves the box index and both box arrays as
they were. -/
theorem C2_total_box_count (Map : tiled_map) (Tileset : tileset) (TilesetFirstGID : Nat)
    (Center Size01 : vec2) :
    (firstPass Map Tileset TilesetFirstGID).TotalTileBoxCount
      = ((nonEmptyCells Map).map (fun c =>
          match GetTileMetaInfo Tileset (u32sub c.GID TilesetFirstGID) with
          | some TileInfo => TileInfo.BoxCount
          | none => 0)).sum ∧
    (∀ a, secondPass Map Tileset TilesetFirstGID Center Size01
        (firstPass Map Tileset TilesetFirstGID) = some a →
      a.TileBoxIndex = (firstPass Map Tileset TilesetFirstGID).TotalTileBoxCount ∧
      a.TileBoxes.length = a.TileBoxIndex ∧
      a.TileBoxInstanceModels.length = a.TileBoxIndex) ∧
    (∀ (GID : Nat), GID > 0 → GetTileMetaInfo Tileset (u32sub GID TilesetFirstGID) = none →
      (∀ s : bake_counts, countCell Tileset TilesetFirstGID s GID
        = ⟨s.TotalTileCount + 1, s.TotalTileBoxCount⟩) ∧
      (∀ (Chunk : map_chunk) (GIDIndex : Nat) (s s1 : bake_arrays),
        fillCell Tileset TilesetFirstGID Center Size01 Chunk GIDIndex GID s = some s1 →
        s1.TileInstanceIndex = s.TileInstanceIndex + 1 ∧ s1.TileBoxIndex = s.TileBoxIndex ∧
        s1.TileBoxes = s.TileBoxes ∧ s1.TileBoxInstanceModels = s.TileBoxInstanceModels)) := by
  refine ⟨by rw [firstPass_eq]; rfl, ?_, ?_⟩
  · intro a ha
    obtain ⟨ts, hts, rfl⟩ := secondPass_some _ _ _ _ _ _ ha
    have hl := mapOpt_boxes_length _ _ _ _ _ _ hts
    rw [firstPass_eq]
    simp only [arraysOf, List.replicate_zero, List.append_nil, List.length_map]
    exact ⟨hl, trivial, trivial⟩
  · intro GID hg hnone
    refine ⟨fun s => by simp [countCell, hg, hnone], ?_⟩
    intro Chunk GIDIndex s s1 h
    simp only [fillCell, hg, if_true, hnone, Option.bind_eq_bind, Option.pure_def] at h
    cases h1 : store s.TileInstanceModels s.TileInstanceIndex mat4.identity with
    | none => simp [h1] at h
    | some Models0 =>
      cases h2 : TileMapX Chunk GIDIndex with
      | none => simp [h1, h2] at h
      | some MapX =>
        cases h3 : TileMapY Chunk GIDIndex with
        | none => simp [h1, h2, h3] at h
        | some MapY =>
          simp only [h1, h2, h3, Option.some_bind] at h
          cases h4 : store Models0 s.TileInstanceIndex
              (TileInstanceModel Tileset (TileXMeters Tileset Center MapX)
                (TileYMeters Tileset Center MapY)) with
          | none => simp [h4] at h
          | some Models =>
            cases h5 : TileX Tileset TilesetFirstGID GID with
            | none => simp [h4, h5] at h
            | some X =>
              cases h6 : TileY Tileset TilesetFirstGID GID with
              | none => simp [h4, h5, h6] at h
              | some Y =>
                cases h7 : SpacedUVOffset Tileset X Y with
                | none => simp [h4, h5, h6, h7] at h
                | some Spaced =>
                  simp only [h4, h5, h6, h7, Option.some_bind] at h
                  cases h8 : store s.TileInstanceUVOffsets01 s.TileInstanceIndex Spaced with
                  | none => simp [h8] at h
                  | some UVs0 =>
                    simp only [h8, Option.some_bind] at h
                    cases h9 : store UVs0 s.TileInstanceIndex
                        (TileInstanceUVOffset01 Size01 X Y) with
                    | none => simp [h9] at h
                    | some UVs =>
                      simp only [h9, Option.some_bind, Option.some.injEq] at h
                      subst h
                      exact ⟨rfl, rfl, rfl, rfl⟩

theorem C2_total_box_count_witness :
    secondPass scenarioMap scenarioTileset 1 ⟨0, 0⟩ ⟨1 / 2, 1⟩
        (firstPass scenarioMap scenarioTileset 1) = some scenarioArrays ∧
      scenarioArrays.TileBoxIndex = (firstPass scenarioMap scenarioTileset 1).TotalTileBoxCount ∧
      (1 > 0 ∧ GetTileMetaInfo scenarioTileset (u32sub 1 1) = none ∧
        countCell scenarioTileset 1 ⟨0, 0⟩ 1 = ⟨0 + 1, 0⟩) :=
  ⟨secondPass_scenario,
   ((C2_total_box_count scenarioMap scenarioTileset 1 ⟨0, 0⟩ ⟨1 / 2, 1⟩).2.1
      scenarioArrays secondPass_scenario).1,
   by decide, rfl,
   ((C2_total_box_count scenarioMap scenarioTileset 1 ⟨0, 0⟩ ⟨1 / 2, 1⟩).2.2 1
      (by decide) rfl).1 ⟨0, 0⟩⟩

/-- C3: when the second pass returns, both tile arrays have one entry per cell with
GID > 0 and, enumerating the cells by layer, then chunk, then cell index, their k-th
entries are the matrix and the UV offset that the formulas of the pass give for the
k-th cell of that enumeration whose GID is > 0. -/
theorem C3_visiting_order (Map : tiled_map) (Tileset : tileset) (TilesetFirstGID : Nat)
    (Center Size01 : vec2) (a : bake_arrays)
    (h : secondPass Map Tileset TilesetFirstGID Center Size01
      (firstPass Map Tileset TilesetFirstGID) = some a) :
    a.TileInstanceModels.length = ((mapCells Map).filter (fun c => decide (c.GID > 0))).length ∧
    a.TileInstanceUVOffsets01.length
      = ((mapCells Map).filter (fun c => decide (c.GID > 0))).length ∧
    ∀ (k : Nat) (c : map_cell),
      ((mapCells Map).filter (fun c => decide (c.GID > 0)))[k]? = some c →
      ∃ MapX MapY X Y,
        TileMapX c.Chunk c.GIDIndex = some MapX ∧ TileMapY c.Chunk c.GIDIndex = some MapY ∧
        TileX Tileset TilesetFirstGID c.GID = some X ∧
        TileY Tileset TilesetFirstGID c.GID = some Y ∧
        a.TileInstanceModels[k]? = some (TileInstanceModel Tileset
          (TileXMeters Tileset Center MapX) (TileYMeters Tileset Center MapY)) ∧
        a.TileInstanceUVOffsets01[k]? = some (TileInstanceUVOffset01 Size01 X Y) := by
  obtain ⟨ts, hts, rfl⟩ := secondPass_some _ _ _ _ _ _ h
  have hl := mapOpt_length _ _ _ hts
  refine ⟨by simpa [arraysOf] using hl, by simpa [arraysOf] using hl, ?_⟩
  intro k c hk
  obtain ⟨t, ht, htk⟩ := mapOpt_getElem _ _ _ hts k c hk
  obtain ⟨MapX, MapY, X, Y, hx, hy, htx, hty, hM, hU⟩ := bakeCell_values _ _ _ _ _ _ ht
  refine ⟨MapX, MapY, X, Y, hx, hy, htx, hty, ?_, ?_⟩
  · simp [arraysOf, htk, hM]
  · simp [arraysOf, htk, hU]

theorem C3_visiting_order_witness :
    secondPass scenarioMap scenarioTileset 1 ⟨0, 0⟩ ⟨1 / 2, 1⟩
        (firstPass scenarioMap scenarioTileset 1) = some scenarioArrays ∧
      scenarioArrays.TileInstanceModels.length
        = ((mapCells scenarioMap).filter (fun c => decide (c.GID > 0))).length :=
  ⟨secondPass_scenario,
   (C3_visiting_order scenarioMap scenarioTileset 1 ⟨0, 0⟩ ⟨1 / 2, 1⟩ scenarioArrays
      secondPass_scenario).1⟩

/-- C4: when the second pass returns, `TileBoxes` is the concatenation, over the cells
with GID > 0 in visiting order, of the metadata boxes of each tile in metadata order,
each converted to world space by the formulas of the pass; `TileBoxInstanceModels` has
the same length and its k-th entry is the translation by the position of `TileBoxes[k]`
composed with the scaling by its size. -/
theorem C4_box_arrays (Map : tiled_map) (Tileset : tileset) (TilesetFirstGID : Nat)
    (Center Size01 : vec2) (a : bake_arrays)
    (h : secondPass Map Tileset TilesetFirstGID Center Size01
      (firstPass Map Tileset TilesetFirstGID) = some a) :
    (∃ perTile : List (List aabb),
      a.TileBoxes = perTile.flatten ∧
      perTile.length = ((mapCells Map).filter (fun c => decide (c.GID > 0))).length ∧
      ∀ (k : Nat) (c : map_cell),
        ((mapCells Map).filter (fun c => decide (c.GID > 0)))[k]? = some c →
        ∃ MapX MapY,
          TileMapX c.Chunk c.GIDIndex = some MapX ∧ TileMapY c.Chunk c.GIDIndex = some MapY ∧
          perTile[k]? = some
            ((match GetTileMetaInfo Tileset (u32sub c.GID TilesetFirstGID) with
              | some TileInfo => TileInfo.Boxes
              | none => []).map
              (TileBox Tileset (TileXMeters Tileset Center MapX)
                (TileYMeters Tileset Center MapY)
                (Tileset.TileWidthInMeters / Tileset.TileWidthInPixels)))) ∧
    a.TileBoxInstanceModels.length = a.TileBoxes.length ∧
    ∀ (k : Nat) (b : aabb), a.TileBoxes[k]? = some b →
      a.TileBoxInstanceModels[k]? = some
        ((translation ⟨b.Position.x, b.Position.y, 0⟩).mul (scaling ⟨b.Size.x, b.Size.y, 0⟩)) := by
  obtain ⟨ts, hts, rfl⟩ := secondPass_some _ _ _ _ _ _ h
  have hl := mapOpt_length _ _ _ hts
  refine ⟨⟨ts.map (fun t => t.Boxes), ?_, by simpa using hl, ?_⟩, by simp [arraysOf], ?_⟩
  · simp [arraysOf, List.flatMap_def]
  · intro k c hk
    obtain ⟨t, ht, htk⟩ := mapOpt_getElem _ _ _ hts k c hk
    obtain ⟨MapX, MapY, X, Y, hx, hy, -, -, -, -, hB⟩ := bakeCell_values _ _ _ _ _ _ ht
    refine ⟨MapX, MapY, hx, hy, ?_⟩
    simp only [List.getElem?_map, htk, Option.map_some', hB, cellMetaBoxes]
  · intro k b hk
    simp only [arraysOf, List.replicate_zero, List.append_nil] at hk ⊢
    simp only [List.getElem?_map, hk, Option.map_some', TileBoxInstanceModel,
      glm_scale_translate]

theorem C4_box_arrays_witness :
    secondPass scenarioMap scenarioTileset 1 ⟨0, 0⟩ ⟨1 / 2, 1⟩
        (firstPass scenarioMap scenarioTileset 1) = some scenarioArrays ∧
      scenarioArrays.TileBoxInstanceModels.length = scenarioArrays.TileBoxes.length ∧
      ∀ (k : Nat) (b : aabb), scenarioArrays.TileBoxes[k]? = some b →
        scenarioArrays.TileBoxInstanceModels[k]? = some
          ((translation ⟨b.Position.x, b.Position.y, 0⟩).mul
            (scaling ⟨b.Size.x, b.Size.y, 0⟩)) :=
  ⟨secondPass_scenario,
   (C4_box_arrays scenarioMap scenarioTileset 1 ⟨0, 0⟩ ⟨1 / 2, 1⟩ scenarioArrays
      secondPass_scenario).2⟩

/-! ## Per-cell formulas (C5-C9) -/

theorem toS32_of_fits (z : Int) (h1 : -2 ^ 31 ≤ z) (h2 : z < 2 ^ 31) : toS32 z = z := by
  unfold toS32
  norm_num at h1 h2 ⊢
  omega

/-- C5 (amended): for every cell index `i` of a chunk with origin (X, Y), width W ≠ 0
and height H ≠ 0 for which X + (i mod W) and Y + (i div H) fit in a signed 32-bit
integer, the grid coordinates of the baker are `TileMapX = X + (i mod W)` and
`TileMapY = Y + (i div H)`. On the 2x2 chunk at origin (0,0) with GIDs `[1,0,2,0]`,
first-GID 1 and a tileset of 2 columns, the first pass counts exactly 2 tiles, the
non-empty cells are those of index 0 and 2, at grid positions (0,0) and (0,1), with
tileset column/row (0,0) and (1,0). -/
theorem C5_grid_coordinates (Chunk : map_chunk) (i : Nat)
    (hW : Chunk.Width ≠ 0) (hH : Chunk.Height ≠ 0)
    (hX : -2 ^ 31 ≤ Chunk.X + ((i % Chunk.Width : Nat) : Int) ∧
      Chunk.X + ((i % Chunk.Width : Nat) : Int) < 2 ^ 31)
    (hY : -2 ^ 31 ≤ Chunk.Y + ((i / Chunk.Height : Nat) : Int) ∧
      Chunk.Y + ((i / Chunk.Height : Nat) : Int) < 2 ^ 31) :
    (TileMapX Chunk i = some (Chunk.X + ((i % Chunk.Width : Nat) : Int)) ∧
      TileMapY Chunk i = some (Chunk.Y + ((i / Chunk.Height : Nat) : Int))) ∧
    (∀ (Tileset : tileset) (Others : List map_tileset), Tileset.Columns = 2 →
      (firstPass ⟨[⟨[scenarioChunk]⟩], ⟨Tileset, 1⟩ :: Others⟩ Tileset 1).TotalTileCount = 2 ∧
      nonEmptyCells ⟨[⟨[scenarioChunk]⟩], ⟨Tileset, 1⟩ :: Others⟩
        = [⟨scenarioChunk, 0, 1⟩, ⟨scenarioChunk, 2, 2⟩] ∧
      TileMapX scenarioChunk 0 = some 0 ∧ TileMapY scenarioChunk 0 = some 0 ∧
      TileMapX scenarioChunk 2 = some 0 ∧ TileMapY scenarioChunk 2 = some 1 ∧
      TileX Tileset 1 1 = some 0 ∧ TileY Tileset 1 1 = some 0 ∧
      TileX Tileset 1 2 = some 1 ∧ TileY Tileset 1 2 = some 0) := by
  refine ⟨⟨?_, ?_⟩, ?_⟩
  · simp only [TileMapX, umod, hW, if_false, Option.bind_eq_bind, Option.some_bind,
      Option.pure_def, Option.some.injEq]
    exact toS32_of_fits _ hX.1 hX.2
  · simp only [TileMapY, udiv, hH, if_false, Option.bind_eq_bind, Option.some_bind,
      Option.pure_def, Option.some.injEq]
    exact toS32_of_fits _ hY.1 hY.2
  · intro Tileset Others hcol
    have hcells : nonEmptyCells ⟨[⟨[scenarioChunk]⟩], ⟨Tileset, 1⟩ :: Others⟩
        = [⟨scenarioChunk, 0, 1⟩, ⟨scenarioChunk, 2, 2⟩] := by
      simp [nonEmptyCells, mapCells, layerCells, chunkCells, cellsFrom, scenarioChunk]
    refine ⟨by rw [firstPass_eq, hcells]; rfl, hcells, by decide, by decide, by decide,
      by decide, ?_, ?_, ?_, ?_⟩ <;>
    · simp only [TileX, TileY, umod, udiv, hcol]
      decide

theorem C5_grid_coordinates_witness :
    scenarioChunk.Width ≠ 0 ∧ scenarioChunk.Height ≠ 0 ∧
      TileMapX scenarioChunk 2 = some (scenarioChunk.X + ((2 % scenarioChunk.Width : Nat) : Int)) ∧
      TileMapY scenarioChunk 2
        = some (scenarioChunk.Y + ((2 / scenarioChunk.Height : Nat) : Int)) :=
  ⟨by decide, by decide,
   (C5_grid_coordinates scenarioChunk 2 (by decide) (by decide) (by decide) (by decide)).1⟩

/-- C5 (as stated) fails: in the chunk at origin X = 2147483647 of width 2, the cell
of index 1 is non-empty and X + (1 mod 2) = 2147483648, but the `s32` local `TileMapX`
is -2147483648. -/
theorem C5_grid_coordinates_counterexample :
    ([0, 1] : List Nat)[1]? = some 1 ∧
      TileMapX ⟨2147483647, 0, 2, 2, [0, 1]⟩ 1 = some (-2147483648) ∧
      TileMapX ⟨2147483647, 0, 2, 2, [0, 1]⟩ 1
        ≠ some ((2147483647 : Int) + ((1 % 2 : Nat) : Int)) := by
  decide

/-- C7: the tile matrix is the translation by the world position composed with the
scaling by (TileWidthInMeters, TileHeightInMeters, 0), with no rotation: it maps the
unit-quad point (u, v, 0, 1) to (XMeters + u * TileWidthInMeters, YMeters + v *
TileHeightInMeters, 0, 1) and the off-diagonal entries of its upper-left 2x2 block
are 0. -/
theorem C7_tile_instance_model (Tileset : tileset) (XMeters YMeters : f32) :
    TileInstanceModel Tileset XMeters YMeters
      = (translation ⟨XMeters, YMeters, 0⟩).mul
          (scaling ⟨Tileset.TileWidthInMeters, Tileset.TileHeightInMeters, 0⟩) ∧
    (∀ u v : f32, (TileInstanceModel Tileset XMeters YMeters).mulVec ⟨u, v, 0, 1⟩
      = ⟨XMeters + u * Tileset.TileWidthInMeters, YMeters + v * Tileset.TileHeightInMeters,
         0, 1⟩) ∧
    (TileInstanceModel Tileset XMeters YMeters).c0.x = Tileset.TileWidthInMeters ∧
    (TileInstanceModel Tileset XMeters YMeters).c1.y = Tileset.TileHeightInMeters ∧
    (TileInstanceModel Tileset XMeters YMeters).c0.y = 0 ∧
    (TileInstanceModel Tileset XMeters YMeters).c1.x = 0 := by
  refine ⟨glm_scale_translate _ _, ?_, ?_, ?_, ?_, ?_⟩
  · intro u v
    simp only [TileInstanceModel, glm.scale, glm.translate, mat4.identity, mat4.mulVec,
      vec4.add, vec4.smul, vec4.mk.injEq]
    refine ⟨by ring, by ring, by ring, by ring⟩
  all_goals simp [TileInstanceModel, glm.scale, glm.translate, mat4.identity, vec4.smul]

theorem store_getElem {α : Type} (a a1 : List α) (i : Nat) (v : α)
    (h : store a i v = some a1) : a1[i]? = some v ∧ a1.length = a.length := by
  simp only [store] at h
  split at h
  · rename_i hi
    simp only [Option.some.injEq] at h
    subst h
    simp [hi]
  · simp at h

theorem u32sub_of_le (a b : Nat) (h1 : b ≤ a) (h2 : a < 2 ^ 32) : u32sub a b = a - b := by
  unfold u32sub
  norm_num at h2 ⊢
  omega

theorem uv_component_range (k Cols Px Img : Nat) (hk : k < Cols) (hImg : Img ≠ 0)
    (hfit : Cols * Px ≤ Img) :
    (0 : f32) ≤ (k : f32) * ((Px : f32) / (Img : f32)) ∧
      (k : f32) * ((Px : f32) / (Img : f32)) < 1 := by
  have hI : (0 : f32) < (Img : f32) := by exact_mod_cast Nat.pos_of_ne_zero hImg
  have hlt : k * Px < Img := by
    rcases Nat.eq_zero_or_pos Px with h0 | hpos
    · subst h0
      simpa using Nat.pos_of_ne_zero hImg
    · exact lt_of_lt_of_le (Nat.mul_lt_mul_of_pos_right hk hpos) hfit
  have hlt1 : (k : f32) * (Px : f32) < (Img : f32) := by exact_mod_cast hlt
  constructor
  · positivity
  · rw [← mul_div_assoc, div_lt_one hI]
    exact hlt1

/-- C8 (amended): for a GID g and first-GID f, with index the 32-bit difference g - f
(the plain difference when f ≤ g < 2^32), column = index mod Columns and row = index
div Columns, provided Columns and the image width and height are not 0 and column and
row are below 2^31, the baked UV offset is (column * TileWidthInPixels / Image.Width,
row * TileHeightInPixels / Image.Height); and when moreover index < Columns * rows,
Columns * TileWidthInPixels <= Image.Width and rows * TileHeightInPixels <=
Image.Height, both components lie in [0, 1). -/
theorem C8_uv_offset (Tileset : tileset) (TilesetFirstGID GID : Nat)
    (hC : Tileset.Columns ≠ 0) (hIW : Tileset.Image.Width ≠ 0) (hIH : Tileset.Image.Height ≠ 0)
    (hcol : u32sub GID TilesetFirstGID % Tileset.Columns < 2 ^ 31)
    (hrow : u32sub GID TilesetFirstGID / Tileset.Columns < 2 ^ 31) :
    (TilesetFirstGID ≤ GID → GID < 2 ^ 32 → u32sub GID TilesetFirstGID = GID - TilesetFirstGID) ∧
    TileSize01 Tileset = some
      ⟨(Tileset.TileWidthInPixels : f32) / Tileset.Image.Width,
       (Tileset.TileHeightInPixels : f32) / Tileset.Image.Height⟩ ∧
    TileX Tileset TilesetFirstGID GID
      = some ((u32sub GID TilesetFirstGID % Tileset.Columns : Nat) : Int) ∧
    TileY Tileset TilesetFirstGID GID
      = some ((u32sub GID TilesetFirstGID / Tileset.Columns : Nat) : Int) ∧
    TileInstanceUVOffset01
        ⟨(Tileset.TileWidthInPixels : f32) / Tileset.Image.Width,
         (Tileset.TileHeightInPixels : f32) / Tileset.Image.Height⟩
        ((u32sub GID TilesetFirstGID % Tileset.Columns : Nat) : Int)
        ((u32sub GID TilesetFirstGID / Tileset.Columns : Nat) : Int)
      = ⟨((u32sub GID TilesetFirstGID % Tileset.Columns : Nat) : f32)
            * Tileset.TileWidthInPixels / Tileset.Image.Width,
         ((u32sub GID TilesetFirstGID / Tileset.Columns : Nat) : f32)
            * Tileset.TileHeightInPixels / Tileset.Image.Height⟩ ∧
    (∀ rows : Nat, u32sub GID TilesetFirstGID < Tileset.Columns * rows →
      Tileset.Columns * Tileset.TileWidthInPixels ≤ Tileset.Image.Width →
      rows * Tileset.TileHeightInPixels ≤ Tileset.Image.Height →
      0 ≤ ((u32sub GID TilesetFirstGID % Tileset.Columns : Nat) : f32)
            * Tileset.TileWidthInPixels / Tileset.Image.Width ∧
      ((u32sub GID TilesetFirstGID % Tileset.Columns : Nat) : f32)
            * Tileset.TileWidthInPixels / Tileset.Image.Width < 1 ∧
      0 ≤ ((u32sub GID TilesetFirstGID / Tileset.Columns : Nat) : f32)
            * Tileset.TileHeightInPixels / Tileset.Image.Height ∧
      ((u32sub GID TilesetFirstGID / Tileset.Columns : Nat) : f32)
            * Tileset.TileHeightInPixels / Tileset.Image.Height < 1) := by
  have hIWq : (Tileset.Image.Width : f32) ≠ 0 := by exact_mod_cast hIW
  have hIHq : (Tileset.Image.Height : f32) ≠ 0 := by exact_mod_cast hIH
  refine ⟨u32sub_of_le GID TilesetFirstGID, ?_, ?_, ?_, ?_, ?_⟩
  · simp [TileSize01, fdiv, hIWq, hIHq]
  · simp only [TileX, umod, hC, if_false, Option.bind_eq_bind, Option.some_bind,
      Option.pure_def, Option.some.injEq]
    exact toS32_of_fits _ (le_trans (by norm_num) (Int.ofNat_nonneg _)) (by exact_mod_cast hcol)
  · simp only [TileY, udiv, hC, if_false, Option.bind_eq_bind, Option.some_bind,
      Option.pure_def, Option.some.injEq]
    exact toS32_of_fits _ (le_trans (by norm_num) (Int.ofNat_nonneg _)) (by exact_mod_cast hrow)
  · simp only [TileInstanceUVOffset01, vec2.mk.injEq, Int.cast_natCast]
    exact ⟨by ring, by ring⟩
  · intro rows hidx hfitW hfitH
    have hk1 : u32sub GID TilesetFirstGID % Tileset.Columns < Tileset.Columns :=
      Nat.mod_lt _ (Nat.pos_of_ne_zero hC)
    have hk2 : u32sub GID TilesetFirstGID / Tileset.Columns < rows :=
      Nat.div_lt_of_lt_mul hidx
    have h1 := uv_component_range _ _ _ _ hk1 hIW hfitW
    have h2 := uv_component_range _ _ _ _ hk2 hIH hfitH
    rw [← mul_div_assoc] at h1 h2
    exact ⟨h1.1, h1.2, h2.1, h2.2⟩

theorem C8_uv_offset_witness :
    scenarioTileset.Columns ≠ 0 ∧ u32sub 2 1 / scenarioTileset.Columns < 2 ^ 31 ∧
      TileX scenarioTileset 1 2 = some ((u32sub 2 1 % scenarioTileset.Columns : Nat) : Int) ∧
      TileY scenarioTileset 1 2 = some ((u32sub 2 1 / scenarioTileset.Columns : Nat) : Int) :=
  ⟨by decide, by decide,
   (C8_uv_offset scenarioTileset 1 2 (by decide) (by decide) (by decide) (by decide)
      (by decide)).2.2.1,
   (C8_uv_offset scenarioTileset 1 2 (by decide) (by decide) (by decide) (by decide)
      (by decide)).2.2.2.1⟩

/-- C8 (as stated) fails: with a single-column tileset, first-GID 1 and the GID
2147483649 (tile 1 with the horizontal-flip bit), index = 2147483648, column = 0 and
row = 2147483648, so the claimed UV offset is (0, 2147483648), but the `s32` local
`TileY` is -2147483648 and the baked UV offset is (0, -2147483648). -/
theorem C8_uv_offset_counterexample :
    TileSize01 singleColumnTileset = some ⟨1, 1⟩ ∧
      u32sub 2147483649 1 = 2147483649 - 1 ∧
      (bakeCell singleColumnTileset 1 ⟨0, 0⟩ ⟨1, 1⟩
          ⟨⟨0, 0, 1, 1, [2147483649]⟩, 0, 2147483649⟩).map (fun t => t.UVOffset01)
        = some ⟨0, -2147483648⟩ ∧
      (⟨0, -2147483648⟩ : vec2)
        ≠ ⟨(((2147483649 - 1) % singleColumnTileset.Columns : Nat) : f32)
              * singleColumnTileset.TileWidthInPixels / singleColumnTileset.Image.Width,
           (((2147483649 - 1) / singleColumnTileset.Columns : Nat) : f32)
              * singleColumnTileset.TileHeightInPixels / singleColumnTileset.Image.Height⟩ := by
  decide!

/-- C9: for a tileset whose tile width in pixels is not 0, with p = TileWidthInMeters /
TileWidthInPixels, the box loop converts the metadata box of position (bx, by) and
size (bw, bh) of a tile baked at (tx, ty) into the box of position (tx + bx*p, ty +
(TileHeightInPixels - by - bh)*p) and size (bw*p, bh*p), and writes it at
`TileBoxes[TileBoxIndex]`. The box of position (2,2) and size (4,4) in a 16x16-pixel
tile with TileWidthInMeters = 1, at tile origin (0,0), bakes to position
(0.125, 0.625) and size (0.25, 0.25). -/
theorem C9_box_conversion (Tileset : tileset) (tx ty : f32) (Box : aabb)
    (hp : Tileset.TileWidthInPixels ≠ 0) :
    TilesetPixelsToMeters Tileset
      = some (Tileset.TileWidthInMeters / Tileset.TileWidthInPixels) ∧
    TileBox Tileset tx ty (Tileset.TileWidthInMeters / Tileset.TileWidthInPixels) Box
      = ⟨⟨tx + Box.Position.x * (Tileset.TileWidthInMeters / Tileset.TileWidthInPixels),
          ty + (Tileset.TileHeightInPixels - Box.Position.y - Box.Size.y)
            * (Tileset.TileWidthInMeters / Tileset.TileWidthInPixels)⟩,
         ⟨Box.Size.x * (Tileset.TileWidthInMeters / Tileset.TileWidthInPixels),
          Box.Size.y * (Tileset.TileWidthInMeters / Tileset.TileWidthInPixels)⟩⟩ ∧
    (∀ s s1 : bake_arrays, fillBox Tileset tx ty s Box = some s1 →
      s1.TileBoxes[s.TileBoxIndex]? = some
        ⟨⟨tx + Box.Position.x * (Tileset.TileWidthInMeters / Tileset.TileWidthInPixels),
          ty + (Tileset.TileHeightInPixels - Box.Position.y - Box.Size.y)
            * (Tileset.TileWidthInMeters / Tileset.TileWidthInPixels)⟩,
         ⟨Box.Size.x * (Tileset.TileWidthInMeters / Tileset.TileWidthInPixels),
          Box.Size.y * (Tileset.TileWidthInMeters / Tileset.TileWidthInPixels)⟩⟩) ∧
    (Tileset.TileWidthInPixels = 16 → Tileset.TileHeightInPixels = 16 →
      Tileset.TileWidthInMeters = 1 →
      TileBox Tileset 0 0 (Tileset.TileWidthInMeters / Tileset.TileWidthInPixels)
          ⟨⟨2, 2⟩, ⟨4, 4⟩⟩
        = ⟨⟨1 / 8, 5 / 8⟩, ⟨1 / 4, 1 / 4⟩⟩) := by
  have hpm := TilesetPixelsToMeters_of_ne Tileset hp
  refine ⟨hpm, rfl, ?_, ?_⟩
  · intro s s1 h
    simp only [fillBox, hpm, Option.bind_eq_bind, Option.some_bind, Option.pure_def] at h
    cases h1 : store s.TileBoxes s.TileBoxIndex
        (TileBox Tileset tx ty (Tileset.TileWidthInMeters / Tileset.TileWidthInPixels) Box) with
    | none => simp [h1] at h
    | some Boxes =>
      cases h2 : store s.TileBoxInstanceModels s.TileBoxIndex mat4.identity with
      | none => simp [h1, h2] at h
      | some Models0 =>
        simp only [h1, h2, Option.some_bind] at h
        cases h3 : store Models0 s.TileBoxIndex (TileBoxInstanceModel
            (TileBox Tileset tx ty (Tileset.TileWidthInMeters / Tileset.TileWidthInPixels)
              Box)) with
        | none => simp [h3] at h
        | some Models =>
          simp only [h3, Option.some_bind, Option.some.injEq] at h
          subst h
          exact (store_getElem _ _ _ _ h1).1
  · intro h16 h16h h1
    simp only [TileBox, h16, h16h, h1]
    norm_num

theorem C9_box_conversion_witness :
    scenarioTileset.TileWidthInPixels ≠ 0 ∧
      TilesetPixelsToMeters scenarioTileset
        = some (scenarioTileset.TileWidthInMeters / scenarioTileset.TileWidthInPixels) ∧
      TileBox scenarioTileset 0 0
          (scenarioTileset.TileWidthInMeters / scenarioTileset.TileWidthInPixels)
          ⟨⟨2, 2⟩, ⟨4, 4⟩⟩
        = ⟨⟨1 / 8, 5 / 8⟩, ⟨1 / 4, 1 / 4⟩⟩ :=
  ⟨by decide,
   (C9_box_conversion scenarioTileset 0 0 ⟨⟨2, 2⟩, ⟨4, 4⟩⟩ (by decide)).1,
   (C9_box_conversion scenarioTileset 0 0 ⟨⟨2, 2⟩, ⟨4, 4⟩⟩ (by decide)).2.2.2 rfl rfl rfl⟩

/-! ## Zoom (C10) -/

theorem ProcessInput_Zoom (GameState : game_state) (Input : game_input) :
    (ProcessInput GameState Input).Zoom
      = max (1 / 10) (GameState.Zoom - (if Input.Left.isPressed then 1 / 1000 else 0)
          + (if Input.Right.isPressed then 1 / 1000 else 0)) := by
  obtain ⟨⟨l⟩, ⟨r⟩⟩ := Input
  cases l <;> cases r <;>
    simp only [ProcessInput, if_true, if_false, Bool.false_eq_true, sub_zero, add_zero] <;>
    split <;> rename_i h
  all_goals first
    | exact (max_eq_left (le_of_lt h)).symm
    | exact (max_eq_right (not_lt.mp h)).symm

theorem ProcessInput_Zoom_ge (GameState : game_state) (Input : game_input) :
    1 / 10 ≤ (ProcessInput GameState Input).Zoom := by
  rw [ProcessInput_Zoom]
  exact le_max_left _ _

theorem GameUpdateAndRender_Zoom_ge (Memory : game_memory) (Params : game_params)
    (GameState : game_state) (r : game_state × List api_call)
    (h : GameUpdateAndRender Memory Params GameState = some r) : 1 / 10 ≤ r.1.Zoom := by
  unfold GameUpdateAndRender at h
  split at h
  · split at h
    · simp only [Option.some.injEq] at h
      subst h
      exact ProcessInput_Zoom_ge _ _
    · cases hi : Initialize Memory Params GameState with
      | none => simp [hi] at h
      | some q =>
        simp only [hi, Option.map_some', Option.some.injEq] at h
        subst h
        exact ProcessInput_Zoom_ge _ _
  · simp at h

theorem GameUpdateAndRender_initialized (Memory : game_memory) (Params : game_params)
    (GameState : game_state) (hm : Memory.SizeofGameState ≤ Memory.PermanentStorageSize)
    (hi : GameState.IsInitialized = true) :
    GameUpdateAndRender Memory Params GameState = some (Frame Params GameState) := by
  simp [GameUpdateAndRender, hm, hi]

theorem ProcessInput_IsInitialized (GameState : game_state) (Input : game_input) :
    (ProcessInput GameState Input).IsInitialized = GameState.IsInitialized := by
  obtain ⟨⟨l⟩, ⟨r⟩⟩ := Input
  cases l <;> cases r <;>
    simp only [ProcessInput, if_true, if_false, Bool.false_eq_true] <;>
    split <;> rfl

theorem runFrames_initialized (Memory : game_memory)
    (hm : Memory.SizeofGameState ≤ Memory.PermanentStorageSize) :
    ∀ (Frames : List game_params) (GameState : game_state),
      GameState.IsInitialized = true → ∃ s, runFrames Memory Frames GameState = some s
  | [], s, _ => ⟨s, rfl⟩
  | Params :: rest, s, hi => by
    have h1 := GameUpdateAndRender_initialized Memory Params s hm hi
    have h2 : (Frame Params s).1.IsInitialized = true := by
      simp only [Frame]
      rw [ProcessInput_IsInitialized, hi]
    obtain ⟨s1, hs1⟩ := runFrames_initialized Memory hm rest (Frame Params s).1 h2
    exact ⟨s1, by simp [runFrames, h1, hs1]⟩

theorem runFrames_Zoom_ge (Memory : game_memory) :
    ∀ (Frames : List game_params) (GameState s : game_state), Frames ≠ [] →
      runFrames Memory Frames GameState = some s → 1 / 10 ≤ s.Zoom
  | [], _, _, hne, _ => absurd rfl hne
  | Params :: rest, s0, s, _, h => by
    simp only [runFrames] at h
    cases h1 : GameUpdateAndRender Memory Params s0 with
    | none => simp [h1] at h
    | some r =>
      simp only [h1, Option.some_bind] at h
      cases rest with
      | nil =>
        simp only [runFrames, Option.some.injEq] at h
        subst h
        exact GameUpdateAndRender_Zoom_ge _ _ _ _ h1
      | cons p2 rest2 =>
        exact runFrames_Zoom_ge Memory (p2 :: rest2) r.1 s (by simp) h

/-- C10: for every prior zoom and every input the zoom after `ProcessInput` is >= 0.1;
so the state that any call to `GameUpdateAndRender` returns, and the state after any
non-empty sequence of calls, has Zoom >= 0.1. From an initialized state (and with the
storage assertion satisfied) every call and every sequence of calls does return. -/
theorem C10_zoom_floor (Memory : game_memory) :
    (∀ (GameState : game_state) (Input : game_input),
      1 / 10 ≤ (ProcessInput GameState Input).Zoom) ∧
    (∀ (Params : game_params) (GameState : game_state) (r : game_state × List api_call),
      GameUpdateAndRender Memory Params GameState = some r → 1 / 10 ≤ r.1.Zoom) ∧
    (∀ (Frames : List game_params) (GameState s : game_state), Frames ≠ [] →
      runFrames Memory Frames GameState = some s → 1 / 10 ≤ s.Zoom) ∧
    (Memory.SizeofGameState ≤ Memory.PermanentStorageSize →
      ∀ (Frames : List game_params) (GameState : game_state),
        GameState.IsInitialized = true → ∃ s, runFrames Memory Frames GameState = some s) :=
  ⟨ProcessInput_Zoom_ge, GameUpdateAndRender_Zoom_ge Memory, runFrames_Zoom_ge Memory,
   runFrames_initialized Memory⟩

theorem runFrames_scenario :
    (runFrames scenarioMemory [zoomOutParams, zoomOutParams] freshState).map
      (fun s => (s.IsInitialized, s.Zoom)) = some (true, 499 / 500) := by
  decide!

theorem C10_zoom_floor_witness :
    (runFrames scenarioMemory [zoomOutParams, zoomOutParams] freshState).map
        (fun s => (s.IsInitialized, s.Zoom)) = some (true, 499 / 500) ∧
      (1 : f32) / 10 ≤ (ProcessInput { freshState with Zoom := 1 / 20 } ⟨⟨true⟩, ⟨false⟩⟩).Zoom ∧
      ∃ s, runFrames scenarioMemory [zoomOutParams] { freshState with IsInitialized := true }
        = some s ∧ 1 / 10 ≤ s.Zoom := by
  refine ⟨runFrames_scenario, (C10_zoom_floor scenarioMemory).1 _ _, ?_⟩
  obtain ⟨s, hs⟩ := (C10_zoom_floor scenarioMemory).2.2.2 (by decide) [zoomOutParams]
    { freshState with IsInitialized := true } rfl
  exact ⟨s, hs, (C10_zoom_floor scenarioMemory).2.2.1 _ _ s (by simp) hs⟩

/-! ## Lemmas on the frame driver -/

theorem ProcessInput_eq (GameState : game_state) (Input : game_input) :
    ProcessInput GameState Input =
      { GameState with
        Zoom := max (1 / 10) ((GameState.Zoom - (if Input.Left.isPressed then 1 / 1000 else 0)) +
          (if Input.Right.isPressed then 1 / 1000 else 0)) } := by
  obtain ⟨⟨l⟩, ⟨r⟩⟩ := Input
  cases l <;> cases r <;>
    simp only [ProcessInput, if_true, if_false, Bool.false_eq_true, sub_zero, add_zero] <;>
    split <;> rename_i h
  all_goals first
    | rw [max_eq_left (le_of_lt h)]
    | (rw [max_eq_right (not_lt.mp h)])

theorem Frame_eq (Params : game_params) (GameState : game_state) :
    Frame Params GameState =
      ({ ProcessInput GameState Params.Input with
          Projection := FrameProjection GameState.ScreenWidthInMeters
            GameState.ScreenHeightInMeters (ProcessInput GameState Params.Input).Zoom },
       frameCalls { ProcessInput GameState Params.Input with
          Projection := FrameProjection GameState.ScreenWidthInMeters
            GameState.ScreenHeightInMeters (ProcessInput GameState Params.Input).Zoom }) := by
  simp only [Frame, frameCalls, FrameVP, FrameProjection, FrameView, ProcessInput_eq]

theorem Frame_IsInitialized (Params : game_params) (GameState : game_state) :
    (Frame Params GameState).1.IsInitialized = GameState.IsInitialized := by
  rw [Frame_eq, ProcessInput_eq]

theorem Frame_Zoom (Params : game_params) (GameState : game_state) :
    (Frame Params GameState).1.Zoom = (ProcessInput GameState Params.Input).Zoom := by
  rw [Frame_eq]


theorem runFrames_zoomOut (Memory : game_memory)
    (hm : Memory.SizeofGameState ≤ Memory.PermanentStorageSize) :
    ∀ (Frames : List game_params) (GameState : game_state),
      GameState.IsInitialized = true → 1 / 10 ≤ GameState.Zoom →
      (∀ p ∈ Frames, LeftOnly p) →
      ∃ s, runFrames Memory Frames GameState = some s ∧
        s.Zoom = max (1 / 10) (GameState.Zoom - (Frames.length : f32) / 1000)
  | [], s, _, hz, _ => ⟨s, rfl, by
      rw [max_eq_right]
      · simp
      · simpa using hz⟩
  | Params :: rest, s, hi, hz, hl => by
    have h1 := GameUpdateAndRender_initialized Memory Params s hm hi
    have hp : LeftOnly Params := hl Params (List.mem_cons_self _ _)
    have h2 : (Frame Params s).1.IsInitialized = true := by rw [Frame_IsInitialized, hi]
    have h3 : (Frame Params s).1.Zoom = max (1 / 10) (s.Zoom - 1 / 1000) := by
      rw [Frame_Zoom, ProcessInput_Zoom, hp.1, hp.2]
      simp
    have h4 : 1 / 10 ≤ (Frame Params s).1.Zoom := by
      rw [h3]
      exact le_max_left _ _
    obtain ⟨s1, hs1, hz1⟩ := runFrames_zoomOut Memory hm rest (Frame Params s).1 h2 h4
      (fun p hp => hl p (List.mem_cons_of_mem _ hp))
    refine ⟨s1, by simp [runFrames, h1, hs1], ?_⟩
    rw [hz1, h3]
    rcases le_total (1 / 10) (s.Zoom - 1 / 1000) with h | h
    · rw [max_eq_right h]
      congr 1
      simp only [List.length_cons]
      push_cast
      ring
    · rw [max_eq_left h, max_eq_left, max_eq_left]
      · simp only [List.length_cons]
        push_cast
        have : (0 : f32) ≤ (rest.length : f32) := Nat.cast_nonneg _
        linarith
      · have : (0 : f32) ≤ (rest.length : f32) := Nat.cast_nonneg _
        linarith

theorem bind_some_inv {α β : Type} {x : Option α} {f : α → Option β} {b : β}
    (h : (x >>= f) = some b) : ∃ a, x = some a ∧ f a = some b := by
  cases x with
  | none => cases h
  | some a => exact ⟨a, rfl, h⟩

theorem CreateShader_calls (Memory : game_memory) (Kind Source : String) (k : Nat)
    (r : Nat × List api_call) (h : CreateShader Memory Kind Source k = some r) :
    r.2 = [api_call.glCreateShader Kind, api_call.glShaderSource r.1 Source,
       api_call.glCompileShader r.1, api_call.glGetShaderiv r.1 "GL_COMPILE_STATUS"] := by
  unfold CreateShader at h
  simp only [] at h
  split at h
  · simp only [Option.some.injEq] at h
    subst h
    rfl
  · cases h

theorem CreateProgram_calls (Memory : game_memory) (VertexShader FragmentShader k : Nat)
    (r : Nat × List api_call)
    (h : CreateProgram Memory VertexShader FragmentShader k = some r) :
    r.2 = [api_call.glCreateProgram, api_call.glAttachShader r.1 VertexShader,
       api_call.glAttachShader r.1 FragmentShader, api_call.glLinkProgram r.1,
       api_call.glDeleteShader VertexShader, api_call.glDeleteShader FragmentShader,
       api_call.glGetProgramiv r.1 "GL_LINK_STATUS"] := by
  unfold CreateProgram at h
  simp only [] at h
  split at h
  · simp only [Option.some.injEq] at h
    subst h
    rfl
  · cases h

/-- What a successful run of the initialization block leaves and issues. -/
theorem Initialize_inv (Memory : game_memory) (Params : game_params) (GameState : game_state)
    (q : game_state × List api_call) (h : Initialize Memory Params GameState = some q) :
    q.1.IsInitialized = true ∧ q.1.Zoom = 1 ∧ OneInit q.2 ∧
    q.2.filter api_call.isClearOrDraw = [] ∧
    q.1.VPUniformLocation = Memory.Renderer.glGetUniformLocation q.1.TilesShaderProgram "u_VP" ∧
    q.1.VPUniformLocation2
      = Memory.Renderer.glGetUniformLocation q.1.TileBoxesShaderProgram "u_VP" := by
  unfold Initialize at h
  simp only [GetUniformLocation] at h
  obtain ⟨m2p, h1, h⟩ := bind_some_inv h
  obtain ⟨p2m, h2, h⟩ := bind_some_inv h
  obtain ⟨Map, h3, h⟩ := bind_some_inv h
  obtain ⟨First, h4, h⟩ := bind_some_inv h
  obtain ⟨Size01, h5, h⟩ := bind_some_inv h
  obtain ⟨⟨vs, c1⟩, h6, h⟩ := bind_some_inv h
  obtain ⟨⟨fs, c2⟩, h7, h⟩ := bind_some_inv h
  obtain ⟨⟨prog, c3⟩, h8, h⟩ := bind_some_inv h
  obtain ⟨⟨bvs, c6⟩, h9, h⟩ := bind_some_inv h
  obtain ⟨⟨bfs, c7⟩, h10, h⟩ := bind_some_inv h
  obtain ⟨⟨bprog, c8⟩, h11, h⟩ := bind_some_inv h
  obtain ⟨⟨Counts, Arrays⟩, h12, h⟩ := bind_some_inv h
  simp only [Option.pure_def, Option.some.injEq] at h
  subst h
  have e1 := CreateShader_calls _ _ _ _ _ h6
  have e2 := CreateShader_calls _ _ _ _ _ h7
  have e3 := CreateProgram_calls _ _ _ _ _ h8
  have e6 := CreateShader_calls _ _ _ _ _ h9
  have e7 := CreateShader_calls _ _ _ _ _ h10
  have e8 := CreateProgram_calls _ _ _ _ _ h11
  simp only [] at e1 e2 e3 e6 e7 e8
  subst e1 e2 e3 e6 e7 e8
  refine ⟨rfl, by norm_num, ⟨?_, ?_, ?_⟩, ?_, rfl, rfl⟩
  · simp [fileReads, tilesBufferCalls, tileBoxesBufferCalls, matrixAttribCalls,
      api_call.readPath, List.filterMap_append, initFiles]
  · simp [tilesBufferCalls, tileBoxesBufferCalls, matrixAttribCalls,
      api_call.isLoadMap, List.countP_append, List.countP_cons]
  · simp [tilesBufferCalls, tileBoxesBufferCalls, matrixAttribCalls,
      api_call.isCreate, List.countP_append, List.countP_cons]
  · simp [tilesBufferCalls, tileBoxesBufferCalls, matrixAttribCalls,
      api_call.isClearOrDraw, List.filter_append]

theorem frameCalls_noInit (s : game_state) : NoInit (frameCalls s) := by
  simp [NoInit, frameCalls, fileReads, api_call.readPath, api_call.isLoadMap, api_call.isCreate,
    List.countP_cons]

theorem OneInit_append (a b : List api_call) (ha : OneInit a) (hb : NoInit b) :
    OneInit (a ++ b) := by
  obtain ⟨a1, a2, a3⟩ := ha
  obtain ⟨b1, b2, b3⟩ := hb
  unfold fileReads at a1 b1
  simp [OneInit, fileReads, List.filterMap_append, List.countP_append, a1, a2, a3, b1, b2, b3]

theorem GameUpdateAndRender_inv (Memory : game_memory) (Params : game_params)
    (GameState : game_state) (r : game_state × List api_call)
    (h : GameUpdateAndRender Memory Params GameState = some r) :
    (GameState.IsInitialized = true ∧ r = Frame Params GameState) ∨
    (GameState.IsInitialized = false ∧ ∃ q, Initialize Memory Params GameState = some q ∧
      r = ((Frame Params q.1).1, q.2 ++ (Frame Params q.1).2)) := by
  unfold GameUpdateAndRender at h
  split at h
  · split at h
    · rename_i hi
      simp only [Option.some.injEq] at h
      exact Or.inl ⟨hi, h.symm⟩
    · rename_i hi
      cases hq : Initialize Memory Params GameState with
      | none => simp [hq] at h
      | some q =>
        simp only [hq, Option.map_some', Option.some.injEq] at h
        exact Or.inr ⟨by simpa using hi, q, rfl, h.symm⟩
  · cases h

theorem GameUpdateAndRender_size (Memory : game_memory) (Params : game_params)
    (GameState : game_state) (r : game_state × List api_call)
    (h : GameUpdateAndRender Memory Params GameState = some r) :
    Memory.SizeofGameState ≤ Memory.PermanentStorageSize := by
  unfold GameUpdateAndRender at h
  split at h
  · assumption
  · cases h

theorem Frame_calls (Params : game_params) (GameState : game_state) :
    (Frame Params GameState).2 = frameCalls (Frame Params GameState).1 := by
  rw [Frame_eq]

theorem GameUpdateAndRender_IsInitialized (Memory : game_memory) (Params : game_params)
    (GameState : game_state) (r : game_state × List api_call)
    (h : GameUpdateAndRender Memory Params GameState = some r) : r.1.IsInitialized = true := by
  rcases GameUpdateAndRender_inv Memory Params GameState r h with ⟨hi, hr⟩ | ⟨_, q, hq, hr⟩
  · rw [hr, Frame_IsInitialized, hi]
  · rw [hr]
    simp only [Frame_IsInitialized]
    exact (Initialize_inv Memory Params GameState q hq).1

theorem runFramesLog_initialized (Memory : game_memory)
    (hm : Memory.SizeofGameState ≤ Memory.PermanentStorageSize) :
    ∀ (Frames : List game_params) (GameState : game_state), GameState.IsInitialized = true →
      ∃ s logs, runFramesLog Memory Frames GameState = some (s, logs) ∧
        s.IsInitialized = true ∧ logs.length = Frames.length ∧ ∀ l ∈ logs, NoInit l
  | [], s, hi => ⟨s, [], rfl, hi, rfl, by simp⟩
  | Params :: rest, s, hi => by
    have h1 := GameUpdateAndRender_initialized Memory Params s hm hi
    have h2 : (Frame Params s).1.IsInitialized = true := by rw [Frame_IsInitialized, hi]
    obtain ⟨s1, logs, hs1, hi1, hlen, hno⟩ :=
      runFramesLog_initialized Memory hm rest (Frame Params s).1 h2
    refine ⟨s1, (Frame Params s).2 :: logs, by simp [runFramesLog, h1, hs1], hi1,
      by simp [hlen], ?_⟩
    intro l hl
    rcases List.mem_cons.mp hl with e | hl
    · rw [e, Frame_calls]
      exact frameCalls_noInit _
    · exact hno l hl

/-! ## Zoom, initialization and the calls of a frame (C11-C15) -/

/-- C12: for every state and input `ProcessInput` returns the state with
Zoom' = max(0.1, Zoom - 0.001*[Left pressed] + 0.001*[Right pressed]) and every other
field as it was; with neither direction held, or with both held, a state whose zoom is
at least 0.1 is returned unchanged. -/
theorem C12_process_input (GameState : game_state) (Input : game_input) :
    ProcessInput GameState Input =
      { GameState with
        Zoom := max (1 / 10) ((GameState.Zoom - (if Input.Left.isPressed then 1 / 1000 else 0)) +
          (if Input.Right.isPressed then 1 / 1000 else 0)) } ∧
    (1 / 10 ≤ GameState.Zoom → Input.Left.isPressed = Input.Right.isPressed →
      ProcessInput GameState Input = GameState) := by
  refine ⟨ProcessInput_eq GameState Input, fun hz hb => ?_⟩
  rw [ProcessInput_eq]
  obtain ⟨⟨l⟩, ⟨r⟩⟩ := Input
  simp only at hb
  subst hb
  have e : (GameState.Zoom - (if l = true then (1 : f32) / 1000 else 0)) +
      (if l = true then (1 : f32) / 1000 else 0) = GameState.Zoom := by ring
  simp only [e, max_eq_right hz]

theorem C12_process_input_witness :
    ProcessInput defaultZoomState ⟨⟨true⟩, ⟨true⟩⟩ = defaultZoomState ∧
    ProcessInput defaultZoomState ⟨⟨false⟩, ⟨false⟩⟩ = defaultZoomState :=
  ⟨(C12_process_input defaultZoomState ⟨⟨true⟩, ⟨true⟩⟩).2 (by decide!) rfl,
   (C12_process_input defaultZoomState ⟨⟨false⟩, ⟨false⟩⟩).2 (by decide!) rfl⟩

/-- C13: every call that returns leaves IsInitialized true. A call entered with
IsInitialized true is the per-frame routine alone: no file read, no map load, no
resource creation. A call entered with IsInitialized false runs the initialization
block once (five file reads, one map load), then the per-frame routine. So a sequence
of calls from an uninitialized state, which returns as soon as its first call does,
runs the block in its first call and in no later one. -/
theorem C13_initialization_once (Memory : game_memory) :
    (∀ (Params : game_params) (GameState : game_state) (r : game_state × List api_call),
      GameUpdateAndRender Memory Params GameState = some r →
        r.1.IsInitialized = true ∧
        (GameState.IsInitialized = true → r = Frame Params GameState ∧ NoInit r.2) ∧
        (GameState.IsInitialized = false →
          (∃ q, Initialize Memory Params GameState = some q ∧ OneInit q.2 ∧
            r = ((Frame Params q.1).1, q.2 ++ (Frame Params q.1).2)) ∧ OneInit r.2)) ∧
    (∀ (Params : game_params) (Frames : List game_params) (GameState : game_state)
      (r : game_state × List api_call),
      GameState.IsInitialized = false →
      GameUpdateAndRender Memory Params GameState = some r →
        ∃ s logs, runFramesLog Memory (Params :: Frames) GameState = some (s, r.2 :: logs) ∧
          s.IsInitialized = true ∧ logs.length = Frames.length ∧
          OneInit r.2 ∧ ∀ l ∈ logs, NoInit l) := by
  have key : ∀ (Params : game_params) (GameState : game_state) (r : game_state × List api_call),
      GameUpdateAndRender Memory Params GameState = some r →
        r.1.IsInitialized = true ∧
        (GameState.IsInitialized = true → r = Frame Params GameState ∧ NoInit r.2) ∧
        (GameState.IsInitialized = false →
          (∃ q, Initialize Memory Params GameState = some q ∧ OneInit q.2 ∧
            r = ((Frame Params q.1).1, q.2 ++ (Frame Params q.1).2)) ∧ OneInit r.2) := by
    intro Params GameState r h
    refine ⟨GameUpdateAndRender_IsInitialized Memory Params GameState r h, ?_, ?_⟩
    · intro hi
      rcases GameUpdateAndRender_inv Memory Params GameState r h with ⟨_, hr⟩ | ⟨hf, _⟩
      · refine ⟨hr, ?_⟩
        rw [hr, Frame_calls]
        exact frameCalls_noInit _
      · rw [hi] at hf
        cases hf
    · intro hi
      rcases GameUpdateAndRender_inv Memory Params GameState r h with ⟨ht, _⟩ | ⟨_, q, hq, hr⟩
      · rw [hi] at ht
        cases ht
      · have hone := (Initialize_inv Memory Params GameState q hq).2.2.1
        refine ⟨⟨q, hq, hone, hr⟩, ?_⟩
        rw [hr]
        simp only [Frame_calls]
        exact OneInit_append _ _ hone (frameCalls_noInit _)
  refine ⟨key, ?_⟩
  intro Params Frames GameState r hi h
  obtain ⟨hini, _, hfalse⟩ := key Params GameState r h
  obtain ⟨s, logs, hs, his, hlen, hno⟩ := runFramesLog_initialized Memory
    (GameUpdateAndRender_size Memory Params GameState r h) Frames r.1 hini
  exact ⟨s, logs, by simp [runFramesLog, h, hs], his, hlen, (hfalse hi).2, hno⟩

theorem scenario_first_call :
    (GameUpdateAndRender scenarioMemory zoomOutParams freshState).isSome = true := by
  decide!

theorem C13_initialization_once_witness :
    ∃ r s logs, GameUpdateAndRender scenarioMemory zoomOutParams freshState = some r ∧
      runFramesLog scenarioMemory [zoomOutParams, zoomOutParams, zoomOutParams] freshState
        = some (s, r.2 :: logs) ∧
      s.IsInitialized = true ∧ logs.length = 2 ∧ OneInit r.2 ∧ ∀ l ∈ logs, NoInit l := by
  obtain ⟨r, hr⟩ := Option.isSome_iff_exists.mp scenario_first_call
  obtain ⟨s, logs, h⟩ := (C13_initialization_once scenarioMemory).2 zoomOutParams
    [zoomOutParams, zoomOutParams] freshState r rfl hr
  exact ⟨r, s, logs, hr, h⟩

theorem frameCalls_noBuffer (s : game_state) :
    (frameCalls s).filter api_call.isBufferCommand = [] := by
  simp [frameCalls, api_call.isBufferCommand]

theorem frameCalls_clearOrDraw (s : game_state) :
    (frameCalls s).filter api_call.isClearOrDraw
      = [api_call.glClear, api_call.glDrawArraysInstanced 0 4 s.TotalTileCount,
         api_call.glDrawArraysInstanced 0 4 s.TotalTileBoxCount] := by
  simp [frameCalls, api_call.isClearOrDraw]

/-- C14: a call entered with IsInitialized true (and the storage assertion satisfied)
returns; the state it leaves is the entry state except for Zoom and Projection, so
TotalTileCount, TotalTileBoxCount, the Map, the screen size in meters and the program,
vertex-array and uniform handles are unchanged; and none of its calls creates a buffer,
allocates or uploads buffer data, or creates another resource. -/
theorem C14_frame_effect (Memory : game_memory) (Params : game_params) (GameState : game_state)
    (hm : Memory.SizeofGameState ≤ Memory.PermanentStorageSize)
    (hi : GameState.IsInitialized = true) :
    ∃ r, GameUpdateAndRender Memory Params GameState = some r ∧
      r.1 = { GameState with Zoom := r.1.Zoom, Projection := r.1.Projection } ∧
      r.1.TotalTileCount = GameState.TotalTileCount ∧
      r.1.TotalTileBoxCount = GameState.TotalTileBoxCount ∧
      r.1.Map = GameState.Map ∧
      r.1.ScreenWidthInMeters = GameState.ScreenWidthInMeters ∧
      r.1.ScreenHeightInMeters = GameState.ScreenHeightInMeters ∧
      r.1.TilesShaderProgram = GameState.TilesShaderProgram ∧
      r.1.TileBoxesShaderProgram = GameState.TileBoxesShaderProgram ∧
      r.1.TilesVAO = GameState.TilesVAO ∧ r.1.TileBoxesVAO = GameState.TileBoxesVAO ∧
      r.1.VPUniformLocation = GameState.VPUniformLocation ∧
      r.1.VPUniformLocation2 = GameState.VPUniformLocation2 ∧
      r.2.filter api_call.isBufferCommand = [] ∧ r.2.countP api_call.isCreate = 0 := by
  refine ⟨Frame Params GameState, GameUpdateAndRender_initialized Memory Params GameState hm hi,
    ?_, ?_⟩
  · rw [Frame_eq, ProcessInput_eq]
  · rw [Frame_calls]
    refine ⟨?_, ?_, ?_, ?_, ?_, ?_, ?_, ?_, ?_, ?_, ?_, frameCalls_noBuffer _,
      (frameCalls_noInit _).2.2⟩
    all_goals rw [Frame_eq, ProcessInput_eq]

theorem C14_frame_effect_witness :
    ∃ r, GameUpdateAndRender scenarioMemory zoomOutParams defaultZoomState = some r ∧
      r.1 = { defaultZoomState with Zoom := r.1.Zoom, Projection := r.1.Projection } ∧
      r.2.filter api_call.isBufferCommand = [] := by
  obtain ⟨r, h1, h2, h3⟩ := C14_frame_effect scenarioMemory zoomOutParams defaultZoomState
    (by decide) rfl
  exact ⟨r, h1, h2, h3.2.2.2.2.2.2.2.2.2.2.2.1⟩

/-- C15: the calls of every call that returns end with the nine calls of the per-frame
routine: one clear, then, for the tile program and vertex array and again for the box
program and vertex array, use-program, bind, upload of the view-projection matrix (the
same for both) to the stored uniform location, and an instanced draw of 4 vertices
from vertex 0 with instance count TotalTileCount, resp. TotalTileBoxCount. What comes
before them (nothing when the state was initialized, the initialization calls
otherwise) holds no clear and no draw, so the call issues exactly one clear followed
by exactly these two draws. After an initialization the two uniform locations are
those of `u_VP` in the two programs. -/
theorem C15_draw_commands (Memory : game_memory) (Params : game_params)
    (GameState : game_state) (r : game_state × List api_call)
    (h : GameUpdateAndRender Memory Params GameState = some r) :
    ∃ pre, r.2 = pre ++
        [api_call.glClear,
         api_call.glUseProgram r.1.TilesShaderProgram,
         api_call.glBindVertexArray r.1.TilesVAO,
         api_call.glUniformMatrix4fv r.1.VPUniformLocation
           (FrameVP r.1.ScreenWidthInMeters r.1.ScreenHeightInMeters r.1.Zoom),
         api_call.glDrawArraysInstanced 0 4 r.1.TotalTileCount,
         api_call.glUseProgram r.1.TileBoxesShaderProgram,
         api_call.glBindVertexArray r.1.TileBoxesVAO,
         api_call.glUniformMatrix4fv r.1.VPUniformLocation2
           (FrameVP r.1.ScreenWidthInMeters r.1.ScreenHeightInMeters r.1.Zoom),
         api_call.glDrawArraysInstanced 0 4 r.1.TotalTileBoxCount] ∧
      pre.filter api_call.isClearOrDraw = [] ∧
      r.2.filter api_call.isClearOrDraw
        = [api_call.glClear, api_call.glDrawArraysInstanced 0 4 r.1.TotalTileCount,
           api_call.glDrawArraysInstanced 0 4 r.1.TotalTileBoxCount] ∧
      (GameState.IsInitialized = true → pre = []) ∧
      (GameState.IsInitialized = false →
        r.1.VPUniformLocation
          = Memory.Renderer.glGetUniformLocation r.1.TilesShaderProgram "u_VP" ∧
        r.1.VPUniformLocation2
          = Memory.Renderer.glGetUniformLocation r.1.TileBoxesShaderProgram "u_VP") := by
  rcases GameUpdateAndRender_inv Memory Params GameState r h with ⟨hi, hr⟩ | ⟨hi, q, hq, hr⟩
  · refine ⟨[], ?_, rfl, ?_, fun _ => rfl, fun hf => ?_⟩
    · rw [hr, Frame_calls]
      rfl
    · rw [hr, Frame_calls]
      exact frameCalls_clearOrDraw _
    · rw [hi] at hf
      cases hf
  · obtain ⟨_, _, _, hcd, hl1, hl2⟩ := Initialize_inv Memory Params GameState q hq
    refine ⟨q.2, ?_, hcd, ?_, fun ht => ?_, fun _ => ?_⟩
    · rw [hr]
      simp only [Frame_calls]
      rfl
    · rw [hr]
      simp only [Frame_calls, List.filter_append, hcd, List.nil_append]
      exact frameCalls_clearOrDraw _
    · rw [hi] at ht
      cases ht
    · rw [hr]
      simp only [Frame_eq, ProcessInput_eq]
      exact ⟨hl1, hl2⟩

theorem C15_draw_commands_witness :
    ∃ r, GameUpdateAndRender scenarioMemory zoomOutParams freshState = some r ∧
      r.2.filter api_call.isClearOrDraw
        = [api_call.glClear, api_call.glDrawArraysInstanced 0 4 r.1.TotalTileCount,
           api_call.glDrawArraysInstanced 0 4 r.1.TotalTileBoxCount] := by
  obtain ⟨r, hr⟩ := Option.isSome_iff_exists.mp scenario_first_call
  obtain ⟨pre, _, _, h3, _⟩ := C15_draw_commands scenarioMemory zoomOutParams freshState r hr
  exact ⟨r, hr, h3⟩

/-! ## Tilesets and GIDs (C16-C18) -/

theorem some_bind_eq {α β : Type} (a : α) (f : α → Option β) : (some a >>= f) = f a := rfl

theorem bake_layers (Map1 Map2 : tiled_map) (h : Map1.TileLayers = Map2.TileLayers)
    (Tileset : tileset) (TilesetFirstGID : Nat) (Center Size01 : vec2) :
    bake Map1 Tileset TilesetFirstGID Center Size01
      = bake Map2 Tileset TilesetFirstGID Center Size01 := by
  simp only [bake, firstPass, secondPass, h]

/-- The initialization block on a memory whose map loader answers another map with the
same layers and the same first tileset entry. -/
theorem Initialize_transfer (Memory : game_memory) (L2 : String → Option tiled_map)
    (Map1 Map2 : tiled_map) (Params : game_params) (GameState : game_state)
    (hl1 : Memory.LoadMap (Memory.Platform.ReadTextFile "maps/map01.json") = some Map1)
    (hl2 : L2 (Memory.Platform.ReadTextFile "maps/map01.json") = some Map2)
    (hL : Map1.TileLayers = Map2.TileLayers) (hT : Map1.Tilesets[0]? = Map2.Tilesets[0]?)
    (q : game_state × List api_call) (h : Initialize Memory Params GameState = some q) :
    Initialize { Memory with LoadMap := L2 } Params GameState
      = some ({ q.1 with Map := Map2 }, q.2) := by
  unfold Initialize at h
  simp only [GetUniformLocation] at h
  obtain ⟨m2p, h1, h⟩ := bind_some_inv h
  obtain ⟨p2m, h2, h⟩ := bind_some_inv h
  obtain ⟨Map, h3, h⟩ := bind_some_inv h
  obtain ⟨First, h4, h⟩ := bind_some_inv h
  obtain ⟨Size01, h5, h⟩ := bind_some_inv h
  obtain ⟨⟨vs, c1⟩, h6, h⟩ := bind_some_inv h
  obtain ⟨⟨fs, c2⟩, h7, h⟩ := bind_some_inv h
  obtain ⟨⟨prog, c3⟩, h8, h⟩ := bind_some_inv h
  obtain ⟨⟨bvs, c6⟩, h9, h⟩ := bind_some_inv h
  obtain ⟨⟨bfs, c7⟩, h10, h⟩ := bind_some_inv h
  obtain ⟨⟨bprog, c8⟩, h11, h⟩ := bind_some_inv h
  obtain ⟨⟨Counts, Arrays⟩, h12, h⟩ := bind_some_inv h
  simp only [Option.pure_def, Option.some.injEq] at h
  subst h
  rw [hl1] at h3
  simp only [Option.some.injEq] at h3
  subst h3
  rw [hT] at h4
  rw [bake_layers Map1 Map2 hL] at h12
  have h6b : CreateShader { Memory with LoadMap := L2 } "GL_VERTEX_SHADER"
    (Memory.Platform.ReadTextFile "shaders/tile.vert") 0 = some (vs, c1) := h6
  have h7b : CreateShader { Memory with LoadMap := L2 } "GL_FRAGMENT_SHADER"
    (Memory.Platform.ReadTextFile "shaders/tile.frag") 1 = some (fs, c2) := h7
  have h8b : CreateProgram { Memory with LoadMap := L2 } vs fs 0 = some (prog, c3) := h8
  have h9b : CreateShader { Memory with LoadMap := L2 } "GL_VERTEX_SHADER"
    (Memory.Platform.ReadTextFile "shaders/box.vert") 2 = some (bvs, c6) := h9
  have h10b : CreateShader { Memory with LoadMap := L2 } "GL_FRAGMENT_SHADER"
    (Memory.Platform.ReadTextFile "shaders/box.frag") 3 = some (bfs, c7) := h10
  have h11b : CreateProgram { Memory with LoadMap := L2 } bvs bfs 1 = some (bprog, c8) := h11
  unfold Initialize
  simp only [GetUniformLocation, h1, h2, hl2, h4, h5, h6b, h7b, h8b, h9b, h10b, h11b, h12,
    some_bind_eq, Option.pure_def]
  rfl

/-- What the baker returns, when it returns: the values of `bakeCell` for the non-empty
cells in visiting order, and their counts. -/
theorem bake_some (Map : tiled_map) (Tileset : tileset) (TilesetFirstGID : Nat)
    (Center Size01 : vec2) (r : bake_counts × bake_arrays)
    (h : bake Map Tileset TilesetFirstGID Center Size01 = some r) :
    ∃ ts, mapOpt (bakeCell Tileset TilesetFirstGID Center Size01) (nonEmptyCells Map) = some ts ∧
      r.2 = arraysOf ts 0 0 ∧ r.1.TotalTileCount = ts.length ∧
      r.1.TotalTileBoxCount = (ts.flatMap (fun t => t.Boxes)).length ∧
      ts.length = (nonEmptyCells Map).length := by
  simp only [bake] at h
  cases hs : secondPass Map Tileset TilesetFirstGID Center Size01
      (firstPass Map Tileset TilesetFirstGID) with
  | none => simp [hs] at h
  | some a =>
    simp only [hs, Option.map_some', Option.some.injEq] at h
    obtain ⟨ts, hts, ha⟩ := secondPass_some _ _ _ _ _ _ hs
    subst h
    refine ⟨ts, hts, ha, ?_, ?_, mapOpt_length _ _ _ hts⟩
    · simp only [firstPass_eq]
      exact (mapOpt_length _ _ _ hts).symm
    · simp only [firstPass_eq]
      exact (mapOpt_boxes_length _ _ _ _ _ _ hts).symm

/-- The map, the tileset and the baker run behind a successful initialization. -/
theorem Initialize_bake (Memory : game_memory) (Params : game_params) (GameState : game_state)
    (q : game_state × List api_call) (h : Initialize Memory Params GameState = some q) :
    ∃ First Size01 Counts Arrays,
      Memory.LoadMap (Memory.Platform.ReadTextFile "maps/map01.json") = some q.1.Map ∧
      q.1.Map.Tilesets[0]? = some First ∧
      TileSize01 First.Source = some Size01 ∧
      q.1.ScreenWidthInMeters = 20 ∧
      bake q.1.Map First.Source First.FirstGID
        (ScreenCenterInMeters q.1.ScreenWidthInMeters q.1.ScreenHeightInMeters) Size01
        = some (Counts, Arrays) ∧
      q.1.TotalTileCount = Counts.TotalTileCount ∧
      q.1.TotalTileBoxCount = Counts.TotalTileBoxCount ∧
      ∃ pre post, q.2 = pre ++ tilesBufferCalls Memory Counts.TotalTileCount Arrays ++
        tileBoxesBufferCalls Memory Counts.TotalTileBoxCount Arrays ++ post := by
  unfold Initialize at h
  simp only [GetUniformLocation] at h
  obtain ⟨m2p, h1, h⟩ := bind_some_inv h
  obtain ⟨p2m, h2, h⟩ := bind_some_inv h
  obtain ⟨Map, h3, h⟩ := bind_some_inv h
  obtain ⟨First, h4, h⟩ := bind_some_inv h
  obtain ⟨Size01, h5, h⟩ := bind_some_inv h
  obtain ⟨⟨vs, c1⟩, h6, h⟩ := bind_some_inv h
  obtain ⟨⟨fs, c2⟩, h7, h⟩ := bind_some_inv h
  obtain ⟨⟨prog, c3⟩, h8, h⟩ := bind_some_inv h
  obtain ⟨⟨bvs, c6⟩, h9, h⟩ := bind_some_inv h
  obtain ⟨⟨bfs, c7⟩, h10, h⟩ := bind_some_inv h
  obtain ⟨⟨bprog, c8⟩, h11, h⟩ := bind_some_inv h
  obtain ⟨⟨Counts, Arrays⟩, h12, h⟩ := bind_some_inv h
  simp only [Option.pure_def, Option.some.injEq] at h
  subst h
  exact ⟨First, Size01, Counts, Arrays, h3, h4, h5, rfl, h12, rfl, rfl, _, _, rfl⟩

theorem Frame_Map (Params : game_params) (GameState : game_state) (Map2 : tiled_map) :
    Frame Params { GameState with Map := Map2 }
      = ({ (Frame Params GameState).1 with Map := Map2 }, (Frame Params GameState).2) := by
  simp only [Frame_eq, ProcessInput_eq]
  rfl

theorem Initialize_transfer_eq (Memory : game_memory) (L2 : String → Option tiled_map)
    (Map1 Map2 : tiled_map) (Params : game_params) (GameState : game_state)
    (hl1 : Memory.LoadMap (Memory.Platform.ReadTextFile "maps/map01.json") = some Map1)
    (hl2 : L2 (Memory.Platform.ReadTextFile "maps/map01.json") = some Map2)
    (hL : Map1.TileLayers = Map2.TileLayers) (hT : Map1.Tilesets[0]? = Map2.Tilesets[0]?) :
    Initialize { Memory with LoadMap := L2 } Params GameState
      = (Initialize Memory Params GameState).map (fun q => ({ q.1 with Map := Map2 }, q.2)) := by
  cases hq : Initialize Memory Params GameState with
  | some q =>
    rw [Initialize_transfer Memory L2 Map1 Map2 Params GameState hl1 hl2 hL hT q hq]
    rfl
  | none =>
    cases hq2 : Initialize { Memory with LoadMap := L2 } Params GameState with
    | none => rfl
    | some q2 =>
      have h := Initialize_transfer { Memory with LoadMap := L2 } Memory.LoadMap Map2 Map1
        Params GameState hl2 hl1 hL.symm hT.symm q2 hq2
      have e : ({ ({ Memory with LoadMap := L2 } : game_memory) with
          LoadMap := Memory.LoadMap } : game_memory) = Memory := rfl
      rw [e, hq] at h
      cases h

/-- C16: let two maps have the same tile layers and the same tileset entry at index 0
(they differ at most in the entries at index >= 1). The baker returns the same counts
and arrays on both, whatever tileset it is given; the initialization block and the
first call issue the same calls (so upload the same instance arrays) and leave the same
state, the stored Map apart; and every call issues the same calls. The tile instances
are the values of `bakeCell` with the first-GID, the columns and the metadata of
`Tilesets[0]` for every cell with a non-zero GID. -/
theorem C16_first_tileset_only (Memory : game_memory) (L2 : String → Option tiled_map)
    (Map1 Map2 : tiled_map) (Params : game_params) (GameState : game_state)
    (hl1 : Memory.LoadMap (Memory.Platform.ReadTextFile "maps/map01.json") = some Map1)
    (hl2 : L2 (Memory.Platform.ReadTextFile "maps/map01.json") = some Map2)
    (hL : Map1.TileLayers = Map2.TileLayers) (hT : Map1.Tilesets[0]? = Map2.Tilesets[0]?) :
    (∀ (Tileset : tileset) (TilesetFirstGID : Nat) (Center Size01 : vec2),
      bake Map1 Tileset TilesetFirstGID Center Size01
        = bake Map2 Tileset TilesetFirstGID Center Size01) ∧
    Initialize { Memory with LoadMap := L2 } Params GameState
      = (Initialize Memory Params GameState).map (fun q => ({ q.1 with Map := Map2 }, q.2)) ∧
    (GameState.IsInitialized = false →
      GameUpdateAndRender { Memory with LoadMap := L2 } Params GameState
        = (GameUpdateAndRender Memory Params GameState).map
            (fun r => ({ r.1 with Map := Map2 }, r.2))) ∧
    (GameUpdateAndRender { Memory with LoadMap := L2 } Params GameState).map (fun r => r.2)
      = (GameUpdateAndRender Memory Params GameState).map (fun r => r.2) ∧
    (∀ q, Initialize Memory Params GameState = some q →
      ∃ First Size01 ts, Map1.Tilesets[0]? = some First ∧
        TileSize01 First.Source = some Size01 ∧
        mapOpt (bakeCell First.Source First.FirstGID
          (ScreenCenterInMeters q.1.ScreenWidthInMeters q.1.ScreenHeightInMeters) Size01)
          (nonEmptyCells Map1) = some ts ∧
        q.1.TotalTileCount = ts.length ∧
        q.1.TotalTileBoxCount = (ts.flatMap (fun t => t.Boxes)).length ∧
        ∃ pre post, q.2 = pre ++ tilesBufferCalls Memory ts.length (arraysOf ts 0 0) ++
          tileBoxesBufferCalls Memory (ts.flatMap (fun t => t.Boxes)).length (arraysOf ts 0 0)
          ++ post) := by
  have hI := Initialize_transfer_eq Memory L2 Map1 Map2 Params GameState hl1 hl2 hL hT
  have hG : GameState.IsInitialized = false →
      GameUpdateAndRender { Memory with LoadMap := L2 } Params GameState
        = (GameUpdateAndRender Memory Params GameState).map
            (fun r => ({ r.1 with Map := Map2 }, r.2)) := by
    intro hi
    simp only [GameUpdateAndRender, hi, hI]
    split
    · cases hq : Initialize Memory Params GameState with
      | none => rfl
      | some q => simp [Frame_Map]
    · rfl
  refine ⟨fun T f c s => bake_layers Map1 Map2 hL T f c s, hI, hG, ?_, ?_⟩
  · cases hi : GameState.IsInitialized with
    | false =>
      rw [hG hi]
      cases GameUpdateAndRender Memory Params GameState <;> rfl
    | true =>
      simp only [GameUpdateAndRender, hi]
      rfl
  · intro q hq
    obtain ⟨First, Size01, Counts, Arrays, h3, h4, h5, _, hb, hc1, hc2, pre, post, hcalls⟩ :=
      Initialize_bake Memory Params GameState q hq
    rw [hl1] at h3
    simp only [Option.some.injEq] at h3
    rw [← h3] at h4 hb
    obtain ⟨ts, hts, ha, ht1, ht2, _⟩ := bake_some _ _ _ _ _ _ hb
    simp only at ha ht1 ht2
    subst ha
    refine ⟨First, Size01, ts, h4, h5, hts, hc1.trans ht1, hc2.trans ht2, pre, post, ?_⟩
    rw [hcalls, ht1, ht2]

theorem C16_first_tileset_only_witness :
    Initialize { scenarioMemory with LoadMap := fun _ => some twoTilesetMap } zoomOutParams
        freshState
      = (Initialize scenarioMemory zoomOutParams freshState).map
          (fun q => ({ q.1 with Map := twoTilesetMap }, q.2)) :=
  (C16_first_tileset_only scenarioMemory (fun _ => some twoTilesetMap) scenarioMap
    twoTilesetMap zoomOutParams freshState rfl rfl rfl rfl).2.1

theorem bakeCell_index (Tileset : tileset) (TilesetFirstGID : Nat) (Center Size01 : vec2)
    (c : map_cell) (t : tile_instance)
    (h : bakeCell Tileset TilesetFirstGID Center Size01 c = some t) :
    Tileset.Columns ≠ 0 ∧
    t.UVOffset01 = TileInstanceUVOffset01 Size01
      (toS32 ((u32sub c.GID TilesetFirstGID % Tileset.Columns : Nat) : Int))
      (toS32 ((u32sub c.GID TilesetFirstGID / Tileset.Columns : Nat) : Int)) ∧
    t.Boxes.length = cellBoxCount Tileset TilesetFirstGID c := by
  obtain ⟨MapX, MapY, X, Y, _, _, hX, hY, _, hUV, hB⟩ := bakeCell_values _ _ _ _ c t h
  have hc : Tileset.Columns ≠ 0 := by
    intro h0
    simp [TileX, umod, h0] at hX
  simp only [TileX, TileY, umod, udiv, hc, if_false, Option.bind_eq_bind, Option.some_bind,
    Option.pure_def, Option.some.injEq] at hX hY
  refine ⟨hc, by rw [hUV, ← hX, ← hY], ?_⟩
  rw [hB, List.length_map]
  simp only [cellMetaBoxes, cellBoxCount, tile_meta_info.BoxCount]
  cases GetTileMetaInfo Tileset (u32sub c.GID TilesetFirstGID) <;> rfl

theorem FrameVP_eq (W H Zoom : f32) (hW : W ≠ 0) (hH : H ≠ 0) (hZ : Zoom ≠ 0) :
    FrameVP W H Zoom
      = some ⟨⟨2 / (W * Zoom), 0, 0, 0⟩, ⟨0, 2 / (H * Zoom), 0, 0⟩, ⟨0, 0, -1, 0⟩,
          ⟨-1 / Zoom, -1 / Zoom, 0, 1⟩⟩ := by
  have h1 : W / 2 * Zoom - -W / 2 * Zoom = W * Zoom := by ring
  have h2 : H / 2 * Zoom - -H / 2 * Zoom = H * Zoom := by ring
  have h3 : W * Zoom ≠ 0 := mul_ne_zero hW hZ
  have h4 : H * Zoom ≠ 0 := mul_ne_zero hH hZ
  simp only [FrameVP, FrameProjection, FrameView, glm.ortho, fdiv, h1, h2, h3, h4, if_false,
    Option.bind_eq_bind, Option.some_bind, Option.pure_def, Option.map_some', mat4.mul,
    mat4.mulVec, glm.translate, mat4.identity, vec4.add, vec4.smul, Option.some.injEq,
    mat4.mk.injEq, vec4.mk.injEq]
  refine ⟨⟨?_, ?_, ?_, ?_⟩, ⟨?_, ?_, ?_, ?_⟩, ⟨?_, ?_, ?_, ?_⟩, ⟨?_, ?_, ?_, ?_⟩⟩ <;>
    field_simp <;> ring

/-- C19 (amended): for every non-zero zoom and screen size in meters (W, H) the
view-projection matrix that the per-frame routine uploads maps the world point (x, y)
to ((2x - W) / (W * Zoom), (2y - H) / (H * Zoom)): the world point (W/2, H/2), the screen
centre in meters where the baker puts grid position (0, 0), goes to the centre (0, 0)
of normalized device coordinates, and the world origin (0, 0) goes to
(-1/Zoom, -1/Zoom), never to the centre. -/
theorem C19_view_projection (W H Zoom : f32) (hW : W ≠ 0) (hH : H ≠ 0) (hZ : Zoom ≠ 0) :
    ∃ VP, FrameVP W H Zoom = some VP ∧
      VP.mulVec ⟨W / 2, H / 2, 0, 1⟩ = ⟨0, 0, 0, 1⟩ ∧
      VP.mulVec ⟨0, 0, 0, 1⟩ = ⟨-1 / Zoom, -1 / Zoom, 0, 1⟩ ∧
      VP.mulVec ⟨0, 0, 0, 1⟩ ≠ ⟨0, 0, 0, 1⟩ ∧
      (∀ x y : f32, VP.mulVec ⟨x, y, 0, 1⟩
        = ⟨(2 * x - W) / (W * Zoom), (2 * y - H) / (H * Zoom), 0, 1⟩) ∧
      (∀ (Params : game_params) (GameState : game_state),
        GameState.ScreenWidthInMeters = W → GameState.ScreenHeightInMeters = H →
        (ProcessInput GameState Params.Input).Zoom = Zoom →
        (Frame Params GameState).2[3]?
          = some (api_call.glUniformMatrix4fv GameState.VPUniformLocation (some VP)) ∧
        (Frame Params GameState).2[7]?
          = some (api_call.glUniformMatrix4fv GameState.VPUniformLocation2 (some VP))) := by
  have hgen : ∀ x y : f32, (⟨⟨2 / (W * Zoom), 0, 0, 0⟩, ⟨0, 2 / (H * Zoom), 0, 0⟩, ⟨0, 0, -1, 0⟩,
      ⟨-1 / Zoom, -1 / Zoom, 0, 1⟩⟩ : mat4).mulVec ⟨x, y, 0, 1⟩
        = ⟨(2 * x - W) / (W * Zoom), (2 * y - H) / (H * Zoom), 0, 1⟩ := by
    intro x y
    simp only [mat4.mulVec, vec4.add, vec4.smul, vec4.mk.injEq]
    refine ⟨?_, ?_, ?_, ?_⟩ <;> field_simp <;> ring
  refine ⟨_, FrameVP_eq W H Zoom hW hH hZ, ?_, ?_, ?_, hgen, ?_⟩
  · rw [hgen]
    simp only [vec4.mk.injEq]
    refine ⟨?_, ?_, trivial, trivial⟩ <;> field_simp
  · rw [hgen]
    simp only [vec4.mk.injEq]
    refine ⟨?_, ?_, trivial, trivial⟩ <;> field_simp
  · rw [hgen]
    intro h
    simp only [vec4.mk.injEq] at h
    have h0 : (2 * 0 - W) / (W * Zoom) = -1 / Zoom := by field_simp
    rw [h0] at h
    exact div_ne_zero (by norm_num) hZ h.1
  · intro Params GameState h1 h2 h3
    have e1 : (ProcessInput GameState Params.Input).ScreenWidthInMeters = W := by
      rw [ProcessInput_eq]
      exact h1
    have e2 : (ProcessInput GameState Params.Input).ScreenHeightInMeters = H := by
      rw [ProcessInput_eq]
      exact h2
    have e3 : (ProcessInput GameState Params.Input).VPUniformLocation
        = GameState.VPUniformLocation := by rw [ProcessInput_eq]
    have e4 : (ProcessInput GameState Params.Input).VPUniformLocation2
        = GameState.VPUniformLocation2 := by rw [ProcessInput_eq]
    rw [Frame_eq]
    simp only [frameCalls, e1, e2, e3, e4, h3, FrameVP_eq W H Zoom hW hH hZ]
    exact ⟨rfl, rfl⟩

theorem C19_view_projection_witness :
    ∃ VP, FrameVP 20 15 1 = some VP ∧
      VP.mulVec ⟨20 / 2, 15 / 2, 0, 1⟩ = ⟨0, 0, 0, 1⟩ ∧
      VP.mulVec ⟨0, 0, 0, 1⟩ = ⟨-1 / 1, -1 / 1, 0, 1⟩ := by
  obtain ⟨VP, h1, h2, h3, _⟩ := C19_view_projection 20 15 1 (by norm_num) (by norm_num)
    (by norm_num)
  exact ⟨VP, h1, h2, h3⟩

/-- C19, as stated, fails. With the default zoom 1 on a 20 x 15 meter screen the
view-projection matrix maps the world point (0, 0) to (-1, -1), the bottom-left corner
of the screen, and it is the world point (10, 7.5) that goes to the centre. -/
theorem C19_view_projection_counterexample :
    (FrameVP 20 15 1).map (fun VP => VP.mulVec ⟨0, 0, 0, 1⟩) = some ⟨-1, -1, 0, 1⟩ ∧
    (FrameVP 20 15 1).map (fun VP => VP.mulVec ⟨10, 15 / 2, 0, 1⟩) = some ⟨0, 0, 0, 1⟩ ∧
    ((Frame zoomOutParams { defaultZoomState with Zoom := 1001 / 1000 }).2[3]?).map
      (fun c => match c with
        | api_call.glUniformMatrix4fv _ (some VP) => some (VP.mulVec ⟨0, 0, 0, 1⟩)
        | _ => none) = some (some ⟨-1, -1, 0, 1⟩) := by
  refine ⟨?_, ?_, ?_⟩ <;> decide!

theorem SpacedUVOffset_bind {β : Type} (Tileset : tileset) (X Y : Int) (k : Option β) :
    (SpacedUVOffset Tileset X Y >>= fun _ => k)
      = if Tileset.Image.Width ≠ 0 ∧ Tileset.Image.Height ≠ 0 then k else none := by
  by_cases hw : Tileset.Image.Width = 0
  · simp [SpacedUVOffset, udiv, hw]
  · by_cases hh : Tileset.Image.Height = 0
    · simp [SpacedUVOffset, udiv, hw, hh]
    · simp [SpacedUVOffset, udiv, hw, hh]

theorem bakeBoxes_spacing (Tileset : tileset) (Spacing Margin : Nat) (xm ym : f32) :
    ∀ Bs : List aabb,
      bakeBoxes { Tileset with Spacing := Spacing, Margin := Margin } xm ym Bs
        = bakeBoxes Tileset xm ym Bs
  | [] => rfl
  | B :: rest => by
    simp only [bakeBoxes, bakeBoxes_spacing Tileset Spacing Margin xm ym rest]
    rfl

theorem bakeCell_spacing (Tileset : tileset) (Spacing Margin : Nat) (TilesetFirstGID : Nat)
    (Center Size01 : vec2) (c : map_cell) :
    bakeCell { Tileset with Spacing := Spacing, Margin := Margin } TilesetFirstGID Center Size01 c
      = bakeCell Tileset TilesetFirstGID Center Size01 c := by
  unfold bakeCell
  simp only [SpacedUVOffset_bind, bakeBoxes_spacing]
  rfl

theorem bake_of_bakeCell (Map : tiled_map) (T1 T2 : tileset) (f : Nat) (Center Size01 : vec2)
    (h1 : ∀ c, bakeCell T1 f Center Size01 c = bakeCell T2 f Center Size01 c)
    (h2 : ∀ c, cellBoxCount T1 f c = cellBoxCount T2 f c) :
    bake Map T1 f Center Size01 = bake Map T2 f Center Size01 := by
  have e1 : bakeCell T1 f Center Size01 = bakeCell T2 f Center Size01 := funext h1
  have e2 : cellBoxCount T1 f = cellBoxCount T2 f := funext h2
  simp only [bake]
  rw [secondPass_eq, secondPass_eq, e1]
  simp only [firstPass_eq, e2]

theorem store_store {α : Type} (a : List α) (i : Nat) (v w : α) :
    (store a i v >>= fun b => store b i w) = store a i w := by
  by_cases h : i < a.length
  · simp [store, h]
  · simp [store, h]

/-- C20: the baked UV offset does not depend on the spacing or the margin of the
tileset. For a tileset and the same tileset with any other Spacing and Margin, the
value the baker computes for every cell (matrix, UV offset, boxes) is the same, hence
the counts and arrays the baker returns on every map are the same; the margin- and
spacing-aware value is stored first and overwritten at the same index, so that the UV
offset left is the product (column * TileSize01.x, row * TileSize01.y). -/
theorem C20_uv_ignores_spacing (Tileset : tileset) (Spacing Margin : Nat)
    (TilesetFirstGID : Nat) (Center Size01 : vec2) :
    (∀ c : map_cell,
      bakeCell { Tileset with Spacing := Spacing, Margin := Margin } TilesetFirstGID Center
        Size01 c = bakeCell Tileset TilesetFirstGID Center Size01 c) ∧
    (∀ Map : tiled_map,
      bake Map { Tileset with Spacing := Spacing, Margin := Margin } TilesetFirstGID Center Size01
        = bake Map Tileset TilesetFirstGID Center Size01) ∧
    TileSize01 { Tileset with Spacing := Spacing, Margin := Margin } = TileSize01 Tileset ∧
    (∀ (UVs : List vec2) (i : Nat) (Spaced : vec2) (X Y : Int),
      (store UVs i Spaced >>= fun UVs0 => store UVs0 i (TileInstanceUVOffset01 Size01 X Y))
        = store UVs i (TileInstanceUVOffset01 Size01 X Y)) ∧
    (∀ (c : map_cell) (t : tile_instance),
      bakeCell Tileset TilesetFirstGID Center Size01 c = some t →
      ∃ X Y, TileX Tileset TilesetFirstGID c.GID = some X ∧
        TileY Tileset TilesetFirstGID c.GID = some Y ∧
        t.UVOffset01 = ⟨X * Size01.x, Y * Size01.y⟩) := by
  refine ⟨bakeCell_spacing Tileset Spacing Margin TilesetFirstGID Center Size01, ?_, rfl,
    fun UVs i Spaced X Y => store_store UVs i Spaced _, ?_⟩
  · intro Map
    exact bake_of_bakeCell Map _ _ _ _ _
      (bakeCell_spacing Tileset Spacing Margin TilesetFirstGID Center Size01) (fun _ => rfl)
  · intro c t h
    obtain ⟨_, _, X, Y, _, _, hX, hY, _, hUV, _⟩ := bakeCell_values _ _ _ _ c t h
    exact ⟨X, Y, hX, hY, hUV⟩

theorem C20_uv_ignores_spacing_witness :
    bake scenarioMap spacedTileset 1 ⟨10, 15 / 2⟩ ⟨1 / 2, 1⟩
      = bake scenarioMap scenarioTileset 1 ⟨10, 15 / 2⟩ ⟨1 / 2, 1⟩ :=
  (C20_uv_ignores_spacing scenarioTileset 2 1 1 ⟨10, 15 / 2⟩ ⟨1 / 2, 1⟩).2.1 scenarioMap

/-! ## Grid coordinates of a chunk (C21-C22) -/

theorem toS32_inj (X : Int) (a b : Nat) (ha : a < 2 ^ 32) (hb : b < 2 ^ 32)
    (h : toS32 (X + (a : Int)) = toS32 (X + (b : Int))) : a = b := by
  unfold toS32 at h
  norm_num at ha hb h
  omega

/-- C21 (amended): in a square chunk (width = height = n, 0 < n < 2^32) the grid
coordinates of the cell of index i are defined, and they are the row-major ones,
(X + i mod n, Y + i div n), whenever these two sums fit in a signed 32-bit integer; in
every case two distinct cell indices below n * n never receive the same grid
coordinates. -/
theorem C21_square_chunk (Chunk : map_chunk) (n : Nat) (hW : Chunk.Width = n)
    (hH : Chunk.Height = n) (hn : 0 < n) (hn32 : n < 2 ^ 32) :
    (∀ i : Nat, ∃ MapX MapY, TileMapX Chunk i = some MapX ∧ TileMapY Chunk i = some MapY) ∧
    (∀ i : Nat, i < n * n →
      -2 ^ 31 ≤ Chunk.X + ((i % n : Nat) : Int) → Chunk.X + ((i % n : Nat) : Int) < 2 ^ 31 →
      -2 ^ 31 ≤ Chunk.Y + ((i / n : Nat) : Int) → Chunk.Y + ((i / n : Nat) : Int) < 2 ^ 31 →
      TileMapX Chunk i = some (Chunk.X + ((i % n : Nat) : Int)) ∧
      TileMapY Chunk i = some (Chunk.Y + ((i / n : Nat) : Int))) ∧
    (∀ i j : Nat, i < n * n → j < n * n →
      TileMapX Chunk i = TileMapX Chunk j → TileMapY Chunk i = TileMapY Chunk j → i = j) := by
  have hn0 : n ≠ 0 := Nat.pos_iff_ne_zero.mp hn
  have eX : ∀ i, TileMapX Chunk i = some (toS32 (Chunk.X + ((i % n : Nat) : Int))) := by
    intro i
    simp [TileMapX, umod, hW, hn0]
  have eY : ∀ i, TileMapY Chunk i = some (toS32 (Chunk.Y + ((i / n : Nat) : Int))) := by
    intro i
    simp [TileMapY, udiv, hH, hn0]
  refine ⟨fun i => ⟨_, _, eX i, eY i⟩, ?_, ?_⟩
  · intro i _ h1 h2 h3 h4
    rw [eX, eY, toS32_of_fits _ h1 h2, toS32_of_fits _ h3 h4]
    exact ⟨rfl, rfl⟩
  · intro i j hi hj hx hy
    rw [eX, eX] at hx
    rw [eY, eY] at hy
    have hmi : i % n < 2 ^ 32 := lt_trans (Nat.mod_lt i hn) hn32
    have hmj : j % n < 2 ^ 32 := lt_trans (Nat.mod_lt j hn) hn32
    have hdi : i / n < 2 ^ 32 := lt_trans (Nat.div_lt_of_lt_mul hi) hn32
    have hdj : j / n < 2 ^ 32 := lt_trans (Nat.div_lt_of_lt_mul hj) hn32
    have h1 := toS32_inj _ _ _ hmi hmj (Option.some.inj hx)
    have h2 := toS32_inj _ _ _ hdi hdj (Option.some.inj hy)
    rw [← Nat.div_add_mod i n, ← Nat.div_add_mod j n, h1, h2]

theorem C21_square_chunk_witness :
    TileMapX scenarioChunk 3 = some (scenarioChunk.X + ((3 % 2 : Nat) : Int)) ∧
    TileMapY scenarioChunk 3 = some (scenarioChunk.Y + ((3 / 2 : Nat) : Int)) :=
  (C21_square_chunk scenarioChunk 2 rfl rfl (by decide) (by decide)).2.1 3 (by decide)
    (by decide) (by decide) (by decide) (by decide)

/-- C21, as stated, fails. In the square chunk of width and height 2 at origin
Y = 2147483647 the cell of index 2 < 4 has row 2 div 2 = 1, and Y + 1 = 2147483648, but
the `s32` local `TileMapY` is -2147483648. -/
theorem C21_square_chunk_counterexample :
    (2 : Nat) < 2 * 2 ∧
    TileMapY ⟨0, 2147483647, 2, 2, [1, 1, 1, 1]⟩ 2 = some (-2147483648) ∧
    TileMapY ⟨0, 2147483647, 2, 2, [1, 1, 1, 1]⟩ 2
      ≠ some ((2147483647 : Int) + ((2 / 2 : Nat) : Int)) := by
  refine ⟨by decide, by decide, by decide⟩

/-- C22: the chunk of width 2 and height 4 is not square and its cells of index 0 and 2,
both below 2 * 4 and both non-empty, receive the same grid coordinates (0, 0); the
row 2 div 4 = 0 that the baker computes for index 2 is not the row-major row
2 div 2 = 1; and the baker returns the same matrix, so the same world position, for
both cells. -/
theorem C22_non_square_collision :
    ∃ (Chunk : map_chunk) (i j : Nat),
      Chunk.Width ≠ Chunk.Height ∧ i ≠ j ∧
      i < Chunk.Width * Chunk.Height ∧ j < Chunk.Width * Chunk.Height ∧
      Chunk.GIDs[i]? = some 1 ∧ Chunk.GIDs[j]? = some 1 ∧
      TileMapX Chunk i = TileMapX Chunk j ∧ TileMapY Chunk i = TileMapY Chunk j ∧
      TileMapY Chunk j = some 0 ∧
      TileMapY Chunk j ≠ some (Chunk.Y + ((j / Chunk.Width : Nat) : Int)) ∧
      (bake ⟨[⟨[Chunk]⟩], [⟨scenarioTileset, 1⟩]⟩ scenarioTileset 1 ⟨10, 15 / 2⟩ ⟨1 / 2, 1⟩).map
        (fun r => (r.2.TileInstanceModels[i]?, r.2.TileInstanceModels[j]?))
        = some (some (TileInstanceModel scenarioTileset 10 (15 / 2)),
            some (TileInstanceModel scenarioTileset 10 (15 / 2))) := by
  refine ⟨tallChunk, 0, 2, by decide, by decide, by decide, by decide, by decide, by decide,
    by decide, by decide, by decide, by decide, by decide!⟩

/-! ## Buffer layout and view-projection matrix (C23-C24) -/

theorem sizeof_values :
    sizeofQuadVertices = 64 ∧ sizeofMat4 = 64 ∧ sizeofVec4 = 16 ∧ sizeofVec2 = 8 :=
  ⟨rfl, rfl, rfl, rfl⟩

theorem tilesBufferCalls_layout (Memory : game_memory) (N : Nat) (a : bake_arrays) :
    bufferAllocations (tilesBufferCalls Memory N a) = [64 + 72 * N] ∧
    subUploads (tilesBufferCalls Memory N a) = [(0, 64), (64, 64 * N), (64 + 64 * N, 8 * N)] ∧
    attribPointer (tilesBufferCalls Memory N a) 0 = some (4, 16, 0) ∧
    attribPointer (tilesBufferCalls Memory N a) 1 = some (4, 64, 64) ∧
    attribPointer (tilesBufferCalls Memory N a) 2 = some (4, 64, 80) ∧
    attribPointer (tilesBufferCalls Memory N a) 3 = some (4, 64, 96) ∧
    attribPointer (tilesBufferCalls Memory N a) 4 = some (4, 64, 112) ∧
    attribPointer (tilesBufferCalls Memory N a) 5 = some (2, 8, 64 + 64 * N) ∧
    attribDivisor (tilesBufferCalls Memory N a) 0 = none ∧
    (∀ k, 1 ≤ k → k ≤ 5 → attribDivisor (tilesBufferCalls Memory N a) k = some 1) := by
  obtain ⟨e1, e2, e3, e4⟩ := sizeof_values
  refine ⟨?_, ?_, ?_, ?_, ?_, ?_, ?_, ?_, ?_, ?_⟩
  · simp only [bufferAllocations, tilesBufferCalls, matrixAttribCalls, e1, e2, e3, e4,
      List.cons_append, List.nil_append, List.filterMap_cons, List.filterMap_nil]
    congr 1
    ring
  · simp only [subUploads, tilesBufferCalls, matrixAttribCalls, e1, e2, e3, e4,
      List.cons_append, List.nil_append, List.filterMap_cons, List.filterMap_nil]
    simp only [Nat.mul_comm N]
  · simp only [attribPointer, tilesBufferCalls, matrixAttribCalls, e1, e2, e3, e4,
      List.cons_append, List.nil_append, List.foldl_cons, List.foldl_nil]
    simp
  · simp only [attribPointer, tilesBufferCalls, matrixAttribCalls, e1, e2, e3, e4,
      List.cons_append, List.nil_append, List.foldl_cons, List.foldl_nil]
    simp
  · simp only [attribPointer, tilesBufferCalls, matrixAttribCalls, e1, e2, e3, e4,
      List.cons_append, List.nil_append, List.foldl_cons, List.foldl_nil]
    simp
  · simp only [attribPointer, tilesBufferCalls, matrixAttribCalls, e1, e2, e3, e4,
      List.cons_append, List.nil_append, List.foldl_cons, List.foldl_nil]
    simp
  · simp only [attribPointer, tilesBufferCalls, matrixAttribCalls, e1, e2, e3, e4,
      List.cons_append, List.nil_append, List.foldl_cons, List.foldl_nil]
    simp
  · simp only [attribPointer, tilesBufferCalls, matrixAttribCalls, e1, e2, e3, e4,
      List.cons_append, List.nil_append, List.foldl_cons, List.foldl_nil]
    simp [Nat.mul_comm]
  · simp only [attribDivisor, tilesBufferCalls, matrixAttribCalls,
      List.cons_append, List.nil_append, List.foldl_cons, List.foldl_nil]
    simp
  · intro k h1 h5
    have hk : k = 1 ∨ k = 2 ∨ k = 3 ∨ k = 4 ∨ k = 5 := by omega
    rcases hk with h | h | h | h | h <;> subst h <;>
      simp [attribDivisor, tilesBufferCalls, matrixAttribCalls]

theorem tileBoxesBufferCalls_layout (Memory : game_memory) (M : Nat) (a : bake_arrays) :
    bufferAllocations (tileBoxesBufferCalls Memory M a) = [64 + 64 * M] ∧
    subUploads (tileBoxesBufferCalls Memory M a) = [(0, 64), (64, 64 * M)] ∧
    attribPointer (tileBoxesBufferCalls Memory M a) 0 = some (4, 16, 0) ∧
    attribPointer (tileBoxesBufferCalls Memory M a) 1 = some (4, 64, 64) ∧
    attribPointer (tileBoxesBufferCalls Memory M a) 2 = some (4, 64, 80) ∧
    attribPointer (tileBoxesBufferCalls Memory M a) 3 = some (4, 64, 96) ∧
    attribPointer (tileBoxesBufferCalls Memory M a) 4 = some (4, 64, 112) ∧
    attribPointer (tileBoxesBufferCalls Memory M a) 5 = none ∧
    attribDivisor (tileBoxesBufferCalls Memory M a) 0 = none ∧
    (∀ k, 1 ≤ k → k ≤ 4 → attribDivisor (tileBoxesBufferCalls Memory M a) k = some 1) := by
  obtain ⟨e1, e2, e3, e4⟩ := sizeof_values
  refine ⟨?_, ?_, ?_, ?_, ?_, ?_, ?_, ?_, ?_, ?_⟩
  · simp only [bufferAllocations, tileBoxesBufferCalls, matrixAttribCalls, e1, e2, e3, e4,
      List.cons_append, List.nil_append, List.filterMap_cons, List.filterMap_nil]
    simp only [Nat.mul_comm M]
  · simp only [subUploads, tileBoxesBufferCalls, matrixAttribCalls, e1, e2, e3, e4,
      List.cons_append, List.nil_append, List.filterMap_cons, List.filterMap_nil]
    simp only [Nat.mul_comm M]
  · simp only [attribPointer, tileBoxesBufferCalls, matrixAttribCalls, e1, e2, e3, e4,
      List.cons_append, List.nil_append, List.foldl_cons, List.foldl_nil]
    simp
  · simp only [attribPointer, tileBoxesBufferCalls, matrixAttribCalls, e1, e2, e3, e4,
      List.cons_append, List.nil_append, List.foldl_cons, List.foldl_nil]
    simp
  · simp only [attribPointer, tileBoxesBufferCalls, matrixAttribCalls, e1, e2, e3, e4,
      List.cons_append, List.nil_append, List.foldl_cons, List.foldl_nil]
    simp
  · simp only [attribPointer, tileBoxesBufferCalls, matrixAttribCalls, e1, e2, e3, e4,
      List.cons_append, List.nil_append, List.foldl_cons, List.foldl_nil]
    simp
  · simp only [attribPointer, tileBoxesBufferCalls, matrixAttribCalls, e1, e2, e3, e4,
      List.cons_append, List.nil_append, List.foldl_cons, List.foldl_nil]
    simp
  · simp only [attribPointer, tileBoxesBufferCalls, matrixAttribCalls, e1, e2, e3, e4,
      List.cons_append, List.nil_append, List.foldl_cons, List.foldl_nil]
    simp
  · simp only [attribDivisor, tileBoxesBufferCalls, matrixAttribCalls,
      List.cons_append, List.nil_append, List.foldl_cons, List.foldl_nil]
    simp
  · intro k h1 h4
    have hk : k = 1 ∨ k = 2 ∨ k = 3 ∨ k = 4 := by omega
    rcases hk with h | h | h | h <;> subst h <;>
      simp [attribDivisor, tileBoxesBufferCalls, matrixAttribCalls]

theorem uploadedData_eq (Memory : game_memory) (N M : Nat) (a : bake_arrays) :
    uploadedData (tilesBufferCalls Memory N a)
      = [buffer_data.Floats QuadVertices, buffer_data.Matrices a.TileInstanceModels,
         buffer_data.Vectors a.TileInstanceUVOffsets01] ∧
    uploadedData (tileBoxesBufferCalls Memory M a)
      = [buffer_data.Floats QuadVertices, buffer_data.Matrices a.TileBoxInstanceModels] := by
  constructor <;>
    simp [uploadedData, tilesBufferCalls, tileBoxesBufferCalls, matrixAttribCalls]

/-- C23: with 4-byte floats the quad takes 64 bytes, a mat4 64, a vec4 16 and a vec2 8.
For N tiles the tile buffer is allocated with 64 + 72 N bytes and the three uploads,
of the quad, of the matrices and of the UV offsets, are the ranges [0, 64),
[64, 64 + 64 N) and [64 + 64 N, 64 + 72 N), which follow one another and end at the
size of the buffer. Attribute k in 1..4 has 4 components, stride 64, divisor 1 and
reads for instance i the byte 64 + 64 i + 16 (k - 1), where column k - 1 of matrix i
is; attribute 5 has 2 components, stride 8, divisor 1 and reads the byte
64 + 64 N + 8 i, where UV offset i is; attribute 0 reads the quad with stride 16 and
has no divisor. For M boxes the box buffer has 64 + 64 M bytes, the uploads [0, 64)
and [64, 64 + 64 M), and the same attributes 0..4. The initialization issues both
sequences with N and M the totals of the baker and with arrays of N, N and M
entries. -/
theorem C23_buffer_layout (Memory : game_memory) (N M : Nat) (a : bake_arrays) :
    (sizeofQuadVertices = 64 ∧ sizeofMat4 = 64 ∧ sizeofVec4 = 16 ∧ sizeofVec2 = 8) ∧
    (bufferAllocations (tilesBufferCalls Memory N a) = [64 + 72 * N] ∧
      subUploads (tilesBufferCalls Memory N a)
        = [(0, 64), (64, 64 * N), (64 + 64 * N, 8 * N)] ∧
      Covers (subUploads (tilesBufferCalls Memory N a)) 0 (64 + 72 * N) ∧
      uploadedData (tilesBufferCalls Memory N a)
        = [buffer_data.Floats QuadVertices, buffer_data.Matrices a.TileInstanceModels,
           buffer_data.Vectors a.TileInstanceUVOffsets01]) ∧
    (∀ k, 1 ≤ k → k ≤ 4 →
      attribPointer (tilesBufferCalls Memory N a) k = some (4, 64, 64 + 16 * (k - 1)) ∧
      attribDivisor (tilesBufferCalls Memory N a) k = some 1 ∧
      attribPointer (tileBoxesBufferCalls Memory M a) k = some (4, 64, 64 + 16 * (k - 1)) ∧
      attribDivisor (tileBoxesBufferCalls Memory M a) k = some 1 ∧
      ∀ i, attribByte 64 (64 + 16 * (k - 1)) i = 64 + 64 * i + 16 * (k - 1) ∧
        attribByte 64 (64 + 16 * (k - 1)) i = matrixColumnByte 64 i (k - 1)) ∧
    (attribPointer (tilesBufferCalls Memory N a) 5 = some (2, 8, 64 + 64 * N) ∧
      attribDivisor (tilesBufferCalls Memory N a) 5 = some 1 ∧
      ∀ i, attribByte 8 (64 + 64 * N) i = 64 + 64 * N + 8 * i ∧
        attribByte 8 (64 + 64 * N) i = vectorByte (64 + 64 * N) i) ∧
    (attribPointer (tilesBufferCalls Memory N a) 0 = some (4, 16, 0) ∧
      attribDivisor (tilesBufferCalls Memory N a) 0 = none ∧
      attribPointer (tileBoxesBufferCalls Memory M a) 0 = some (4, 16, 0) ∧
      attribDivisor (tileBoxesBufferCalls Memory M a) 0 = none) ∧
    (bufferAllocations (tileBoxesBufferCalls Memory M a) = [64 + 64 * M] ∧
      subUploads (tileBoxesBufferCalls Memory M a) = [(0, 64), (64, 64 * M)] ∧
      Covers (subUploads (tileBoxesBufferCalls Memory M a)) 0 (64 + 64 * M) ∧
      uploadedData (tileBoxesBufferCalls Memory M a)
        = [buffer_data.Floats QuadVertices, buffer_data.Matrices a.TileBoxInstanceModels] ∧
      attribPointer (tileBoxesBufferCalls Memory M a) 5 = none) ∧
    (∀ (Params : game_params) (GameState : game_state) (q : game_state × List api_call),
      Initialize Memory Params GameState = some q →
      ∃ Arrays before after,
        q.2 = before ++ tilesBufferCalls Memory q.1.TotalTileCount Arrays ++
          tileBoxesBufferCalls Memory q.1.TotalTileBoxCount Arrays ++ after ∧
        Arrays.TileInstanceModels.length = q.1.TotalTileCount ∧
        Arrays.TileInstanceUVOffsets01.length = q.1.TotalTileCount ∧
        Arrays.TileBoxInstanceModels.length = q.1.TotalTileBoxCount) := by
  obtain ⟨t1, t2, t3, t4, t5, t6, t7, t8, t9, t10⟩ := tilesBufferCalls_layout Memory N a
  obtain ⟨b1, b2, b3, b4, b5, b6, b7, b8, b9, b10⟩ := tileBoxesBufferCalls_layout Memory M a
  obtain ⟨u1, u2⟩ := uploadedData_eq Memory N M a
  refine ⟨sizeof_values, ⟨t1, t2, ?_, u1⟩, ?_, ⟨t8, t10 5 (by omega) (by omega), ?_⟩,
    ⟨t3, t9, b3, b9⟩, ⟨b1, b2, ?_, u2, b8⟩, ?_⟩
  · rw [t2]
    simp only [Covers]
    refine ⟨trivial, trivial, trivial, ?_⟩
    omega
  · intro k h1 h4
    have hk : k = 1 ∨ k = 2 ∨ k = 3 ∨ k = 4 := by omega
    refine ⟨?_, t10 k h1 (by omega), ?_, b10 k h1 h4, fun i => ⟨?_, ?_⟩⟩
    · rcases hk with h | h | h | h <;> subst h <;> assumption
    · rcases hk with h | h | h | h <;> subst h <;> assumption
    · simp only [attribByte]
      omega
    · simp only [attribByte, matrixColumnByte, sizeof_values.2.1, sizeof_values.2.2.1]
      omega
  · intro i
    constructor
    · simp only [attribByte]
    · simp only [attribByte, vectorByte, sizeof_values.2.2.2]
  · rw [b2]
    simp [Covers]
  · intro Params GameState q hq
    obtain ⟨First, Size01, Counts, Arrays, _, _, _, _, hb, hc1, hc2, pre, post, hcalls⟩ :=
      Initialize_bake Memory Params GameState q hq
    obtain ⟨ts, _, ha, ht1, ht2, _⟩ := bake_some _ _ _ _ _ _ hb
    simp only at ha ht1 ht2
    refine ⟨Arrays, pre, post, by rw [hcalls, hc1, hc2], ?_, ?_, ?_⟩
    · rw [hc1, ht1, ha]
      simp [arraysOf]
    · rw [hc1, ht1, ha]
      simp [arraysOf]
    · rw [hc2, ht2, ha]
      simp [arraysOf]

theorem C23_buffer_layout_witness :
    bufferAllocations (tilesBufferCalls scenarioMemory 2 scenarioArrays) = [64 + 72 * 2] ∧
    attribPointer (tilesBufferCalls scenarioMemory 2 scenarioArrays) 3
      = some (4, 64, 64 + 16 * (3 - 1)) ∧
    bufferAllocations (tileBoxesBufferCalls scenarioMemory 1 scenarioArrays) = [64 + 64 * 1] :=
  ⟨(C23_buffer_layout scenarioMemory 2 1 scenarioArrays).2.1.1,
   ((C23_buffer_layout scenarioMemory 2 1 scenarioArrays).2.2.1 3 (by decide) (by decide)).1,
   (C23_buffer_layout scenarioMemory 2 1 scenarioArrays).2.2.2.2.2.1.1⟩

theorem ndc_visible (x W z : f32) (hW : W ≠ 0) (hz : 0 < z) :
    (-1 ≤ 2 * (x - W / 2) / (W * z) ∧ 2 * (x - W / 2) / (W * z) ≤ 1) ↔
      |x - W / 2| ≤ |W| * z / 2 := by
  have hWz : 0 < |W * z| := abs_pos.mpr (mul_ne_zero hW (ne_of_gt hz))
  rw [← abs_le, abs_div, div_le_one hWz, abs_mul, abs_mul, abs_of_pos hz,
    abs_of_pos (by norm_num : (0 : f32) < 2)]
  constructor <;> intro h <;> linarith

/-- C24: with W and H the screen size in meters, both non-zero, and a zoom z > 0, the
view-projection matrix of the per-frame routine maps the world point (x, y) to
(2(x - W/2)/(W z), 2(y - H/2)/(H z)). The point (W/2, H/2), which is the screen centre in
meters and the world position of grid cell (0, 0), goes to (0, 0) at every zoom, and
the points mapped into [-1, 1] x [-1, 1] are those of the rectangle of size |W| z by
|H| z centred on it. The matrix is the one the routine uploads to both programs. -/
theorem C24_view_projection_formula (W H z : f32) (hW : W ≠ 0) (hH : H ≠ 0) (hz : 0 < z) :
    ∃ VP, FrameVP W H z = some VP ∧
      (∀ x y : f32, VP.mulVec ⟨x, y, 0, 1⟩
        = ⟨2 * (x - W / 2) / (W * z), 2 * (y - H / 2) / (H * z), 0, 1⟩) ∧
      VP.mulVec ⟨W / 2, H / 2, 0, 1⟩ = ⟨0, 0, 0, 1⟩ ∧
      (∀ Tileset : tileset,
        TileXMeters Tileset (ScreenCenterInMeters W H) 0 = W / 2 ∧
        TileYMeters Tileset (ScreenCenterInMeters W H) 0 = H / 2) ∧
      (∀ x y : f32,
        (-1 ≤ (VP.mulVec ⟨x, y, 0, 1⟩).x ∧ (VP.mulVec ⟨x, y, 0, 1⟩).x ≤ 1 ∧
          -1 ≤ (VP.mulVec ⟨x, y, 0, 1⟩).y ∧ (VP.mulVec ⟨x, y, 0, 1⟩).y ≤ 1) ↔
        (|x - W / 2| ≤ |W| * z / 2 ∧ |y - H / 2| ≤ |H| * z / 2)) ∧
      (∀ (Params : game_params) (GameState : game_state),
        GameState.ScreenWidthInMeters = W → GameState.ScreenHeightInMeters = H →
        (ProcessInput GameState Params.Input).Zoom = z →
        (Frame Params GameState).2[3]?
          = some (api_call.glUniformMatrix4fv GameState.VPUniformLocation (some VP)) ∧
        (Frame Params GameState).2[7]?
          = some (api_call.glUniformMatrix4fv GameState.VPUniformLocation2 (some VP))) := by
  have hz0 : z ≠ 0 := ne_of_gt hz
  have hgen : ∀ x y : f32, (⟨⟨2 / (W * z), 0, 0, 0⟩, ⟨0, 2 / (H * z), 0, 0⟩, ⟨0, 0, -1, 0⟩,
      ⟨-1 / z, -1 / z, 0, 1⟩⟩ : mat4).mulVec ⟨x, y, 0, 1⟩
        = ⟨2 * (x - W / 2) / (W * z), 2 * (y - H / 2) / (H * z), 0, 1⟩ := by
    intro x y
    simp only [mat4.mulVec, vec4.add, vec4.smul, vec4.mk.injEq]
    refine ⟨?_, ?_, ?_, ?_⟩ <;> field_simp <;> ring
  refine ⟨_, FrameVP_eq W H z hW hH hz0, hgen, ?_, ?_, ?_, ?_⟩
  · rw [hgen]
    simp
  · intro Tileset
    simp [TileXMeters, TileYMeters, ScreenCenterInMeters]
  · intro x y
    rw [hgen]
    simp only
    rw [← ndc_visible x W z hW hz, ← ndc_visible y H z hH hz]
    tauto
  · intro Params GameState h1 h2 h3
    have e1 : (ProcessInput GameState Params.Input).ScreenWidthInMeters = W := by
      rw [ProcessInput_eq]
      exact h1
    have e2 : (ProcessInput GameState Params.Input).ScreenHeightInMeters = H := by
      rw [ProcessInput_eq]
      exact h2
    have e3 : (ProcessInput GameState Params.Input).VPUniformLocation
        = GameState.VPUniformLocation := by rw [ProcessInput_eq]
    have e4 : (ProcessInput GameState Params.Input).VPUniformLocation2
        = GameState.VPUniformLocation2 := by rw [ProcessInput_eq]
    rw [Frame_eq]
    simp only [frameCalls, e1, e2, e3, e4, h3, FrameVP_eq W H z hW hH hz0]
    exact ⟨rfl, rfl⟩

theorem C24_view_projection_formula_witness :
    ∃ VP, FrameVP 20 15 (1 / 2) = some VP ∧
      VP.mulVec ⟨20 / 2, 15 / 2, 0, 1⟩ = ⟨0, 0, 0, 1⟩ ∧
      VP.mulVec ⟨15, 15 / 2, 0, 1⟩ = ⟨2 * (15 - 20 / 2) / (20 * (1 / 2)),
        2 * (15 / 2 - 15 / 2) / (15 * (1 / 2)), 0, 1⟩ := by
  obtain ⟨VP, h1, h2, h3, _⟩ := C24_view_projection_formula 20 15 (1 / 2) (by norm_num)
    (by norm_num) (by norm_num)
  exact ⟨VP, h1, h3, h2 15 (15 / 2)⟩

/-! ## Divisors, boxes and matrices of the baker (C25-C27) -/

theorem mapOpt_all {α β : Type} (f : α → Option β) :
    ∀ (l : List α) (r : List β), mapOpt f l = some r → ∀ a ∈ l, ∃ b, f a = some b
  | [], _, _, a, ha => by cases ha
  | x :: rest, r, h, a, ha => by
    simp only [mapOpt] at h
    cases hfx : f x with
    | none => simp [hfx] at h
    | some y =>
      cases hr : mapOpt f rest with
      | none => simp [hfx, hr] at h
      | some ys =>
        rcases List.mem_cons.mp ha with e | ha
        · exact ⟨y, by rw [e, hfx]⟩
        · exact mapOpt_all f rest ys hr a ha

theorem bakeCell_divisors (Tileset : tileset) (TilesetFirstGID : Nat) (Center Size01 : vec2)
    (c : map_cell) (t : tile_instance)
    (h : bakeCell Tileset TilesetFirstGID Center Size01 c = some t) :
    cellDivisorsOk Tileset TilesetFirstGID c := by
  unfold bakeCell at h
  obtain ⟨MapX, h1, h⟩ := bind_some_inv h
  obtain ⟨MapY, h2, h⟩ := bind_some_inv h
  obtain ⟨X, h3, h⟩ := bind_some_inv h
  obtain ⟨Y, h4, h⟩ := bind_some_inv h
  obtain ⟨Spaced, h5, h⟩ := bind_some_inv h
  refine ⟨?_, ?_, ?_, ?_, ?_, ?_⟩
  · intro h0
    simp [TileMapX, umod, h0] at h1
  · intro h0
    simp [TileMapY, udiv, h0] at h2
  · intro h0
    simp [TileX, umod, h0] at h3
  · intro h0
    simp [SpacedUVOffset, udiv, h0] at h5
  · intro h0
    by_cases hw : Tileset.Image.Width = 0
    · simp [SpacedUVOffset, udiv, hw] at h5
    · simp [SpacedUVOffset, udiv, hw, h0] at h5
  · intro hcount hpx
    simp only [cellBoxCount] at hcount
    cases hm : GetTileMetaInfo Tileset (u32sub c.GID TilesetFirstGID) with
    | none => simp [hm] at hcount
    | some TileInfo =>
      simp only [hm, tile_meta_info.BoxCount] at hcount h
      obtain ⟨Boxes, h6, _⟩ := bind_some_inv h
      cases hB : TileInfo.Boxes with
      | nil => simp [hB] at hcount
      | cons B rest =>
        have hp : TilesetPixelsToMeters Tileset = none := by
          simp [TilesetPixelsToMeters, fdiv, hpx]
        simp [hB, bakeBoxes, hp] at h6

/-- The baker returns exactly when no divisor it uses for a non-empty cell is zero. -/
theorem bake_returns_iff (Map : tiled_map) (Tileset : tileset) (TilesetFirstGID : Nat)
    (Center Size01 : vec2) :
    (∃ r, bake Map Tileset TilesetFirstGID Center Size01 = some r) ↔
      ∀ c ∈ nonEmptyCells Map, cellDivisorsOk Tileset TilesetFirstGID c := by
  constructor
  · rintro ⟨r, hr⟩ c hc
    obtain ⟨ts, hts, _⟩ := bake_some _ _ _ _ _ _ hr
    obtain ⟨t, ht⟩ := mapOpt_all _ _ _ hts c hc
    exact bakeCell_divisors _ _ _ _ c t ht
  · intro h
    obtain ⟨a, ha⟩ := secondPass_returns Map Tileset TilesetFirstGID Center Size01 h
    exact ⟨(firstPass Map Tileset TilesetFirstGID, a), by simp [bake, ha]⟩

/-- C25 (amended): the first pass divides nowhere. The second pass returns, so it meets
no zero divisor (and no store outside the arrays), for every map in which each chunk
holding a non-empty cell has Width and Height not 0 and whose tileset has Columns,
TileWidthInPixels, Image.Width and Image.Height not 0. None of the divisors is guarded:
the baker does not return as soon as a non-empty cell lies in a chunk of width or
height 0, or the tileset has 0 columns or an image of width or height 0, or the tile of
a non-empty cell has a box and the tile width is 0 pixels. -/
theorem C25_no_division_by_zero (Map : tiled_map) (Tileset : tileset) (TilesetFirstGID : Nat)
    (Center Size01 : vec2) :
    ((∀ c ∈ nonEmptyCells Map, c.Chunk.Width ≠ 0 ∧ c.Chunk.Height ≠ 0) →
      Tileset.Columns ≠ 0 → Tileset.TileWidthInPixels ≠ 0 →
      Tileset.Image.Width ≠ 0 → Tileset.Image.Height ≠ 0 →
      ∃ r, bake Map Tileset TilesetFirstGID Center Size01 = some r) ∧
    ((∃ r, bake Map Tileset TilesetFirstGID Center Size01 = some r) ↔
      ∀ c ∈ nonEmptyCells Map, cellDivisorsOk Tileset TilesetFirstGID c) ∧
    (∀ c ∈ nonEmptyCells Map,
      (c.Chunk.Width = 0 ∨ c.Chunk.Height = 0 ∨ Tileset.Columns = 0 ∨
        Tileset.Image.Width = 0 ∨ Tileset.Image.Height = 0 ∨
        (cellBoxCount Tileset TilesetFirstGID c ≠ 0 ∧ Tileset.TileWidthInPixels = 0)) →
      bake Map Tileset TilesetFirstGID Center Size01 = none) := by
  have hiff := bake_returns_iff Map Tileset TilesetFirstGID Center Size01
  refine ⟨?_, hiff, ?_⟩
  · intro hch hcol hpx hw hh
    exact hiff.mpr (fun c hc => ⟨(hch c hc).1, (hch c hc).2, hcol, hw, hh, fun _ => hpx⟩)
  · intro c hc hbad
    cases hb : bake Map Tileset TilesetFirstGID Center Size01 with
    | none => rfl
    | some r =>
      obtain ⟨h1, h2, h3, h4, h5, h6⟩ := hiff.mp ⟨r, hb⟩ c hc
      rcases hbad with h | h | h | h | h | ⟨hn, h⟩
      · exact absurd h h1
      · exact absurd h h2
      · exact absurd h h3
      · exact absurd h h4
      · exact absurd h h5
      · exact absurd h (h6 hn)

theorem C25_no_division_by_zero_witness :
    ∃ r, bake scenarioMap scenarioTileset 1 ⟨10, 15 / 2⟩ ⟨1 / 2, 1⟩ = some r :=
  (C25_no_division_by_zero scenarioMap scenarioTileset 1 ⟨10, 15 / 2⟩ ⟨1 / 2, 1⟩).1
    (by decide) (by decide) (by decide) (by decide) (by decide)

/-- C25, as stated, fails. The scenario map with the scenario tileset on an image 0
pixels wide meets every condition of the claim (chunk width and height 2, 2 columns,
tiles 16 pixels wide), and the second pass divides by the image width at the first
non-empty cell: the baker does not return. -/
theorem C25_no_division_by_zero_counterexample :
    (∀ c ∈ nonEmptyCells scenarioMap, 0 < c.Chunk.Width ∧ 0 < c.Chunk.Height) ∧
    0 < zeroImageTileset.Columns ∧ zeroImageTileset.TileWidthInPixels ≠ 0 ∧
    SpacedUVOffset zeroImageTileset 0 0 = none ∧
    bake scenarioMap zeroImageTileset 1 ⟨10, 15 / 2⟩ ⟨1 / 2, 1⟩ = none := by
  refine ⟨by decide, by decide, by decide, by decide, by decide!⟩

/-- The determinant of `mat4.det` is the determinant of the 4x4 matrix of the entries. -/
theorem mat4_det_eq (m : mat4) :
    m.det = Matrix.det (Matrix.of
      ![![m.c0.x, m.c1.x, m.c2.x, m.c3.x],
        ![m.c0.y, m.c1.y, m.c2.y, m.c3.y],
        ![m.c0.z, m.c1.z, m.c2.z, m.c3.z],
        ![m.c0.w, m.c1.w, m.c2.w, m.c3.w]]) := by
  rw [Matrix.det_succ_row_zero]
  simp only [Fin.sum_univ_succ, Matrix.det_fin_three, mat4.det, Matrix.submatrix_apply,
    Matrix.of_apply]
  have e : Fin.castSucc (2 : Fin 3) = (2 : Fin 4) := rfl
  simp [Fin.succAbove, Fin.lt_def, e]
  ring


theorem mapOpt_mem {α β : Type} (f : α → Option β) :
    ∀ (l : List α) (r : List β), mapOpt f l = some r →
      ∀ b ∈ r, ∃ a ∈ l, f a = some b
  | [], r, h, b, hb => by
    simp only [mapOpt, Option.some.injEq] at h
    subst h
    cases hb
  | x :: rest, r, h, b, hb => by
    simp only [mapOpt] at h
    cases hfx : f x with
    | none => simp [hfx] at h
    | some y =>
      cases hr : mapOpt f rest with
      | none => simp [hfx, hr] at h
      | some ys =>
        simp only [hfx, hr, Option.some_bind, Option.map_some', Option.some.injEq] at h
        subst h
        rcases List.mem_cons.mp hb with e | hb
        · exact ⟨x, List.mem_cons_self _ _, by rw [hfx, e]⟩
        · obtain ⟨a, ha, hfa⟩ := mapOpt_mem f rest ys hr b hb
          exact ⟨a, List.mem_cons_of_mem _ ha, hfa⟩

theorem ZFlat_of_scale (m : mat4) (x y : f32) (h0 : m.c0.z = 0) (h1 : m.c1.z = 0)
    (h3 : m.c3.z = 0) : ZFlat (glm.scale m ⟨x, y, 0⟩) := by
  refine ⟨?_, ?_, ?_, ?_⟩
  · simp [glm.scale, vec4.smul, vec4.zero]
  · simp [mat4.det, glm.scale, vec4.smul]
  · rintro ⟨N, hN⟩
    have h := congrArg (fun M : mat4 => M.c2.z) hN
    simp [mat4.mul, mat4.mulVec, glm.scale, vec4.smul, vec4.add, mat4.identity] at h
  · intro v
    simp [mat4.mulVec, glm.scale, vec4.smul, vec4.add, h0, h1, h3]

theorem TileInstanceModel_ZFlat (Tileset : tileset) (XMeters YMeters : f32) :
    ZFlat (TileInstanceModel Tileset XMeters YMeters) := by
  unfold TileInstanceModel
  apply ZFlat_of_scale <;> simp [glm.translate, mat4.identity, vec4.smul, vec4.add]

theorem TileBoxInstanceModel_ZFlat (Box : aabb) : ZFlat (TileBoxInstanceModel Box) := by
  unfold TileBoxInstanceModel
  apply ZFlat_of_scale <;> simp [glm.translate, mat4.identity, vec4.smul, vec4.add]

/-- C27: the tile matrix and the box matrix are scaled by 0 on the z axis, whatever the
tileset, the position and the box: the third column is zero, the determinant is 0, the
matrix has no inverse and every point is mapped to z = 0. So it is for every matrix of
both arrays the baker returns. -/
theorem C27_zero_z_scale (Tileset : tileset) :
    (∀ XMeters YMeters : f32, ZFlat (TileInstanceModel Tileset XMeters YMeters)) ∧
    (∀ Box : aabb, ZFlat (TileBoxInstanceModel Box)) ∧
    (∀ (Map : tiled_map) (TilesetFirstGID : Nat) (Center Size01 : vec2)
      (r : bake_counts × bake_arrays),
      bake Map Tileset TilesetFirstGID Center Size01 = some r →
        (∀ m ∈ r.2.TileInstanceModels, ZFlat m) ∧
        (∀ m ∈ r.2.TileBoxInstanceModels, ZFlat m)) := by
  refine ⟨TileInstanceModel_ZFlat Tileset, TileBoxInstanceModel_ZFlat, ?_⟩
  intro Map f Center Size01 r hr
  obtain ⟨ts, hts, ha, _⟩ := bake_some _ _ _ _ _ _ hr
  rw [ha]
  simp only [arraysOf, List.replicate_zero, List.append_nil, List.mem_map]
  constructor
  · rintro m ⟨t, ht, rfl⟩
    obtain ⟨c, _, hc⟩ := mapOpt_mem _ _ _ hts t ht
    obtain ⟨MapX, MapY, _, _, _, _, _, _, hM, _⟩ := bakeCell_values _ _ _ _ c t hc
    rw [hM]
    exact TileInstanceModel_ZFlat _ _ _
  · rintro m ⟨b, _, rfl⟩
    exact TileBoxInstanceModel_ZFlat b

theorem C27_zero_z_scale_witness :
    ZFlat (TileInstanceModel scenarioTileset 10 (15 / 2)) ∧
    ∀ m ∈ scenarioArrays.TileInstanceModels, ZFlat m :=
  ⟨(C27_zero_z_scale scenarioTileset).1 10 (15 / 2),
   ((C27_zero_z_scale scenarioTileset).2.2 scenarioMap 1 ⟨0, 0⟩ ⟨1 / 2, 1⟩
      (firstPass scenarioMap scenarioTileset 1, scenarioArrays)
      (by rw [bake, secondPass_scenario]; rfl)).1⟩

/-! ## Collision helpers and particles (C28-C30) -/

/-- C29: each component of the result of `SweptAABB` is <= 1 and the result is (1, 1)
when Delta = (0, 0). With P = Box.Position - Padding and S = Box.Size + Padding, the x
component is min(1, (P.x - Point.x)/Delta.x, (P.x + S.x - Point.x)/Delta.x) when
Delta.x != 0 and P.y < Point.y < P.y + S.y, and 1 otherwise; symmetrically for y. The
result can be negative: for the unit box at the origin, the point (5, 1/2) and
Delta = (1, 0) it is (-5, 1). -/
theorem C29_swept_aabb (Point Delta : vec2) (Box : aabb) (Padding : vec2) :
    (SweptAABB Point Delta Box Padding).x ≤ 1 ∧
    (SweptAABB Point Delta Box Padding).y ≤ 1 ∧
    (Delta = ⟨0, 0⟩ → SweptAABB Point Delta Box Padding = ⟨1, 1⟩) ∧
    (Delta.x ≠ 0 ∧ (Box.Position.sub Padding).y < Point.y ∧
        Point.y < (Box.Position.sub Padding).y + (Box.Size.add Padding).y →
      (SweptAABB Point Delta Box Padding).x
        = min 1 (min (((Box.Position.sub Padding).x - Point.x) / Delta.x)
            (((Box.Position.sub Padding).x + (Box.Size.add Padding).x - Point.x) / Delta.x))) ∧
    (¬ (Delta.x ≠ 0 ∧ (Box.Position.sub Padding).y < Point.y ∧
        Point.y < (Box.Position.sub Padding).y + (Box.Size.add Padding).y) →
      (SweptAABB Point Delta Box Padding).x = 1) ∧
    (Delta.y ≠ 0 ∧ (Box.Position.sub Padding).x < Point.x ∧
        Point.x < (Box.Position.sub Padding).x + (Box.Size.add Padding).x →
      (SweptAABB Point Delta Box Padding).y
        = min 1 (min (((Box.Position.sub Padding).y - Point.y) / Delta.y)
            (((Box.Position.sub Padding).y + (Box.Size.add Padding).y - Point.y) / Delta.y))) ∧
    (¬ (Delta.y ≠ 0 ∧ (Box.Position.sub Padding).x < Point.x ∧
        Point.x < (Box.Position.sub Padding).x + (Box.Size.add Padding).x) →
      (SweptAABB Point Delta Box Padding).y = 1) ∧
    SweptAABB ⟨5, 1 / 2⟩ ⟨1, 0⟩ ⟨⟨0, 0⟩, ⟨1, 1⟩⟩ ⟨0, 0⟩ = ⟨-5, 1⟩ := by
  have key : ∀ a b : f32, (if b < (if a < 1 then a else 1) then b else (if a < 1 then a else 1))
      = min 1 (min a b) := by
    intro a b
    by_cases ha : a < 1
    · simp only [ha, if_true]
      by_cases hb : b < a
      · simp only [hb, if_true]
        rw [min_eq_right (le_of_lt hb), min_eq_right (by linarith)]
      · simp only [hb, if_false]
        rw [min_eq_left (not_lt.mp hb), min_eq_right (le_of_lt ha)]
    · simp only [ha, if_false]
      by_cases hb : b < 1
      · simp only [hb, if_true]
        have hba : b ≤ a := by linarith [not_lt.mp ha]
        rw [min_eq_right hba, min_eq_right (le_of_lt hb)]
      · simp only [hb, if_false]
        rw [min_eq_left]
        exact le_min (not_lt.mp ha) (not_lt.mp hb)
  have hx : ∀ h : Delta.x ≠ 0 ∧ (Box.Position.sub Padding).y < Point.y ∧
        Point.y < (Box.Position.sub Padding).y + (Box.Size.add Padding).y,
      (SweptAABB Point Delta Box Padding).x
        = min 1 (min (((Box.Position.sub Padding).x - Point.x) / Delta.x)
            (((Box.Position.sub Padding).x + (Box.Size.add Padding).x - Point.x) / Delta.x)) := by
    intro h
    simp only [SweptAABB, h, and_self, if_true, ne_eq, not_false_eq_true]
    exact key _ _
  have hx1 : ¬ (Delta.x ≠ 0 ∧ (Box.Position.sub Padding).y < Point.y ∧
        Point.y < (Box.Position.sub Padding).y + (Box.Size.add Padding).y) →
      (SweptAABB Point Delta Box Padding).x = 1 := by
    intro h
    simp only [SweptAABB, h, if_false]
  have hy : ∀ h : Delta.y ≠ 0 ∧ (Box.Position.sub Padding).x < Point.x ∧
        Point.x < (Box.Position.sub Padding).x + (Box.Size.add Padding).x,
      (SweptAABB Point Delta Box Padding).y
        = min 1 (min (((Box.Position.sub Padding).y - Point.y) / Delta.y)
            (((Box.Position.sub Padding).y + (Box.Size.add Padding).y - Point.y) / Delta.y)) := by
    intro h
    simp only [SweptAABB, h, and_self, if_true, ne_eq, not_false_eq_true]
    exact key _ _
  have hy1 : ¬ (Delta.y ≠ 0 ∧ (Box.Position.sub Padding).x < Point.x ∧
        Point.x < (Box.Position.sub Padding).x + (Box.Size.add Padding).x) →
      (SweptAABB Point Delta Box Padding).y = 1 := by
    intro h
    simp only [SweptAABB, h, if_false]
  refine ⟨?_, ?_, ?_, hx, hx1, hy, hy1, by decide!⟩
  · by_cases h : Delta.x ≠ 0 ∧ (Box.Position.sub Padding).y < Point.y ∧
        Point.y < (Box.Position.sub Padding).y + (Box.Size.add Padding).y
    · rw [hx h]
      exact min_le_left _ _
    · rw [hx1 h]
  · by_cases h : Delta.y ≠ 0 ∧ (Box.Position.sub Padding).x < Point.x ∧
        Point.x < (Box.Position.sub Padding).x + (Box.Size.add Padding).x
    · rw [hy h]
      exact min_le_left _ _
    · rw [hy1 h]
  · intro h0
    have e1 : (SweptAABB Point Delta Box Padding).x = 1 := hx1 (by simp [h0])
    have e2 : (SweptAABB Point Delta Box Padding).y = 1 := hy1 (by simp [h0])
    cases hs : SweptAABB Point Delta Box Padding with
    | mk a b =>
      rw [hs] at e1 e2
      simp only at e1 e2
      rw [e1, e2]

theorem C29_swept_aabb_witness :
    (SweptAABB ⟨-1, 1 / 2⟩ ⟨2, 0⟩ ⟨⟨0, 0⟩, ⟨1, 1⟩⟩ ⟨0, 0⟩).x
      = min 1 (min ((((⟨0, 0⟩ : vec2).sub ⟨0, 0⟩).x - (-1)) / 2)
          ((((⟨0, 0⟩ : vec2).sub ⟨0, 0⟩).x + ((⟨1, 1⟩ : vec2).add ⟨0, 0⟩).x - (-1)) / 2)) ∧
    SweptAABB ⟨-1, 1 / 2⟩ ⟨0, 0⟩ ⟨⟨0, 0⟩, ⟨1, 1⟩⟩ ⟨0, 0⟩ = ⟨1, 1⟩ :=
  ⟨(C29_swept_aabb ⟨-1, 1 / 2⟩ ⟨2, 0⟩ ⟨⟨0, 0⟩, ⟨1, 1⟩⟩ ⟨0, 0⟩).2.2.2.1
      ⟨by norm_num, by norm_num [vec2.sub], by norm_num [vec2.sub, vec2.add]⟩,
   (C29_swept_aabb ⟨-1, 1 / 2⟩ ⟨0, 0⟩ ⟨⟨0, 0⟩, ⟨1, 1⟩⟩ ⟨0, 0⟩).2.2.1 rfl⟩

theorem scanParticles_spec (Particles : List particle) :
    ∀ (n i : Nat), i + n ≤ Particles.length →
      (∃ r, scanParticles Particles i n = some (some r) ∧ i ≤ r ∧ r < i + n ∧
        particleUnused Particles r ∧ ∀ j, i ≤ j → j < r → ¬ particleUnused Particles j) ∨
      (scanParticles Particles i n = some none ∧
        ∀ j, i ≤ j → j < i + n → ¬ particleUnused Particles j)
  | 0, i, _ => Or.inr ⟨rfl, fun j h1 h2 => by omega⟩
  | n + 1, i, h => by
    have hi : i < Particles.length := by omega
    have hget : Particles[i]? = some Particles[i] := List.getElem?_eq_getElem hi
    by_cases hl : Particles[i].Lifespan ≤ 0
    · refine Or.inl ⟨i, ?_, le_refl i, by omega, ⟨_, hget, hl⟩, fun j h1 h2 => by omega⟩
      simp [scanParticles, hget, hl]
    · have hstep : scanParticles Particles i (n + 1) = scanParticles Particles (i + 1) n := by
        simp [scanParticles, hget, hl]
      have hnot : ¬ particleUnused Particles i := by
        rintro ⟨p, hp, hpl⟩
        rw [hget] at hp
        simp only [Option.some.injEq] at hp
        rw [← hp] at hpl
        exact hl hpl
      rcases scanParticles_spec Particles n (i + 1) (by omega) with
        ⟨r, h1, h2, h3, h4, h5⟩ | ⟨h1, h2⟩
      · refine Or.inl ⟨r, by rw [hstep, h1], by omega, by omega, h4, fun j hj1 hj2 => ?_⟩
        rcases Nat.eq_or_lt_of_le hj1 with e | e
        · rw [← e]
          exact hnot
        · exact h5 j e hj2
      · refine Or.inr ⟨by rw [hstep, h1], fun j hj1 hj2 => ?_⟩
        rcases Nat.eq_or_lt_of_le hj1 with e | e
        · rw [← e]
          exact hnot
        · exact h2 j e (by omega)

/-- C30: for an emitter with LastUsedParticle < ParticlesCount, `FindFirstUnusedParticle`
returns (so it reads no particle outside the array) an index below ParticlesCount. If a
particle at or after LastUsedParticle has Lifespan <= 0 the result is the first such
index; otherwise, if a particle before LastUsedParticle has Lifespan <= 0, the result
is the first such index; if no particle has Lifespan <= 0 the result is 0. -/
theorem C30_find_first_unused (Emitter : particle_emitter)
    (h : Emitter.LastUsedParticle < Emitter.ParticlesCount) :
    ∃ r, FindFirstUnusedParticle Emitter = some r ∧ r < Emitter.ParticlesCount ∧
      ((∃ j, j < Emitter.ParticlesCount ∧ particleUnused Emitter.Particles j) →
        particleUnused Emitter.Particles r) ∧
      ((∃ j, Emitter.LastUsedParticle ≤ j ∧ j < Emitter.ParticlesCount ∧
          particleUnused Emitter.Particles j) →
        Emitter.LastUsedParticle ≤ r ∧
        ∀ j, Emitter.LastUsedParticle ≤ j → j < r → ¬ particleUnused Emitter.Particles j) ∧
      ((¬ ∃ j, Emitter.LastUsedParticle ≤ j ∧ j < Emitter.ParticlesCount ∧
          particleUnused Emitter.Particles j) →
        (∃ j, j < Emitter.LastUsedParticle ∧ particleUnused Emitter.Particles j) →
        r < Emitter.LastUsedParticle ∧ ∀ j, j < r → ¬ particleUnused Emitter.Particles j) ∧
      ((∀ j, j < Emitter.ParticlesCount → ¬ particleUnused Emitter.Particles j) → r = 0) := by
  unfold particle_emitter.ParticlesCount at h ⊢
  rcases scanParticles_spec Emitter.Particles (Emitter.Particles.length - Emitter.LastUsedParticle)
      Emitter.LastUsedParticle (by omega) with ⟨r, h1, h2, h3, h4, h5⟩ | ⟨h1, h2⟩
  · refine ⟨r, by simp [FindFirstUnusedParticle, particle_emitter.ParticlesCount, h1],
      by omega, fun _ => h4, fun _ => ⟨h2, h5⟩, fun hn => ?_, fun hn => ?_⟩
    · exact absurd ⟨r, h2, by omega, h4⟩ hn
    · exact absurd h4 (hn r (by omega))
  · have hno : ¬ ∃ j, Emitter.LastUsedParticle ≤ j ∧ j < Emitter.Particles.length ∧
        particleUnused Emitter.Particles j := by
      rintro ⟨j, hj1, hj2, hj3⟩
      exact h2 j hj1 (by omega) hj3
    rcases scanParticles_spec Emitter.Particles Emitter.LastUsedParticle 0 (by omega) with
      ⟨r, g1, _, g3, g4, g5⟩ | ⟨g1, g2⟩
    · refine ⟨r, by simp [FindFirstUnusedParticle, particle_emitter.ParticlesCount, h1, g1],
        by omega, fun _ => g4, fun hex => absurd hex hno,
        fun _ _ => ⟨by omega, fun j hj => g5 j (Nat.zero_le j) hj⟩, fun hn => ?_⟩
      exact absurd g4 (hn r (by omega))
    · have hnone : ∀ j, j < Emitter.Particles.length → ¬ particleUnused Emitter.Particles j := by
        intro j hj hu
        by_cases hjl : j < Emitter.LastUsedParticle
        · exact g2 j (Nat.zero_le j) (by omega) hu
        · exact h2 j (by omega) (by omega) hu
      refine ⟨0, by simp [FindFirstUnusedParticle, particle_emitter.ParticlesCount, h1, g1],
        by omega, fun ⟨j, hj, hu⟩ => absurd hu (hnone j hj), fun hex => absurd hex hno,
        fun _ ⟨j, hj, hu⟩ => absurd hu (hnone j (by omega)), fun _ => rfl⟩

theorem C30_find_first_unused_witness :
    ∃ r, FindFirstUnusedParticle ⟨2, [⟨1⟩, ⟨0⟩, ⟨3⟩, ⟨2⟩]⟩ = some r ∧ r = 1 := by
  obtain ⟨r, h1, _, _, _, h5, _⟩ :=
    C30_find_first_unused ⟨2, [⟨1⟩, ⟨0⟩, ⟨3⟩, ⟨2⟩]⟩ (by decide)
  refine ⟨r, h1, ?_⟩
  have e : FindFirstUnusedParticle ⟨2, [⟨1⟩, ⟨0⟩, ⟨3⟩, ⟨2⟩]⟩ = some 1 := by decide!
  rw [e] at h1
  exact (Option.some.inj h1).symm

end Fuzzy
